import Mathlib

/-!
# DeviceScript manager: program store, deploy and readback sessions

A shallow embedding of `runtime/devicescript/devsmgr.c`, followed by the generated
tables of `runtime/devicescript/protogen.c`.  The service state
`struct srv_state` becomes the record `State`; every C function becomes a Lean
function that takes the state and returns the new state (and the C return
value where there is one).  The global tick counter `now` is a field of the
state that only the environment changes.

Conventions.
* `uint32_t` and `unsigned` values are natural numbers; sums that the C code
  computes in 32 bits are reduced modulo `U32`.
* The flash region that starts at `cfg->program_base` is a function from byte
  offsets to byte values.  Words are little endian, as on every target of the
  runtime.
* Calls into collaborators that are not part of the manager (flash driver,
  pipes, event bus) are recorded in traces kept in the state, so that "no
  flash write happened" or "one event was sent" can be stated.
-/

namespace Devsmgr

/-! ## Constants of devsmgr.c -/

/-- DEVSMGR_ALIGN. -/
def DEVSMGR_ALIGN : Nat := 32

/-- DEVSMGR_PROG_MAGIC0. -/
def DEVSMGR_PROG_MAGIC0 : Nat := 0x8d8abd53

/-- DEVSMGR_PROG_MAGIC1. -/
def DEVSMGR_PROG_MAGIC1 : Nat := 0xb27c4b2b

/-- The value of sizeof(devsmgr_program_header_t): four words and 28 reserved words. -/
def HEADER_SIZE : Nat := 128

/-- Two to the power 32: the modulus of uint32_t arithmetic. -/
def U32 : Nat := 4294967296

/-- SECONDS(n), for an integer n. -/
def SECONDS (n : Nat) : Nat := (n * 1024 * 1024) % U32

/-- MS(n). -/
def MS (n : Nat) : Nat := (n * 1024) % U32

/-- JD_PIPE_OK. -/
def JD_PIPE_OK : Int := 0

/-- JD_PIPE_TRY_AGAIN. -/
def JD_PIPE_TRY_AGAIN : Int := 1

/-- The 160 bytes of devs_empty_program. -/
def devs_empty_program : List Nat :=
  [0x44, 0x65, 0x76, 0x53, 0x0a, 0x7e, 0x6a, 0x9a, 0x00, 0x00, 0x00, 0x04, 0x01, 0x00, 0x00, 0x00,
   0x00, 0x00, 0x00, 0x00, 0x00, 0x00, 0x00, 0x00, 0x00, 0x00, 0x00, 0x00, 0x00, 0x00, 0x00, 0x00,
   0x68, 0x00, 0x00, 0x00, 0x20, 0x00, 0x00, 0x00, 0x88, 0x00, 0x00, 0x00, 0x0c, 0x00, 0x00, 0x00,
   0x94, 0x00, 0x00, 0x00, 0x00, 0x00, 0x00, 0x00, 0x94, 0x00, 0x00, 0x00, 0x00, 0x00, 0x00, 0x00,
   0x94, 0x00, 0x00, 0x00, 0x00, 0x00, 0x00, 0x00, 0x94, 0x00, 0x00, 0x00, 0x00, 0x00, 0x00, 0x00,
   0x94, 0x00, 0x00, 0x00, 0x00, 0x00, 0x00, 0x00, 0x94, 0x00, 0x00, 0x00, 0x04, 0x00, 0x00, 0x00,
   0x98, 0x00, 0x00, 0x00, 0x00, 0x00, 0x00, 0x00, 0x88, 0x00, 0x00, 0x00, 0x08, 0x00, 0x00, 0x00,
   0x00, 0x00, 0x00, 0x00, 0x50, 0x40, 0x00, 0x00, 0x90, 0x00, 0x00, 0x00, 0x04, 0x00, 0x00, 0x00,
   0x00, 0x00, 0x00, 0x00, 0x34, 0x40, 0x00, 0x00, 0x27, 0x01, 0x02, 0x90, 0x0c, 0x00, 0x00, 0x00,
   0x2e, 0x0c, 0x00, 0x00, 0x00, 0x00, 0x00, 0x00, 0x00, 0x00, 0x00, 0x00, 0x00, 0x00, 0x00, 0x00]

/-! ## Data model -/

/-- The three status codes the manager reports (JD_STATUS_CODES_*). -/
inductive Status
  | READY
  | SLEEPING
  | WAITING_FOR_INPUT
  deriving DecidableEq, Repr

/-- Events sent with jd_send_event / jd_send_event_ext. -/
inductive Event
  | status_code_changed (st : Status)
  | program_panic (panic_code program_counter : Nat)
  | change
  deriving DecidableEq, Repr

/-- Calls into the flash driver, in the order they were made.  A program call also records
whether every byte of its target range read as erased (0xFF) when the call was made. -/
inductive FlashOp
  | erase (off : Nat)
  | program (off : Nat) (data : List Nat) (onErased : Bool)
  | sync
  deriving DecidableEq, Repr

/-- Calls on the readback output pipe: a write with the result the pipe gave, or a close. -/
inductive PipeOp
  | write (data : List Nat) (r : Int)
  | close
  deriving DecidableEq, Repr

/-- An execution context (devs_ctx_t): the bytes it was created from, whether these are the
built-in devs_empty_program, and the logging flag last forwarded to it. -/
structure Ctx where
  img : List Nat
  builtin : Bool
  logging : Nat
  deriving DecidableEq, Repr

/-- The parsed devsmgr_program_header_t: the words at offsets 0, 4, 8 and 12. -/
structure Header where
  magic0 : Nat
  size : Nat
  magic1 : Nat
  hash : Nat
  deriving DecidableEq, Repr

/-- What the manager takes from outside devsmgr.c: the configuration (devsmgr_cfg_t), the
platform constants and the engine entry points.  None of them is defined in the manager, so
they are parameters of the model. -/
structure Env where
  /-- The field cfg->max_program_size. -/
  max_program_size : Nat
  /-- JD_FLASH_PAGE_SIZE. -/
  flash_page_size : Nat
  /-- JD_SERIAL_PAYLOAD_SIZE. -/
  payload_size : Nat
  /-- DEVS_PANIC_REBOOT. -/
  panic_reboot : Nat
  /-- DEVS_IMG_VERSION. -/
  img_version : Nat
  /-- The result of devs_verify(img, size). -/
  devs_verify : List Nat → Int
  /-- Whether devs_create_ctx(img, size, cfg) returns a context (true) or NULL (false). -/
  devs_create_ctx : List Nat → Bool
  /-- The digest computed by jd_sha256_setup / update / finish. -/
  sha256 : List Nat → List Nat

/-- The service state (struct srv_state), the flash region at cfg->program_base, the global
tick counter, and the traces of calls to collaborators. -/
structure State where
  running : Nat
  autostart : Nat
  logging : Nat
  next_restart : Nat
  ctx : Option Ctx
  write_offset : Nat
  read_program_ptr : Int
  /-- Flash bytes, by offset from cfg->program_base. -/
  flash : Nat → Nat
  /-- The global tick counter. -/
  now : Nat
  events : List Event
  flash_ops : List FlashOp
  pipe_log : List PipeOp

/-! ## Flash driver and helpers that live outside devsmgr.c -/

/-- Modelled from the spec: the page erase of the raw flash driver (flash_erase), which the
spec lists as an external collaborator.  The page of `page` bytes starting at `off` reads as
erased (0xFF) afterwards. -/
def erase_page (page : Nat) (f : Nat → Nat) (off : Nat) : Nat → Nat :=
  fun a => if off ≤ a ∧ a < off + page then 255 else f a

/-- Modelled from the spec: the programming primitive of the raw flash driver (flash_program).
Programming can only clear bits, so a byte reads back as written when it was erased (or held
the same value) before; this is why the spec has the next page erased before it is written. -/
def program_bytes (f : Nat → Nat) (off : Nat) (data : List Nat) : Nat → Nat :=
  fun a => if off ≤ a ∧ a < off + data.length then f a &&& data.getD (a - off) 255 else f a

/-- Modelled from the spec: the checksum jd_hash_fnv1a (32-bit FNV-1a), a library function
outside the manager: h starts at 0x811c9dc5 and each byte updates it to (h xor b) * 0x1000193
in 32 bits. -/
def jd_hash_fnv1a (data : List Nat) : Nat :=
  data.foldl (fun h b => ((h ^^^ b) * 0x1000193) % U32) 0x811c9dc5

/-- Modelled from the spec: in_future(moment) of the tick library, the wraparound-safe test
that moment is not before now: the 32-bit difference moment - now is below 2^29. -/
def in_future (now moment : Nat) : Bool :=
  ((U32 + moment % U32 - now % U32) % U32) / 536870912 == 0

/-- Modelled from the spec: jd_should_sample(&sample, period) of the tick library.  When the
deadline is still in the future nothing happens; otherwise the deadline is moved to
now + period and the result is true. -/
def jd_should_sample (now sample period : Nat) : Bool × Nat :=
  if in_future now sample then (false, sample) else (true, (now + period) % U32)

/-- The call flash_erase(program_base + off). -/
def flash_erase (env : Env) (s : State) (off : Nat) : State :=
  { s with flash := erase_page env.flash_page_size s.flash off,
           flash_ops := s.flash_ops ++ [FlashOp.erase off] }

/-- Whether the len bytes from off all read as erased. -/
def range_erased (f : Nat → Nat) (off len : Nat) : Bool :=
  (List.range len).all (fun i => f (off + i) == 255)

/-- The call flash_program(program_base + off, data, len). -/
def flash_program (s : State) (off : Nat) (data : List Nat) : State :=
  { s with flash := program_bytes s.flash off data,
           flash_ops := s.flash_ops ++
             [FlashOp.program off data (range_erased s.flash off data.length)] }

/-- The call flash_sync(). -/
def flash_sync (s : State) : State :=
  { s with flash_ops := s.flash_ops ++ [FlashOp.sync] }

/-- The call jd_send_event / jd_send_event_ext. -/
def jd_send_event (s : State) (e : Event) : State :=
  { s with events := s.events ++ [e] }

/-! ## Reading the header -/

/-- The little-endian 32-bit word at byte offset off. -/
def rd32 (f : Nat → Nat) (off : Nat) : Nat :=
  f off % 256 + 256 * (f (off + 1) % 256) + 65536 * (f (off + 2) % 256)
    + 16777216 * (f (off + 3) % 256)

/-- The four bytes of a 32-bit word, little endian. -/
def le32 (x : Nat) : List Nat :=
  [x % 256, x / 256 % 256, x / 65536 % 256, x / 16777216 % 256]

/-- The struct at cfg->program_base, read field by field. -/
def program_header (s : State) : Header :=
  { magic0 := rd32 s.flash 0, size := rd32 s.flash 4,
    magic1 := rd32 s.flash 8, hash := rd32 s.flash 12 }

/-- The bytes hd->image[off .. off+len): flash offsets HEADER_SIZE + off onwards. -/
def image (s : State) (off len : Nat) : List Nat :=
  (List.range len).map (fun i => s.flash (HEADER_SIZE + off + i))

/-- The function devs_header. -/
def devs_header (s : State) : Option Header :=
  let hd := program_header s
  if hd.magic0 = DEVSMGR_PROG_MAGIC0 ∧ hd.magic1 = DEVSMGR_PROG_MAGIC1 then some hd else none

/-! ## Status and execution context -/

/-- The function current_status. -/
def current_status (s : State) : Status :=
  if s.ctx.isSome then Status.READY
  else
    match devs_header s with
    | some hd => if hd.size ≠ 0 then Status.SLEEPING else Status.WAITING_FOR_INPUT
    | none => Status.WAITING_FOR_INPUT

/-- The function send_status. -/
def send_status (s : State) : State :=
  let st := current_status s
  jd_send_event { s with running := if st = Status.READY then 1 else 0 }
    (Event.status_code_changed st)

/-- The function run_img.  The old context, if any, is freed and the handle replaced by the
result of devs_create_ctx; the hook devsdbg_restarted is a no-op by default. -/
def run_img (env : Env) (s : State) (img : List Nat) (builtin : Bool) : State :=
  if env.devs_create_ctx img then
    { s with ctx := some { img := img, builtin := builtin, logging := s.logging } }
  else
    { s with ctx := none }

/-- The function try_run. -/
def try_run (env : Env) (s : State) : State :=
  match devs_header s with
  | some hd =>
    if hd.size ≠ 0 ∧ env.devs_verify (image s 0 hd.size) = 0 then
      send_status (run_img env s (image s 0 hd.size) false)
    else
      send_status (run_img env s devs_empty_program true)
  | none => send_status (run_img env s devs_empty_program true)

/-- The function stop_program. -/
def stop_program (s : State) : State :=
  send_status { s with ctx := none }

/-! ## Polling -/

/-- The conversion of a uint32_t to int (two's complement). -/
def toInt32 (x : Nat) : Int :=
  if x % U32 < 2147483648 then ((x % U32 : Nat) : Int) else ((x % U32 : Nat) : Int) - 4294967296

/-- The readback part of devsmgr_process (the first if block).  The argument pipe_r is the
result jd_opipe_write gives if it is called. -/
def process_readback (env : Env) (s : State) (pipe_r : Int) : State :=
  if 0 ≤ s.read_program_ptr then
    let sz : Int :=
      match devs_header s with
      | some hd => toInt32 hd.size
      | none => 0
    if sz ≤ s.read_program_ptr then
      { s with pipe_log := s.pipe_log ++ [PipeOp.close], read_program_ptr := -1 }
    else
      let sz : Int := if sz > (env.payload_size : Int) then (env.payload_size : Int) else sz
      let chunk := image s s.read_program_ptr.toNat sz.toNat
      let s1 := { s with pipe_log := s.pipe_log ++ [PipeOp.write chunk pipe_r] }
      if pipe_r = JD_PIPE_OK then
        { s1 with read_program_ptr := s1.read_program_ptr + sz }
      else if pipe_r = JD_PIPE_TRY_AGAIN then
        s1
      else
        { s1 with read_program_ptr := -1, pipe_log := s1.pipe_log ++ [PipeOp.close] }
  else s

/-- The restart-timer part of devsmgr_process (the second if block). -/
def process_autostart (env : Env) (s : State) : State :=
  let r := jd_should_sample s.now s.next_restart (SECONDS 8)
  let s1 := { s with next_restart := r.2 }
  if r.1 then
    if s1.autostart ≠ 0 ∧ s1.ctx.isNone then try_run env s1 else s1
  else s1

/-- The fault-detection part of devsmgr_process (the rest of the function).  The arguments
code and pc are what devs_error_code reports if it is called. -/
def process_fault (env : Env) (s : State) (code pc : Nat) : State :=
  if s.ctx.isNone then s
  else if code ≠ 0 then
    let s1 := jd_send_event s
      (Event.program_panic (if code = env.panic_reboot then 0 else code) pc)
    let s2 := stop_program s1
    { s2 with next_restart := (s2.now + SECONDS (if code = env.panic_reboot then 1 else 5)) % U32 }
  else s

/-- The function devsmgr_process. -/
def devsmgr_process (env : Env) (s : State) (pipe_r : Int) (code pc : Nat) : State :=
  process_fault env (process_autostart env (process_readback env s pipe_r)) code pc

/-- The function devsmgr_restart. -/
def devsmgr_restart (s : State) : State :=
  let s1 := stop_program s
  { s1 with next_restart := (s1.now + MS 50) % U32 }

/-! ## Program store -/

/-- The function devsmgr_deploy_start.  The limit max_program_size - sizeof(hd) is computed
in 32 bits, as on the 32-bit targets of the runtime. -/
def devsmgr_deploy_start (env : Env) (s : State) (sz : Nat) : Int × State :=
  if sz ≥ (U32 + env.max_program_size - HEADER_SIZE) % U32 ∨ sz &&& (DEVSMGR_ALIGN - 1) ≠ 0 then
    (-1, s)
  else
    let s1 := stop_program s
    let s2 := flash_erase env s1 0
    if sz = 0 then (0, s2)
    else
      let s3 := flash_program s2 0 (le32 DEVSMGR_PROG_MAGIC0 ++ le32 sz)
      let s4 := { s3 with write_offset := HEADER_SIZE }
      (0, send_status s4)

/-- The bytes finalize programs at offset 8: magic1, the hash and the zeroed reserved words
(sizeof(hd) - 8 = 120 bytes of the local header). -/
def finalize_bytes (hash : Nat) : List Nat :=
  le32 DEVSMGR_PROG_MAGIC1 ++ le32 hash ++ List.replicate 112 0

/-- The function devsmgr_deploy_write: the value it returns and the state it leaves when the
call returns.  A NULL buffer is none; a chunk is some data, with size = data.length.  Flash
reads are total in this definition.  In the finalize the source computes the hash, reading
hdf->size bytes of flash, before it compares write_offset with the declared end; whether that
read stays inside the program region, and so whether the call returns at all, is stated by
finalize_read_end and deploy_write_call. -/
def devsmgr_deploy_write (env : Env) (s : State) (buf : Option (List Nat)) : Int × State :=
  if s.write_offset = 0 then (-1, s)
  else
    match buf with
    | none =>
      let hdf := program_header s
      let hash := jd_hash_fnv1a (image s 0 hdf.size)
      let endp := (hdf.size + HEADER_SIZE) % U32
      if s.write_offset ≠ endp then (-1, s)
      else
        let s1 := flash_program s 8 (finalize_bytes hash)
        let s2 := flash_sync s1
        let s3 := stop_program s2
        let s4 := jd_send_event s3 Event.change
        (0, { s4 with next_restart := s4.now })
    | some data =>
      let size := data.length
      let endp := ((program_header s).size + HEADER_SIZE) % U32
      if size &&& (DEVSMGR_ALIGN - 1) ≠ 0 ∨ (s.write_offset + size) % U32 > endp
          ∨ size ≥ env.flash_page_size then
        (-1, { s with write_offset := 0 })
      else
        let s1 :=
          if s.write_offset / env.flash_page_size
              ≠ (s.write_offset + size) % U32 / env.flash_page_size then
            flash_erase env s (((s.write_offset + size) % U32) &&& (U32 - env.flash_page_size))
          else s
        let s2 := flash_program s1 s1.write_offset data
        (0, { s2 with write_offset := (s2.write_offset + size) % U32 })

/-- The size of the chunk devsmgr_deploy writes at offset soff: sz = imgsize - soff, capped
at 128. -/
def deploy_chunk_size (imgsize soff : Nat) : Nat :=
  if imgsize - soff > 128 then 128 else imgsize - soff

/-- The chunk loop of devsmgr_deploy, from offset soff.  Returns -3 at the first rejected
chunk and 0 when the loop ends; none when the fuel runs out first. -/
def deploy_loop (env : Env) : Nat → State → List Nat → Nat → Option (Int × State)
  | 0, s, img, soff => if soff < img.length then none else some (0, s)
  | fuel + 1, s, img, soff =>
    if soff < img.length then
      let r := devsmgr_deploy_write env s
        (some ((img.drop soff).take (deploy_chunk_size img.length soff)))
      if r.1 ≠ 0 then some (-3, r.2)
      else deploy_loop env fuel r.2 img (soff + deploy_chunk_size img.length soff)
    else some (0, s)

/-- The end of devsmgr_deploy, after the chunk loop: the finalize call, the header check and
the structural verification. -/
def deploy_finish (env : Env) (s : State) : Int × State :=
  let r := devsmgr_deploy_write env s none
  if r.1 ≠ 0 then (-4, r.2)
  else
    match devs_header r.2 with
    | none => (-5, r.2)
    | some hdx => (env.devs_verify (image r.2 0 hdx.size), r.2)

/-- The function devsmgr_deploy, with imgsize = img.length. -/
def devsmgr_deploy (env : Env) (s : State) (img : List Nat) : Option (Int × State) :=
  let r := devsmgr_deploy_start env s img.length
  if r.1 ≠ 0 then some (-1, r.2)
  else if img.length = 0 then some (-2, r.2)
  else
    match deploy_loop env img.length r.2 img 0 with
    | none => none
    | some (c, s1) => if c ≠ 0 then some (-3, s1) else some (deploy_finish env s1)

/-! ## Queries and packets -/

/-- The function devsmgr_get_hash: the return value and the 32 bytes left in the buffer. -/
def devsmgr_get_hash (env : Env) (s : State) : Int × List Nat :=
  match devs_header s with
  | some hd => (0, env.sha256 (image s 0 hd.size))
  | none => (-1, List.replicate 32 0)

/-- The value sent for a read of the program-size register. -/
def program_size_query (s : State) : Nat :=
  match devs_header s with
  | some hd => hd.size
  | none => 0

/-- The value sent for a read of the program-hash register. -/
def program_hash_query (s : State) : Nat :=
  match devs_header s with
  | some hd => hd.hash
  | none => 0

/-- The packets devsmgr_handle_packet tells apart.  For deploy_bytecode the port is the
result of jd_ipipe_open; for read_bytecode open_r is the result of jd_opipe_open_cmd; the
three set_ commands are register writes of one byte. -/
inductive Cmd
  | deploy_bytecode (sz port : Nat)
  | read_bytecode (open_r : Int)
  | get_program_size
  | get_program_hash
  | get_program_sha256
  | get_status_code
  | get_runtime_version
  | set_running (v : Nat)
  | set_autostart (v : Nat)
  | set_logging (v : Nat)
  | other

/-- What a packet is answered with. -/
inductive Response
  | u16 (v : Nat)
  | u32 (v : Nat)
  | status (st : Status)
  | bytes (data : List Nat)
  deriving DecidableEq, Repr

/-- The function deploy_bytecode. -/
def deploy_bytecode (env : Env) (s : State) (sz port : Nat) : State × Option Response :=
  let r := devsmgr_deploy_start env s sz
  if r.1 ≠ 0 then (r.2, none) else (r.2, some (Response.u16 port))

/-- The function devsmgr_handle_packet.  Modelled from the spec: the register write done by
service_handle_register_final, which is outside the manager, stores the written byte in the
field of the register before the manager reacts. -/
def devsmgr_handle_packet (env : Env) (s : State) : Cmd → State × Option Response
  | Cmd.deploy_bytecode sz port => deploy_bytecode env s sz port
  | Cmd.read_bytecode open_r =>
    if open_r = 0 then ({ s with read_program_ptr := 0 }, none) else (s, none)
  | Cmd.get_program_size => (s, some (Response.u32 (program_size_query s)))
  | Cmd.get_program_hash => (s, some (Response.u32 (program_hash_query s)))
  | Cmd.get_program_sha256 => (s, some (Response.bytes (devsmgr_get_hash env s).2))
  | Cmd.get_status_code => (s, some (Response.status (current_status s)))
  | Cmd.get_runtime_version => (s, some (Response.u32 env.img_version))
  | Cmd.set_running v =>
    let s1 := { s with running := v % 256 }
    if s1.running ≠ 0 ∧ s1.ctx.isNone then
      (try_run env { s1 with running := 0 }, none)
    else if s1.running = 0 ∧ s1.ctx.isSome then
      (stop_program s1, none)
    else (s1, none)
  | Cmd.set_autostart v =>
    let s1 := { s with autostart := v % 256 }
    if s1.autostart ≠ 0 then ({ s1 with next_restart := s1.now }, none) else (s1, none)
  | Cmd.set_logging v =>
    let s1 := { s with logging := v % 256 }
    match s1.ctx with
    | some c => ({ s1 with ctx := some { c with logging := s1.logging } }, none)
    | none => (s1, none)
  | Cmd.other => (s, none)

/-- The function devsmgr_init, on a service state allocated zeroed, with the flash content
and the tick counter found at boot.  SECONDS(1.5) is 1572864. -/
def devsmgr_init (flash : Nat → Nat) (now : Nat) : State :=
  { running := 0, autostart := 1, logging := 1,
    next_restart := (now % U32 + 1572864) % U32,
    ctx := none, write_offset := 0, read_program_ptr := -1,
    flash := flash, now := now % U32,
    events := [], flash_ops := [], pipe_log := [] }

/-! ## Runs of the manager -/

/-- One call into the manager, or a change of the tick counter by the environment. -/
inductive Op
  | tick (t : Nat)
  | process (pipe_r : Int) (code pc : Nat)
  | restart
  | deploy_start (sz : Nat)
  | deploy_write (buf : Option (List Nat))
  | deploy (img : List Nat)
  | packet (cmd : Cmd)

/-- The state devsmgr_deploy leaves.  The model always returns (devsmgr_deploy_total), so the
none case is never taken. -/
def deploy_state (env : Env) (s : State) (img : List Nat) : State :=
  match devsmgr_deploy env s img with
  | some r => r.2
  | none => s

/-- The state after one call. -/
def step (env : Env) (s : State) : Op → State
  | Op.tick t => { s with now := t % U32 }
  | Op.process pipe_r code pc => devsmgr_process env s pipe_r code pc
  | Op.restart => devsmgr_restart s
  | Op.deploy_start sz => (devsmgr_deploy_start env s sz).2
  | Op.deploy_write buf => (devsmgr_deploy_write env s buf).2
  | Op.deploy img => deploy_state env s img
  | Op.packet cmd => (devsmgr_handle_packet env s cmd).1

/-- The state after a sequence of calls. -/
def run (env : Env) (s : State) (ops : List Op) : State :=
  ops.foldl (step env) s

/-- The states the manager can be in: those reached from devsmgr_init, on any flash content
and at any tick, by any sequence of calls. -/
def Reachable (env : Env) (s : State) : Prop :=
  ∃ flash now ops, s = run env (devsmgr_init flash now) ops

/-- The state after a sequence of devsmgr_deploy_write calls (chunks and NULL buffers). -/
def write_run (env : Env) (s : State) (bufs : List (Option (List Nat))) : State :=
  bufs.foldl (fun st b => (devsmgr_deploy_write env st b).2) s

/-- The return values of a sequence of devsmgr_deploy_write calls, in order. -/
def write_results (env : Env) : State → List (Option (List Nat)) → List Int
  | _, [] => []
  | s, b :: bs =>
    (devsmgr_deploy_write env s b).1 :: write_results env (devsmgr_deploy_write env s b).2 bs

/-- The bytes the readback pipe accepted: the data of the writes that returned JD_PIPE_OK,
concatenated in order. -/
def pipe_output : List PipeOp → List Nat
  | [] => []
  | PipeOp.write data r :: rest =>
    if r = JD_PIPE_OK then data ++ pipe_output rest else pipe_output rest
  | PipeOp.close :: rest => pipe_output rest

/-! ## Vocabulary of the statements -/

/-- The flash page size is a power of two that fits 32 bits (JD_FLASH_PAGE_SIZE is a constant
of the platform). -/
def Env.page_ok (env : Env) : Prop :=
  (∃ k, env.flash_page_size = 2 ^ k) ∧ env.flash_page_size ≤ U32

/-- The configurations the manager is built for: the flash page size is a power of two that
holds the header, the program region holds the header, and the region followed by one more
page fits in the 32-bit address space. -/
def Env.wf (env : Env) : Prop :=
  (∃ k, env.flash_page_size = 2 ^ k) ∧ HEADER_SIZE ≤ env.flash_page_size ∧
  HEADER_SIZE ≤ env.max_program_size ∧ env.max_program_size + env.flash_page_size ≤ U32

/-- Every byte of the half-open range from lo to hi reads as erased. -/
def erased (f : Nat → Nat) (lo hi : Nat) : Prop :=
  ∀ a, lo ≤ a → a < hi → f a = 255

/-- Whether a flash call programs the byte at offset a. -/
def FlashOp.covers (a : Nat) : FlashOp → Bool
  | FlashOp.program off data _ => decide (off ≤ a ∧ a < off + data.length)
  | _ => false

/-- Whether a flash call is an erase, a sync, or a program call onto erased bytes. -/
def FlashOp.clean : FlashOp → Bool
  | FlashOp.program _ _ e => e
  | _ => true

/-- How many calls of a trace program the byte at offset a. -/
def times_programmed (ops : List FlashOp) (a : Nat) : Nat :=
  (ops.filter (FlashOp.covers a)).length

/-- A list of byte values. -/
def is_bytes (l : List Nat) : Prop := ∀ b ∈ l, b < 256

/-! ## Concrete configurations and states used as instances -/

/-- A configuration with 1 KiB flash pages, a 4 KiB program region and the 236-byte packet
payload of the transport; verification accepts every image and context creation succeeds. -/
def demo_env : Env :=
  { max_program_size := 4096, flash_page_size := 1024, payload_size := 236,
    panic_reboot := 60000, img_version := 0,
    devs_verify := fun _ => 0, devs_create_ctx := fun _ => true,
    sha256 := fun _ => List.replicate 32 0 }

/-- The state right after devsmgr_init at tick 0 on flash that reads all zeros. -/
def boot_state : State := devsmgr_init (fun _ => 0) 0

/-- A 64-byte test pattern. -/
def pattern64 : List Nat := (List.range 64).map (fun i => (7 * i + 3) % 256)

/-- A 256-byte test image. -/
def image256 : List Nat := (List.range 256).map (fun i => (5 * i + 1) % 256)

/-- A state with a stored valid program (pattern64, deployed in bulk) and a running context
started through the running register. -/
def stored_state : State :=
  run demo_env boot_state [Op.deploy pattern64, Op.packet (Cmd.set_running 1)]

/-- An open deploy session for a 2048-byte image, right after deploy_start(2048). -/
def session2048 : State := (devsmgr_deploy_start demo_env boot_state 2048).2

/-- A chunk of exactly one flash page of demo_env (1024 bytes). -/
def page_chunk : List Nat := List.replicate 1024 0

/-- The program store is untouched between two states: same flash content, same
write_offset, same trace of flash calls. -/
def same_store (s t : State) : Prop :=
  t.flash = s.flash ∧ t.write_offset = s.write_offset ∧ t.flash_ops = s.flash_ops

/-- The end of the declared image as devsmgr_deploy_write computes it: the size field of the
flash header plus the header size, in 32 bits. -/
def endp (s : State) : Nat := (rd32 s.flash 4 + HEADER_SIZE) % U32

/-- The invariant of the deploy session: write_offset is 0, or it is a multiple of 32 from
128 up to below max_program_size, the declared end lies below max_program_size, and a valid
header implies that exactly the declared bytes have been written. -/
def session_inv (env : Env) (s : State) : Prop :=
  s.write_offset = 0 ∨
  (HEADER_SIZE ≤ s.write_offset ∧ s.write_offset < env.max_program_size ∧
    s.write_offset % 32 = 0 ∧ endp s < env.max_program_size ∧
    (devs_header s ≠ none → s.write_offset = endp s))

/-- Whether a call begins with a devsmgr_deploy_start of a nonzero size that is accepted in
state s. -/
def opens_session (env : Env) (s : State) : Op → Bool
  | Op.deploy_start sz => decide (sz ≠ 0 ∧ (devsmgr_deploy_start env s sz).1 = 0)
  | Op.deploy img => decide (img.length ≠ 0 ∧ (devsmgr_deploy_start env s img.length).1 = 0)
  | Op.packet (Cmd.deploy_bytecode sz _) =>
    decide (sz ≠ 0 ∧ (devsmgr_deploy_start env s sz).1 = 0)
  | _ => false

/-- No call of the sequence, run from s, opens a session. -/
def no_session_opened (env : Env) : State → List Op → Prop
  | _, [] => True
  | s, op :: ops => opens_session env s op = false ∧ no_session_opened env (step env s op) ops

/-- A deploy session for 256 bytes in which only the first 64 bytes have been written. -/
def short_session : State :=
  run demo_env (devsmgr_init (fun _ => 0) 0)
    [Op.deploy_start 256, Op.deploy_write (some pattern64)]

/-- A chunk whose length, 40, is not a multiple of 32. -/
def odd_chunk : List Nat := List.replicate 40 7

/-- Calls made after a chunk was rejected, none of which opens a session: a poll, a clearing
deploy_start(0), a start request through the running register and a well-formed chunk. -/
def calls_after_reject : List Op :=
  [Op.process 0 0 0, Op.deploy_start 0, Op.packet (Cmd.set_running 1),
   Op.deploy_write (some pattern64)]

/-- The trace of flash calls made so far by a deploy session that has written the first k
image bytes: every program call went onto erased bytes, and every image offset below k was
programmed once and none above. -/
def sess_trace (T : List FlashOp) (k : Nat) : Prop :=
  (∀ op ∈ T, FlashOp.clean op = true) ∧
  ∀ a, 128 ≤ a → times_programmed T a = if a < 128 + k then 1 else 0

/-- The state of a deploy session for the image img after its first k bytes were written:
write_offset is 128 + k, the header holds magic0 and the size with the rest of the header
still erased, the first k image bytes are in flash, the flash from write_offset to the end of
its page is erased, and the flash calls made since the trace base are as in sess_trace. -/
def sess (env : Env) (base : List FlashOp) (img : List Nat) (k : Nat) (s : State) : Prop :=
  s.write_offset = 128 + k ∧
  rd32 s.flash 0 = DEVSMGR_PROG_MAGIC0 ∧ rd32 s.flash 4 = img.length ∧
  erased s.flash 8 128 ∧
  (∀ i, i < k → s.flash (128 + i) = img.getD i 0) ∧
  erased s.flash (128 + k)
    (((128 + k) / env.flash_page_size + 1) * env.flash_page_size) ∧
  ∃ T, s.flash_ops = base ++ T ∧ sess_trace T k

/-- The round trip of the 256-byte test image: a streamed deploy (deploy_start, two 128-byte
chunks, finalize at the close of the stream), the read command, and three polls during which
the output pipe accepts every write and the engine reports nothing. -/
def round_trip_calls : List Op :=
  [Op.deploy_start 256,
   Op.deploy_write (some (image256.take 128)),
   Op.deploy_write (some (image256.drop 128)),
   Op.deploy_write none,
   Op.packet (Cmd.read_bytecode 0),
   Op.process JD_PIPE_OK 0 0,
   Op.process JD_PIPE_OK 0 0,
   Op.process JD_PIPE_OK 0 0]

/-- A session left open over a cleared store: deploy_start(64), then deploy_start(0), which
erases the header and keeps write_offset = 128. -/
def stale_session : State :=
  run demo_env boot_state [Op.deploy_start 64, Op.deploy_start 0]

/-- What the manager relies on from the engine: devs_create_ctx returns a context for every
image that passes devs_verify, and the built-in empty program passes devs_verify (the
assertion made in devsmgr_init). -/
def Env.engine_ok (env : Env) : Prop :=
  (∀ img, env.devs_verify img = 0 → env.devs_create_ctx img = true) ∧
  env.devs_verify devs_empty_program = 0

/-- The running flag mirrors the context: it is nonzero exactly when a context exists. -/
def run_inv (s : State) : Prop :=
  s.running ≠ 0 ↔ s.ctx.isSome = true

/-- A context built from the flash image still matches the store: the header is valid and
the bytes the context was created from are the image bytes now in flash. -/
def ctx_inv (s : State) : Prop :=
  ∀ c, s.ctx = some c → c.builtin = false →
    ∃ hd, devs_header s = some hd ∧ c.img = image s 0 hd.size

/-- The bytes 8 to 127 of the header hold what finalize programs for the image now in flash:
magic1, the FNV-1a hash of the image and the zeroed reserved words. -/
def committed_tail (s : State) : Prop :=
  ∀ a, 8 ≤ a → a < 128 →
    s.flash a = (finalize_bytes (jd_hash_fnv1a (image s 0 (rd32 s.flash 4)))).getD (a - 8) 255

/-- The invariant of the header during a deploy session: write_offset is 0, or the store was
cleared under the session (the declared end wrapped below the header size), or magic0 is in
place and the rest of the header is either still erased or already committed with
write_offset at the declared end. -/
def header_inv (s : State) : Prop :=
  s.write_offset = 0 ∨ endp s < HEADER_SIZE ∨
  (rd32 s.flash 0 = DEVSMGR_PROG_MAGIC0 ∧
    (erased s.flash 8 128 ∨ (committed_tail s ∧ s.write_offset = endp s)))

/-- A deploy session for 64 bytes in which all 64 bytes have been written and finalize has
not been called yet. -/
def full_session : State :=
  run demo_env boot_state [Op.deploy_start 64, Op.deploy_write (some pattern64)]

/-- The chunks the loop of devsmgr_deploy hands to devsmgr_deploy_write from offset soff on,
in order: each is the next sz = min(128, imgsize - soff) bytes of the image. -/
def deploy_chunks (img : List Nat) : Nat → Nat → List (List Nat)
  | 0, _ => []
  | fuel + 1, soff =>
    if soff < img.length then
      (img.drop soff).take (deploy_chunk_size img.length soff)
        :: deploy_chunks img fuel (soff + deploy_chunk_size img.length soff)
    else []

/-- The readback of the 256-byte test image after its first poll: the image is stored, the
read command was given, and one chunk of 236 bytes has been accepted by the pipe. -/
def mid_readback : State := run demo_env boot_state (round_trip_calls.take 6)

/-- A chunk of 128 zero bytes. -/
def zero_chunk128 : List Nat := List.replicate 128 0

/-- The session for 2048 bytes after six chunks of 128 bytes: write_offset is 896, one chunk
short of the end of the first 1 KiB page. -/
def page_edge_session : State :=
  write_run demo_env session2048 (List.replicate 6 (some zero_chunk128))

/-- The configuration demo_env with flash pages of 256 bytes: the 4 KiB program region spans
sixteen pages. -/
def page256_env : Env := { demo_env with flash_page_size := 256 }

/-- A stored program that spans two pages: the 256-byte test image, deployed in bulk on
factory-erased flash with 256-byte pages, occupies the offsets 128 to 383. -/
def two_page_store : State :=
  run page256_env (devsmgr_init (fun _ => 255) 0) [Op.deploy image256]

/-- Whether a call is a poll (devsmgr_process) or a change of the tick counter. -/
def Op.is_poll : Op → Bool
  | Op.tick _ => true
  | Op.process _ _ _ => true
  | _ => false

/-! ## The generated tables of protogen.c -/

/-- The builtin string ids the tables name, written N(...) in the source
(DEVS_BUILTIN_STRING_*).  Their numbers are defined outside protogen.c; the tables only use
the names. -/
inductive DEVS_BUILTIN_STRING
  | LENGTH | INSERT | ISARRAY | PUSH | PUSHRANGE | SLICE | JOIN | ALLOC | FROM | TOSTRING
  | FILLAT | BLITAT | INDEXOF | SLEEP | DELAY | _PANIC | REBOOT | RESTART | FORMAT | PRINT
  | PARSEFLOAT | PARSEINT | _LOGREPR | _DCFGSTRING | MILLIS | DEVICEIDENTIFIER | _SERVERSEND
  | _ALLOCROLE | NOTIMPLEMENTED | _TWINMESSAGE | _I2CTRANSACTION | SPICONFIGURE | SPIXFER
  | ERROR | RANGEERROR | TYPEERROR | SYNTAXERROR | NAME | ID | SUSPENDED | RESUME | TERMINATE
  | SUSPEND | SELF | START | PROTOTYPE | WIDTH | HEIGHT | BPP | SET | GET | FILL | FILLRECT
  | EQUALS | CLONE | FLIPX | FLIPY | TRANSPOSED | DRAWIMAGE | DRAWTRANSPARENTIMAGE
  | OVERLAPSWITH | DRAWLINE | BLITROW | BLIT | FILLCIRCLE | PARSE | STRINGIFY | CEIL | FLOOR
  | ROUND | ABS | RANDOM | RANDOMINT | LOG | POW | IDIV | IMOD | IMUL | MIN | MAX | ASSIGN
  | KEYS | VALUES | SETPROTOTYPEOF | ROLE | SHORTID | SERVICEINDEX | SERVICECOMMAND | FLAGS
  | ISCOMMAND | ISREPORT | PAYLOAD | ISEVENT | EVENTCODE | ISREGSET | ISREGGET | REGCODE
  | ISACTION | SPEC | DECODE | PARENT | CODE | RESPONSE | ENCODE | READ | WRITE | __FUNC__
  | ISBOUND | SENDCOMMAND | CLASSIDENTIFIER | LOOKUP | _SOCKETOPEN | _SOCKETCLOSE
  | _SOCKETWRITE | BYTELENGTH | CHARCODEAT | CHARAT | FROMCHARCODE | TOLOWERCASE | TOUPPERCASE
  | CONSTRUCTOR
  deriving DecidableEq, Repr

/-- The builtin objects that index devs_builtin_protos (DEVS_BUILTIN_OBJECT_*).  Their numbers
are defined outside protogen.c. -/
inductive DEVS_BUILTIN_OBJECT
  | ARRAY_PROTOTYPE | ARRAY | BUFFER | BUFFER_PROTOTYPE | DEVICESCRIPT | TYPEERROR_PROTOTYPE
  | RANGEERROR_PROTOTYPE | ERROR | ERROR_PROTOTYPE | RANGEERROR | TYPEERROR | SYNTAXERROR
  | SYNTAXERROR_PROTOTYPE | DSFIBER_PROTOTYPE | DSFIBER | FUNCTION_PROTOTYPE | IMAGE_PROTOTYPE
  | IMAGE | JSON | MATH | OBJECT | DSPACKET_PROTOTYPE | DSPACKETSPEC_PROTOTYPE
  | DSREGISTER_PROTOTYPE | DSCOMMAND_PROTOTYPE | DSEVENT_PROTOTYPE | DSPACKETINFO_PROTOTYPE
  | DSROLE_PROTOTYPE | DSSERVICESPEC_PROTOTYPE | STRING_PROTOTYPE | STRING | NUMBER | DSROLE
  | FUNCTION | BOOLEAN | DSPACKET | DSSERVICESPEC | DSPACKETSPEC | OBJECT_PROTOTYPE
  | NUMBER_PROTOTYPE | BOOLEAN_PROTOTYPE | DSREPORT_PROTOTYPE
  deriving DecidableEq, Repr

/-- The flags of a builtin function (DEVS_BUILTIN_FLAG_*), for which the source defines the
short names PROP, ASYNC, NO_SELF and CTOR. -/
inductive DEVS_BUILTIN_FLAG
  | IS_PROPERTY | ASYNC_CALL | NO_SELF | IS_CTOR
  deriving DecidableEq, Repr

/-- The second field of a prototype entry: a literal function index, or the id of a builtin
object (the entries with key PROTOTYPE), whose number is defined outside protogen.c. -/
inductive EntryValue
  | function (idx : Nat)
  | object (o : DEVS_BUILTIN_OBJECT)
  deriving DecidableEq, Repr

/-- One row of a prototype entry table (devs_builtin_proto_entry_t). -/
structure devs_builtin_proto_entry_t where
  key : DEVS_BUILTIN_STRING
  value : EntryValue
  deriving DecidableEq, Repr

/-- The native handler of a builtin function: the member of the union that is initialised
(.prop or .meth) and the name of the C function. -/
inductive Handler
  | prop (fn : String)
  | meth (fn : String)
  deriving DecidableEq, Repr

/-- One row of devs_builtin_functions (devs_builtin_function_t): name, number of arguments,
flags (0 is the empty list) and handler. -/
structure devs_builtin_function_t where
  name : DEVS_BUILTIN_STRING
  num_args : Nat
  flags : List DEVS_BUILTIN_FLAG
  handler : Handler
  deriving DecidableEq, Repr

/-- One element of devs_builtin_protos (devs_builtin_proto_t), without the object header
DEVS_BUILTIN_PROTO_INIT: the parent, which the source gives as NULL or as the address of
another element of the array, and the entry table. -/
structure devs_builtin_proto_t where
  parent : Option DEVS_BUILTIN_OBJECT
  entries : List devs_builtin_proto_entry_t
  deriving DecidableEq, Repr

/-- DEVS_FIRST_BUILTIN_FUNCTION, by the STATIC_ASSERT that closes protogen.c. -/
def DEVS_FIRST_BUILTIN_FUNCTION : Nat := 50000

/-! The entry tables.  Each list holds the rows of the C array in order, without the closing
row of zeros that ends it. -/

/-- The table Array_prototype_entries. -/
def Array_prototype_entries : List devs_builtin_proto_entry_t :=
  [⟨.LENGTH, .function 50000⟩, ⟨.INSERT, .function 50001⟩, ⟨.PUSH, .function 50003⟩,
   ⟨.PUSHRANGE, .function 50004⟩, ⟨.SLICE, .function 50005⟩, ⟨.JOIN, .function 50006⟩]

/-- The table Array_entries. -/
def Array_entries : List devs_builtin_proto_entry_t :=
  [⟨.ISARRAY, .function 50002⟩, ⟨.PROTOTYPE, .object .ARRAY_PROTOTYPE⟩]

/-- The table Buffer_entries. -/
def Buffer_entries : List devs_builtin_proto_entry_t :=
  [⟨.ALLOC, .function 50007⟩, ⟨.FROM, .function 50008⟩, ⟨.PROTOTYPE, .object .BUFFER_PROTOTYPE⟩]

/-- The table Buffer_prototype_entries. -/
def Buffer_prototype_entries : List devs_builtin_proto_entry_t :=
  [⟨.LENGTH, .function 50009⟩, ⟨.TOSTRING, .function 50010⟩, ⟨.FILLAT, .function 50011⟩,
   ⟨.BLITAT, .function 50012⟩, ⟨.INDEXOF, .function 50013⟩]

/-- The table DeviceScript_entries. -/
def DeviceScript_entries : List devs_builtin_proto_entry_t :=
  [⟨.SLEEP, .function 50014⟩, ⟨.DELAY, .function 50015⟩, ⟨._PANIC, .function 50016⟩,
   ⟨.REBOOT, .function 50017⟩, ⟨.RESTART, .function 50018⟩, ⟨.FORMAT, .function 50019⟩,
   ⟨.PRINT, .function 50020⟩, ⟨.PARSEFLOAT, .function 50021⟩, ⟨.PARSEINT, .function 50022⟩,
   ⟨._LOGREPR, .function 50023⟩, ⟨._DCFGSTRING, .function 50024⟩, ⟨.MILLIS, .function 50025⟩,
   ⟨.DEVICEIDENTIFIER, .function 50026⟩, ⟨._SERVERSEND, .function 50027⟩,
   ⟨._ALLOCROLE, .function 50028⟩, ⟨.NOTIMPLEMENTED, .function 50029⟩,
   ⟨._TWINMESSAGE, .function 50030⟩, ⟨._I2CTRANSACTION, .function 50031⟩,
   ⟨.SPICONFIGURE, .function 50032⟩, ⟨.SPIXFER, .function 50033⟩, ⟨.SUSPEND, .function 50044⟩,
   ⟨._SOCKETOPEN, .function 50124⟩, ⟨._SOCKETCLOSE, .function 50125⟩,
   ⟨._SOCKETWRITE, .function 50126⟩]

/-- The table TypeError_prototype_entries. -/
def TypeError_prototype_entries : List devs_builtin_proto_entry_t :=
  [⟨.CONSTRUCTOR, .function 50036⟩]

/-- The table RangeError_prototype_entries. -/
def RangeError_prototype_entries : List devs_builtin_proto_entry_t :=
  [⟨.CONSTRUCTOR, .function 50035⟩]

/-- The table Error_entries. -/
def Error_entries : List devs_builtin_proto_entry_t :=
  [⟨.__FUNC__, .function 50034⟩, ⟨.PROTOTYPE, .object .ERROR_PROTOTYPE⟩]

/-- The table Error_prototype_entries. -/
def Error_prototype_entries : List devs_builtin_proto_entry_t :=
  [⟨.CONSTRUCTOR, .function 50034⟩, ⟨.NAME, .function 50038⟩, ⟨.PRINT, .function 50039⟩]

/-- The table RangeError_entries. -/
def RangeError_entries : List devs_builtin_proto_entry_t :=
  [⟨.__FUNC__, .function 50035⟩, ⟨.PROTOTYPE, .object .RANGEERROR_PROTOTYPE⟩]

/-- The table TypeError_entries. -/
def TypeError_entries : List devs_builtin_proto_entry_t :=
  [⟨.__FUNC__, .function 50036⟩, ⟨.PROTOTYPE, .object .TYPEERROR_PROTOTYPE⟩]

/-- The table SyntaxError_entries. -/
def SyntaxError_entries : List devs_builtin_proto_entry_t :=
  [⟨.__FUNC__, .function 50037⟩, ⟨.PROTOTYPE, .object .SYNTAXERROR_PROTOTYPE⟩]

/-- The table SyntaxError_prototype_entries. -/
def SyntaxError_prototype_entries : List devs_builtin_proto_entry_t :=
  [⟨.CONSTRUCTOR, .function 50037⟩]

/-- The table DsFiber_prototype_entries. -/
def DsFiber_prototype_entries : List devs_builtin_proto_entry_t :=
  [⟨.ID, .function 50040⟩, ⟨.SUSPENDED, .function 50041⟩, ⟨.RESUME, .function 50042⟩,
   ⟨.TERMINATE, .function 50043⟩]

/-- The table DsFiber_entries. -/
def DsFiber_entries : List devs_builtin_proto_entry_t :=
  [⟨.SELF, .function 50045⟩, ⟨.PROTOTYPE, .object .DSFIBER_PROTOTYPE⟩]

/-- The table Function_prototype_entries. -/
def Function_prototype_entries : List devs_builtin_proto_entry_t :=
  [⟨.START, .function 50046⟩, ⟨.PROTOTYPE, .function 50047⟩, ⟨.NAME, .function 50048⟩]

/-- The table Image_prototype_entries. -/
def Image_prototype_entries : List devs_builtin_proto_entry_t :=
  [⟨.WIDTH, .function 50049⟩, ⟨.HEIGHT, .function 50050⟩, ⟨.BPP, .function 50051⟩,
   ⟨.SET, .function 50053⟩, ⟨.GET, .function 50054⟩, ⟨.FILL, .function 50055⟩,
   ⟨.FILLRECT, .function 50056⟩, ⟨.EQUALS, .function 50057⟩, ⟨.CLONE, .function 50058⟩,
   ⟨.FLIPX, .function 50059⟩, ⟨.FLIPY, .function 50060⟩, ⟨.TRANSPOSED, .function 50061⟩,
   ⟨.DRAWIMAGE, .function 50062⟩, ⟨.DRAWTRANSPARENTIMAGE, .function 50063⟩,
   ⟨.OVERLAPSWITH, .function 50064⟩, ⟨.DRAWLINE, .function 50065⟩, ⟨.BLITROW, .function 50066⟩,
   ⟨.BLIT, .function 50067⟩, ⟨.FILLCIRCLE, .function 50068⟩]

/-- The table Image_entries. -/
def Image_entries : List devs_builtin_proto_entry_t :=
  [⟨.ALLOC, .function 50052⟩, ⟨.PROTOTYPE, .object .IMAGE_PROTOTYPE⟩]

/-- The table JSON_entries. -/
def JSON_entries : List devs_builtin_proto_entry_t :=
  [⟨.PARSE, .function 50069⟩, ⟨.STRINGIFY, .function 50070⟩]

/-- The table Math_entries. -/
def Math_entries : List devs_builtin_proto_entry_t :=
  [⟨.CEIL, .function 50071⟩, ⟨.FLOOR, .function 50072⟩, ⟨.ROUND, .function 50073⟩,
   ⟨.ABS, .function 50074⟩, ⟨.RANDOM, .function 50075⟩, ⟨.RANDOMINT, .function 50076⟩,
   ⟨.LOG, .function 50077⟩, ⟨.POW, .function 50078⟩, ⟨.IDIV, .function 50079⟩,
   ⟨.IMOD, .function 50080⟩, ⟨.IMUL, .function 50081⟩, ⟨.MIN, .function 50082⟩,
   ⟨.MAX, .function 50083⟩]

/-- The table Object_entries. -/
def Object_entries : List devs_builtin_proto_entry_t :=
  [⟨.ASSIGN, .function 50084⟩, ⟨.KEYS, .function 50085⟩, ⟨.VALUES, .function 50086⟩,
   ⟨.SETPROTOTYPEOF, .function 50087⟩, ⟨.PROTOTYPE, .object .OBJECT_PROTOTYPE⟩]

/-- The table DsPacket_prototype_entries. -/
def DsPacket_prototype_entries : List devs_builtin_proto_entry_t :=
  [⟨.ROLE, .function 50088⟩, ⟨.DEVICEIDENTIFIER, .function 50089⟩, ⟨.SHORTID, .function 50090⟩,
   ⟨.SERVICEINDEX, .function 50091⟩, ⟨.SERVICECOMMAND, .function 50092⟩,
   ⟨.FLAGS, .function 50093⟩, ⟨.ISCOMMAND, .function 50094⟩, ⟨.ISREPORT, .function 50095⟩,
   ⟨.PAYLOAD, .function 50096⟩, ⟨.ISEVENT, .function 50097⟩, ⟨.EVENTCODE, .function 50098⟩,
   ⟨.ISREGSET, .function 50099⟩, ⟨.ISREGGET, .function 50100⟩, ⟨.REGCODE, .function 50101⟩,
   ⟨.ISACTION, .function 50102⟩, ⟨.SPEC, .function 50103⟩, ⟨.DECODE, .function 50104⟩,
   ⟨.NOTIMPLEMENTED, .function 50105⟩]

/-- The table DsPacketSpec_prototype_entries. -/
def DsPacketSpec_prototype_entries : List devs_builtin_proto_entry_t :=
  [⟨.PARENT, .function 50106⟩, ⟨.NAME, .function 50107⟩, ⟨.CODE, .function 50108⟩,
   ⟨.RESPONSE, .function 50109⟩, ⟨.ENCODE, .function 50110⟩]

/-- The table DsRegister_prototype_entries. -/
def DsRegister_prototype_entries : List devs_builtin_proto_entry_t :=
  [⟨.READ, .function 50111⟩, ⟨.WRITE, .function 50112⟩]

/-- The table DsCommand_prototype_entries. -/
def DsCommand_prototype_entries : List devs_builtin_proto_entry_t :=
  [⟨.__FUNC__, .function 50116⟩]

/-- The table DsEvent_prototype_entries. -/
def DsEvent_prototype_entries : List devs_builtin_proto_entry_t :=
  []

/-- The table DsPacketInfo_prototype_entries. -/
def DsPacketInfo_prototype_entries : List devs_builtin_proto_entry_t :=
  [⟨.ROLE, .function 50113⟩, ⟨.NAME, .function 50114⟩, ⟨.CODE, .function 50115⟩]

/-- The table DsRole_prototype_entries. -/
def DsRole_prototype_entries : List devs_builtin_proto_entry_t :=
  [⟨.ISBOUND, .function 50117⟩, ⟨.SPEC, .function 50118⟩, ⟨.SENDCOMMAND, .function 50119⟩]

/-- The table DsServiceSpec_prototype_entries. -/
def DsServiceSpec_prototype_entries : List devs_builtin_proto_entry_t :=
  [⟨.CLASSIDENTIFIER, .function 50120⟩, ⟨.NAME, .function 50121⟩, ⟨.LOOKUP, .function 50122⟩,
   ⟨.ASSIGN, .function 50123⟩]

/-- The table String_prototype_entries. -/
def String_prototype_entries : List devs_builtin_proto_entry_t :=
  [⟨.LENGTH, .function 50127⟩, ⟨.BYTELENGTH, .function 50128⟩, ⟨.CHARCODEAT, .function 50129⟩,
   ⟨.CHARAT, .function 50130⟩, ⟨.SLICE, .function 50131⟩, ⟨.INDEXOF, .function 50133⟩,
   ⟨.TOLOWERCASE, .function 50134⟩, ⟨.TOUPPERCASE, .function 50135⟩]

/-- The table String_entries. -/
def String_entries : List devs_builtin_proto_entry_t :=
  [⟨.FROMCHARCODE, .function 50132⟩, ⟨.PROTOTYPE, .object .STRING_PROTOTYPE⟩]

/-- The table empty_entries. -/
def empty_entries : List devs_builtin_proto_entry_t :=
  []

/-- The table number_entries. -/
def number_entries : List devs_builtin_proto_entry_t :=
  [⟨.PROTOTYPE, .object .NUMBER_PROTOTYPE⟩]

/-- The table dsrole_entries. -/
def dsrole_entries : List devs_builtin_proto_entry_t :=
  [⟨.PROTOTYPE, .object .DSROLE_PROTOTYPE⟩]

/-- The table function_entries. -/
def function_entries : List devs_builtin_proto_entry_t :=
  [⟨.PROTOTYPE, .object .FUNCTION_PROTOTYPE⟩]

/-- The table boolean_entries. -/
def boolean_entries : List devs_builtin_proto_entry_t :=
  [⟨.PROTOTYPE, .object .BOOLEAN_PROTOTYPE⟩]

/-- The table dspacket_entries. -/
def dspacket_entries : List devs_builtin_proto_entry_t :=
  [⟨.PROTOTYPE, .object .DSPACKET_PROTOTYPE⟩]

/-- The table dsservicespec_entries. -/
def dsservicespec_entries : List devs_builtin_proto_entry_t :=
  [⟨.PROTOTYPE, .object .DSSERVICESPEC_PROTOTYPE⟩]

/-- The table dspacketspec_entries. -/
def dspacketspec_entries : List devs_builtin_proto_entry_t :=
  [⟨.PROTOTYPE, .object .DSPACKETSPEC_PROTOTYPE⟩]

/-- The array devs_builtin_protos, by designator. -/
def devs_builtin_protos : DEVS_BUILTIN_OBJECT → devs_builtin_proto_t
  | .ARRAY_PROTOTYPE => ⟨none, Array_prototype_entries⟩
  | .ARRAY => ⟨none, Array_entries⟩
  | .BUFFER => ⟨none, Buffer_entries⟩
  | .BUFFER_PROTOTYPE => ⟨none, Buffer_prototype_entries⟩
  | .DEVICESCRIPT => ⟨none, DeviceScript_entries⟩
  | .TYPEERROR_PROTOTYPE => ⟨some .ERROR_PROTOTYPE, TypeError_prototype_entries⟩
  | .RANGEERROR_PROTOTYPE => ⟨some .ERROR_PROTOTYPE, RangeError_prototype_entries⟩
  | .ERROR => ⟨none, Error_entries⟩
  | .ERROR_PROTOTYPE => ⟨none, Error_prototype_entries⟩
  | .RANGEERROR => ⟨none, RangeError_entries⟩
  | .TYPEERROR => ⟨none, TypeError_entries⟩
  | .SYNTAXERROR => ⟨none, SyntaxError_entries⟩
  | .SYNTAXERROR_PROTOTYPE => ⟨none, SyntaxError_prototype_entries⟩
  | .DSFIBER_PROTOTYPE => ⟨none, DsFiber_prototype_entries⟩
  | .DSFIBER => ⟨none, DsFiber_entries⟩
  | .FUNCTION_PROTOTYPE => ⟨none, Function_prototype_entries⟩
  | .IMAGE_PROTOTYPE => ⟨none, Image_prototype_entries⟩
  | .IMAGE => ⟨none, Image_entries⟩
  | .JSON => ⟨none, JSON_entries⟩
  | .MATH => ⟨none, Math_entries⟩
  | .OBJECT => ⟨none, Object_entries⟩
  | .DSPACKET_PROTOTYPE => ⟨none, DsPacket_prototype_entries⟩
  | .DSPACKETSPEC_PROTOTYPE => ⟨none, DsPacketSpec_prototype_entries⟩
  | .DSREGISTER_PROTOTYPE => ⟨some .DSPACKETINFO_PROTOTYPE, DsRegister_prototype_entries⟩
  | .DSCOMMAND_PROTOTYPE => ⟨some .DSPACKETINFO_PROTOTYPE, DsCommand_prototype_entries⟩
  | .DSEVENT_PROTOTYPE => ⟨some .DSPACKETINFO_PROTOTYPE, DsEvent_prototype_entries⟩
  | .DSPACKETINFO_PROTOTYPE => ⟨none, DsPacketInfo_prototype_entries⟩
  | .DSROLE_PROTOTYPE => ⟨none, DsRole_prototype_entries⟩
  | .DSSERVICESPEC_PROTOTYPE => ⟨none, DsServiceSpec_prototype_entries⟩
  | .STRING_PROTOTYPE => ⟨none, String_prototype_entries⟩
  | .STRING => ⟨none, String_entries⟩
  | .NUMBER => ⟨none, number_entries⟩
  | .DSROLE => ⟨none, dsrole_entries⟩
  | .FUNCTION => ⟨none, function_entries⟩
  | .BOOLEAN => ⟨none, boolean_entries⟩
  | .DSPACKET => ⟨none, dspacket_entries⟩
  | .DSSERVICESPEC => ⟨none, dsservicespec_entries⟩
  | .DSPACKETSPEC => ⟨none, dspacketspec_entries⟩
  | .OBJECT_PROTOTYPE => ⟨none, empty_entries⟩
  | .NUMBER_PROTOTYPE => ⟨none, empty_entries⟩
  | .BOOLEAN_PROTOTYPE => ⟨none, empty_entries⟩
  | .DSREPORT_PROTOTYPE => ⟨none, empty_entries⟩

/-- The variable devs_num_builtin_functions. -/
def devs_num_builtin_functions : Nat := 136

/-- The macro PROP. -/
def PROP : List DEVS_BUILTIN_FLAG := [DEVS_BUILTIN_FLAG.IS_PROPERTY]

/-- The macro ASYNC. -/
def ASYNC : List DEVS_BUILTIN_FLAG := [DEVS_BUILTIN_FLAG.ASYNC_CALL]

/-- The macro NO_SELF. -/
def NO_SELF : List DEVS_BUILTIN_FLAG := [DEVS_BUILTIN_FLAG.NO_SELF]

/-- The macro CTOR. -/
def CTOR : List DEVS_BUILTIN_FLAG := [DEVS_BUILTIN_FLAG.IS_CTOR]

/-- The array devs_builtin_functions, row by row. -/
def devs_builtin_functions : List devs_builtin_function_t :=
  [devs_builtin_function_t.mk DEVS_BUILTIN_STRING.LENGTH 0 PROP
     (Handler.prop "prop_Array_length"),
   devs_builtin_function_t.mk DEVS_BUILTIN_STRING.INSERT 2 []
     (Handler.meth "meth2_Array_insert"),
   devs_builtin_function_t.mk DEVS_BUILTIN_STRING.ISARRAY 1 NO_SELF
     (Handler.meth "fun1_Array_isArray"),
   devs_builtin_function_t.mk DEVS_BUILTIN_STRING.PUSH 0 []
     (Handler.meth "methX_Array_push"),
   devs_builtin_function_t.mk DEVS_BUILTIN_STRING.PUSHRANGE 1 []
     (Handler.meth "meth1_Array_pushRange"),
   devs_builtin_function_t.mk DEVS_BUILTIN_STRING.SLICE 0 []
     (Handler.meth "methX_Array_slice"),
   devs_builtin_function_t.mk DEVS_BUILTIN_STRING.JOIN 1 []
     (Handler.meth "meth1_Array_join"),
   devs_builtin_function_t.mk DEVS_BUILTIN_STRING.ALLOC 1 NO_SELF
     (Handler.meth "fun1_Buffer_alloc"),
   devs_builtin_function_t.mk DEVS_BUILTIN_STRING.FROM 1 NO_SELF
     (Handler.meth "fun1_Buffer_from"),
   devs_builtin_function_t.mk DEVS_BUILTIN_STRING.LENGTH 0 PROP
     (Handler.prop "prop_Buffer_length"),
   devs_builtin_function_t.mk DEVS_BUILTIN_STRING.TOSTRING 1 []
     (Handler.meth "meth1_Buffer_toString"),
   devs_builtin_function_t.mk DEVS_BUILTIN_STRING.FILLAT 3 []
     (Handler.meth "meth3_Buffer_fillAt"),
   devs_builtin_function_t.mk DEVS_BUILTIN_STRING.BLITAT 4 []
     (Handler.meth "meth4_Buffer_blitAt"),
   devs_builtin_function_t.mk DEVS_BUILTIN_STRING.INDEXOF 3 []
     (Handler.meth "meth3_Buffer_indexOf"),
   devs_builtin_function_t.mk DEVS_BUILTIN_STRING.SLEEP 1 NO_SELF
     (Handler.meth "fun1_DeviceScript_sleep"),
   devs_builtin_function_t.mk DEVS_BUILTIN_STRING.DELAY 1 NO_SELF
     (Handler.meth "fun1_DeviceScript_delay"),
   devs_builtin_function_t.mk DEVS_BUILTIN_STRING._PANIC 1 NO_SELF
     (Handler.meth "fun1_DeviceScript__panic"),
   devs_builtin_function_t.mk DEVS_BUILTIN_STRING.REBOOT 0 NO_SELF
     (Handler.meth "fun0_DeviceScript_reboot"),
   devs_builtin_function_t.mk DEVS_BUILTIN_STRING.RESTART 0 NO_SELF
     (Handler.meth "fun0_DeviceScript_restart"),
   devs_builtin_function_t.mk DEVS_BUILTIN_STRING.FORMAT 0 NO_SELF
     (Handler.meth "funX_DeviceScript_format"),
   devs_builtin_function_t.mk DEVS_BUILTIN_STRING.PRINT 2 NO_SELF
     (Handler.meth "fun2_DeviceScript_print"),
   devs_builtin_function_t.mk DEVS_BUILTIN_STRING.PARSEFLOAT 1 NO_SELF
     (Handler.meth "fun1_DeviceScript_parseFloat"),
   devs_builtin_function_t.mk DEVS_BUILTIN_STRING.PARSEINT 1 NO_SELF
     (Handler.meth "fun1_DeviceScript_parseInt"),
   devs_builtin_function_t.mk DEVS_BUILTIN_STRING._LOGREPR 2 NO_SELF
     (Handler.meth "fun2_DeviceScript__logRepr"),
   devs_builtin_function_t.mk DEVS_BUILTIN_STRING._DCFGSTRING 1 NO_SELF
     (Handler.meth "fun1_DeviceScript__dcfgString"),
   devs_builtin_function_t.mk DEVS_BUILTIN_STRING.MILLIS 0 NO_SELF
     (Handler.meth "fun0_DeviceScript_millis"),
   devs_builtin_function_t.mk DEVS_BUILTIN_STRING.DEVICEIDENTIFIER 1 NO_SELF
     (Handler.meth "fun1_DeviceScript_deviceIdentifier"),
   devs_builtin_function_t.mk DEVS_BUILTIN_STRING._SERVERSEND 2 NO_SELF
     (Handler.meth "fun2_DeviceScript__serverSend"),
   devs_builtin_function_t.mk DEVS_BUILTIN_STRING._ALLOCROLE 2 NO_SELF
     (Handler.meth "fun2_DeviceScript__allocRole"),
   devs_builtin_function_t.mk DEVS_BUILTIN_STRING.NOTIMPLEMENTED 0 NO_SELF
     (Handler.meth "fun0_DeviceScript_notImplemented"),
   devs_builtin_function_t.mk DEVS_BUILTIN_STRING._TWINMESSAGE 2 NO_SELF
     (Handler.meth "fun2_DeviceScript__twinMessage"),
   devs_builtin_function_t.mk DEVS_BUILTIN_STRING._I2CTRANSACTION 3 NO_SELF
     (Handler.meth "fun3_DeviceScript__i2cTransaction"),
   devs_builtin_function_t.mk DEVS_BUILTIN_STRING.SPICONFIGURE 5 NO_SELF
     (Handler.meth "fun5_DeviceScript_spiConfigure"),
   devs_builtin_function_t.mk DEVS_BUILTIN_STRING.SPIXFER 2 NO_SELF
     (Handler.meth "fun2_DeviceScript_spiXfer"),
   devs_builtin_function_t.mk DEVS_BUILTIN_STRING.ERROR 1 CTOR
     (Handler.meth "meth1_Error___ctor__"),
   devs_builtin_function_t.mk DEVS_BUILTIN_STRING.RANGEERROR 1 CTOR
     (Handler.meth "meth1_RangeError___ctor__"),
   devs_builtin_function_t.mk DEVS_BUILTIN_STRING.TYPEERROR 1 CTOR
     (Handler.meth "meth1_TypeError___ctor__"),
   devs_builtin_function_t.mk DEVS_BUILTIN_STRING.SYNTAXERROR 1 CTOR
     (Handler.meth "meth1_SyntaxError___ctor__"),
   devs_builtin_function_t.mk DEVS_BUILTIN_STRING.NAME 0 PROP
     (Handler.prop "prop_Error_name"),
   devs_builtin_function_t.mk DEVS_BUILTIN_STRING.PRINT 0 []
     (Handler.meth "meth0_Error_print"),
   devs_builtin_function_t.mk DEVS_BUILTIN_STRING.ID 0 PROP
     (Handler.prop "prop_DsFiber_id"),
   devs_builtin_function_t.mk DEVS_BUILTIN_STRING.SUSPENDED 0 PROP
     (Handler.prop "prop_DsFiber_suspended"),
   devs_builtin_function_t.mk DEVS_BUILTIN_STRING.RESUME 1 []
     (Handler.meth "meth1_DsFiber_resume"),
   devs_builtin_function_t.mk DEVS_BUILTIN_STRING.TERMINATE 0 []
     (Handler.meth "meth0_DsFiber_terminate"),
   devs_builtin_function_t.mk DEVS_BUILTIN_STRING.SUSPEND 1 NO_SELF
     (Handler.meth "fun1_DeviceScript_suspend"),
   devs_builtin_function_t.mk DEVS_BUILTIN_STRING.SELF 0 NO_SELF
     (Handler.meth "fun0_DsFiber_self"),
   devs_builtin_function_t.mk DEVS_BUILTIN_STRING.START 0 []
     (Handler.meth "methX_Function_start"),
   devs_builtin_function_t.mk DEVS_BUILTIN_STRING.PROTOTYPE 0 PROP
     (Handler.prop "prop_Function_prototype"),
   devs_builtin_function_t.mk DEVS_BUILTIN_STRING.NAME 0 PROP
     (Handler.prop "prop_Function_name"),
   devs_builtin_function_t.mk DEVS_BUILTIN_STRING.WIDTH 0 PROP
     (Handler.prop "prop_Image_width"),
   devs_builtin_function_t.mk DEVS_BUILTIN_STRING.HEIGHT 0 PROP
     (Handler.prop "prop_Image_height"),
   devs_builtin_function_t.mk DEVS_BUILTIN_STRING.BPP 0 PROP
     (Handler.prop "prop_Image_bpp"),
   devs_builtin_function_t.mk DEVS_BUILTIN_STRING.ALLOC 5 NO_SELF
     (Handler.meth "fun5_Image_alloc"),
   devs_builtin_function_t.mk DEVS_BUILTIN_STRING.SET 3 []
     (Handler.meth "meth3_Image_set"),
   devs_builtin_function_t.mk DEVS_BUILTIN_STRING.GET 2 []
     (Handler.meth "meth2_Image_get"),
   devs_builtin_function_t.mk DEVS_BUILTIN_STRING.FILL 1 []
     (Handler.meth "meth1_Image_fill"),
   devs_builtin_function_t.mk DEVS_BUILTIN_STRING.FILLRECT 5 []
     (Handler.meth "meth5_Image_fillRect"),
   devs_builtin_function_t.mk DEVS_BUILTIN_STRING.EQUALS 1 []
     (Handler.meth "meth1_Image_equals"),
   devs_builtin_function_t.mk DEVS_BUILTIN_STRING.CLONE 0 []
     (Handler.meth "meth0_Image_clone"),
   devs_builtin_function_t.mk DEVS_BUILTIN_STRING.FLIPX 0 []
     (Handler.meth "meth0_Image_flipX"),
   devs_builtin_function_t.mk DEVS_BUILTIN_STRING.FLIPY 0 []
     (Handler.meth "meth0_Image_flipY"),
   devs_builtin_function_t.mk DEVS_BUILTIN_STRING.TRANSPOSED 0 []
     (Handler.meth "meth0_Image_transposed"),
   devs_builtin_function_t.mk DEVS_BUILTIN_STRING.DRAWIMAGE 3 []
     (Handler.meth "meth3_Image_drawImage"),
   devs_builtin_function_t.mk DEVS_BUILTIN_STRING.DRAWTRANSPARENTIMAGE 4 []
     (Handler.meth "meth4_Image_drawTransparentImage"),
   devs_builtin_function_t.mk DEVS_BUILTIN_STRING.OVERLAPSWITH 3 []
     (Handler.meth "meth3_Image_overlapsWith"),
   devs_builtin_function_t.mk DEVS_BUILTIN_STRING.DRAWLINE 5 []
     (Handler.meth "meth5_Image_drawLine"),
   devs_builtin_function_t.mk DEVS_BUILTIN_STRING.BLITROW 5 []
     (Handler.meth "meth5_Image_blitRow"),
   devs_builtin_function_t.mk DEVS_BUILTIN_STRING.BLIT 11 []
     (Handler.meth "meth11_Image_blit"),
   devs_builtin_function_t.mk DEVS_BUILTIN_STRING.FILLCIRCLE 4 []
     (Handler.meth "meth4_Image_fillCircle"),
   devs_builtin_function_t.mk DEVS_BUILTIN_STRING.PARSE 2 NO_SELF
     (Handler.meth "fun2_JSON_parse"),
   devs_builtin_function_t.mk DEVS_BUILTIN_STRING.STRINGIFY 3 NO_SELF
     (Handler.meth "fun3_JSON_stringify"),
   devs_builtin_function_t.mk DEVS_BUILTIN_STRING.CEIL 1 NO_SELF
     (Handler.meth "fun1_Math_ceil"),
   devs_builtin_function_t.mk DEVS_BUILTIN_STRING.FLOOR 1 NO_SELF
     (Handler.meth "fun1_Math_floor"),
   devs_builtin_function_t.mk DEVS_BUILTIN_STRING.ROUND 1 NO_SELF
     (Handler.meth "fun1_Math_round"),
   devs_builtin_function_t.mk DEVS_BUILTIN_STRING.ABS 1 NO_SELF
     (Handler.meth "fun1_Math_abs"),
   devs_builtin_function_t.mk DEVS_BUILTIN_STRING.RANDOM 0 NO_SELF
     (Handler.meth "fun0_Math_random"),
   devs_builtin_function_t.mk DEVS_BUILTIN_STRING.RANDOMINT 1 NO_SELF
     (Handler.meth "fun1_Math_randomInt"),
   devs_builtin_function_t.mk DEVS_BUILTIN_STRING.LOG 1 NO_SELF
     (Handler.meth "fun1_Math_log"),
   devs_builtin_function_t.mk DEVS_BUILTIN_STRING.POW 2 NO_SELF
     (Handler.meth "fun2_Math_pow"),
   devs_builtin_function_t.mk DEVS_BUILTIN_STRING.IDIV 2 NO_SELF
     (Handler.meth "fun2_Math_idiv"),
   devs_builtin_function_t.mk DEVS_BUILTIN_STRING.IMOD 2 NO_SELF
     (Handler.meth "fun2_Math_imod"),
   devs_builtin_function_t.mk DEVS_BUILTIN_STRING.IMUL 2 NO_SELF
     (Handler.meth "fun2_Math_imul"),
   devs_builtin_function_t.mk DEVS_BUILTIN_STRING.MIN 2 NO_SELF
     (Handler.meth "fun2_Math_min"),
   devs_builtin_function_t.mk DEVS_BUILTIN_STRING.MAX 2 NO_SELF
     (Handler.meth "fun2_Math_max"),
   devs_builtin_function_t.mk DEVS_BUILTIN_STRING.ASSIGN 2 NO_SELF
     (Handler.meth "fun2_Object_assign"),
   devs_builtin_function_t.mk DEVS_BUILTIN_STRING.KEYS 1 NO_SELF
     (Handler.meth "fun1_Object_keys"),
   devs_builtin_function_t.mk DEVS_BUILTIN_STRING.VALUES 1 NO_SELF
     (Handler.meth "fun1_Object_values"),
   devs_builtin_function_t.mk DEVS_BUILTIN_STRING.SETPROTOTYPEOF 2 NO_SELF
     (Handler.meth "fun2_Object_setPrototypeOf"),
   devs_builtin_function_t.mk DEVS_BUILTIN_STRING.ROLE 0 PROP
     (Handler.prop "prop_DsPacket_role"),
   devs_builtin_function_t.mk DEVS_BUILTIN_STRING.DEVICEIDENTIFIER 0 PROP
     (Handler.prop "prop_DsPacket_deviceIdentifier"),
   devs_builtin_function_t.mk DEVS_BUILTIN_STRING.SHORTID 0 PROP
     (Handler.prop "prop_DsPacket_shortId"),
   devs_builtin_function_t.mk DEVS_BUILTIN_STRING.SERVICEINDEX 0 PROP
     (Handler.prop "prop_DsPacket_serviceIndex"),
   devs_builtin_function_t.mk DEVS_BUILTIN_STRING.SERVICECOMMAND 0 PROP
     (Handler.prop "prop_DsPacket_serviceCommand"),
   devs_builtin_function_t.mk DEVS_BUILTIN_STRING.FLAGS 0 PROP
     (Handler.prop "prop_DsPacket_flags"),
   devs_builtin_function_t.mk DEVS_BUILTIN_STRING.ISCOMMAND 0 PROP
     (Handler.prop "prop_DsPacket_isCommand"),
   devs_builtin_function_t.mk DEVS_BUILTIN_STRING.ISREPORT 0 PROP
     (Handler.prop "prop_DsPacket_isReport"),
   devs_builtin_function_t.mk DEVS_BUILTIN_STRING.PAYLOAD 0 PROP
     (Handler.prop "prop_DsPacket_payload"),
   devs_builtin_function_t.mk DEVS_BUILTIN_STRING.ISEVENT 0 PROP
     (Handler.prop "prop_DsPacket_isEvent"),
   devs_builtin_function_t.mk DEVS_BUILTIN_STRING.EVENTCODE 0 PROP
     (Handler.prop "prop_DsPacket_eventCode"),
   devs_builtin_function_t.mk DEVS_BUILTIN_STRING.ISREGSET 0 PROP
     (Handler.prop "prop_DsPacket_isRegSet"),
   devs_builtin_function_t.mk DEVS_BUILTIN_STRING.ISREGGET 0 PROP
     (Handler.prop "prop_DsPacket_isRegGet"),
   devs_builtin_function_t.mk DEVS_BUILTIN_STRING.REGCODE 0 PROP
     (Handler.prop "prop_DsPacket_regCode"),
   devs_builtin_function_t.mk DEVS_BUILTIN_STRING.ISACTION 0 PROP
     (Handler.prop "prop_DsPacket_isAction"),
   devs_builtin_function_t.mk DEVS_BUILTIN_STRING.SPEC 0 PROP
     (Handler.prop "prop_DsPacket_spec"),
   devs_builtin_function_t.mk DEVS_BUILTIN_STRING.DECODE 0 []
     (Handler.meth "meth0_DsPacket_decode"),
   devs_builtin_function_t.mk DEVS_BUILTIN_STRING.NOTIMPLEMENTED 0 []
     (Handler.meth "meth0_DsPacket_notImplemented"),
   devs_builtin_function_t.mk DEVS_BUILTIN_STRING.PARENT 0 PROP
     (Handler.prop "prop_DsPacketSpec_parent"),
   devs_builtin_function_t.mk DEVS_BUILTIN_STRING.NAME 0 PROP
     (Handler.prop "prop_DsPacketSpec_name"),
   devs_builtin_function_t.mk DEVS_BUILTIN_STRING.CODE 0 PROP
     (Handler.prop "prop_DsPacketSpec_code"),
   devs_builtin_function_t.mk DEVS_BUILTIN_STRING.RESPONSE 0 PROP
     (Handler.prop "prop_DsPacketSpec_response"),
   devs_builtin_function_t.mk DEVS_BUILTIN_STRING.ENCODE 0 []
     (Handler.meth "methX_DsPacketSpec_encode"),
   devs_builtin_function_t.mk DEVS_BUILTIN_STRING.READ 0 []
     (Handler.meth "meth0_DsRegister_read"),
   devs_builtin_function_t.mk DEVS_BUILTIN_STRING.WRITE 0 []
     (Handler.meth "methX_DsRegister_write"),
   devs_builtin_function_t.mk DEVS_BUILTIN_STRING.ROLE 0 PROP
     (Handler.prop "prop_DsPacketInfo_role"),
   devs_builtin_function_t.mk DEVS_BUILTIN_STRING.NAME 0 PROP
     (Handler.prop "prop_DsPacketInfo_name"),
   devs_builtin_function_t.mk DEVS_BUILTIN_STRING.CODE 0 PROP
     (Handler.prop "prop_DsPacketInfo_code"),
   devs_builtin_function_t.mk DEVS_BUILTIN_STRING.__FUNC__ 0 []
     (Handler.meth "methX_DsCommand___func__"),
   devs_builtin_function_t.mk DEVS_BUILTIN_STRING.ISBOUND 0 PROP
     (Handler.prop "prop_DsRole_isBound"),
   devs_builtin_function_t.mk DEVS_BUILTIN_STRING.SPEC 0 PROP
     (Handler.prop "prop_DsRole_spec"),
   devs_builtin_function_t.mk DEVS_BUILTIN_STRING.SENDCOMMAND 2 []
     (Handler.meth "meth2_DsRole_sendCommand"),
   devs_builtin_function_t.mk DEVS_BUILTIN_STRING.CLASSIDENTIFIER 0 PROP
     (Handler.prop "prop_DsServiceSpec_classIdentifier"),
   devs_builtin_function_t.mk DEVS_BUILTIN_STRING.NAME 0 PROP
     (Handler.prop "prop_DsServiceSpec_name"),
   devs_builtin_function_t.mk DEVS_BUILTIN_STRING.LOOKUP 1 []
     (Handler.meth "meth1_DsServiceSpec_lookup"),
   devs_builtin_function_t.mk DEVS_BUILTIN_STRING.ASSIGN 1 []
     (Handler.meth "meth1_DsServiceSpec_assign"),
   devs_builtin_function_t.mk DEVS_BUILTIN_STRING._SOCKETOPEN 2 NO_SELF
     (Handler.meth "fun2_DeviceScript__socketOpen"),
   devs_builtin_function_t.mk DEVS_BUILTIN_STRING._SOCKETCLOSE 0 NO_SELF
     (Handler.meth "fun0_DeviceScript__socketClose"),
   devs_builtin_function_t.mk DEVS_BUILTIN_STRING._SOCKETWRITE 1 NO_SELF
     (Handler.meth "fun1_DeviceScript__socketWrite"),
   devs_builtin_function_t.mk DEVS_BUILTIN_STRING.LENGTH 0 PROP
     (Handler.prop "prop_String_length"),
   devs_builtin_function_t.mk DEVS_BUILTIN_STRING.BYTELENGTH 0 PROP
     (Handler.prop "prop_String_byteLength"),
   devs_builtin_function_t.mk DEVS_BUILTIN_STRING.CHARCODEAT 1 []
     (Handler.meth "meth1_String_charCodeAt"),
   devs_builtin_function_t.mk DEVS_BUILTIN_STRING.CHARAT 1 []
     (Handler.meth "meth1_String_charAt"),
   devs_builtin_function_t.mk DEVS_BUILTIN_STRING.SLICE 2 []
     (Handler.meth "meth2_String_slice"),
   devs_builtin_function_t.mk DEVS_BUILTIN_STRING.FROMCHARCODE 0 NO_SELF
     (Handler.meth "funX_String_fromCharCode"),
   devs_builtin_function_t.mk DEVS_BUILTIN_STRING.INDEXOF 3 []
     (Handler.meth "meth3_String_indexOf"),
   devs_builtin_function_t.mk DEVS_BUILTIN_STRING.TOLOWERCASE 0 []
     (Handler.meth "meth0_String_toLowerCase"),
   devs_builtin_function_t.mk DEVS_BUILTIN_STRING.TOUPPERCASE 0 []
     (Handler.meth "meth0_String_toUpperCase")]

/-- The builtin objects, in the order of their designators in devs_builtin_protos. -/
def builtin_objects : List DEVS_BUILTIN_OBJECT :=
  [.ARRAY_PROTOTYPE, .ARRAY, .BUFFER, .BUFFER_PROTOTYPE, .DEVICESCRIPT, .TYPEERROR_PROTOTYPE,
   .RANGEERROR_PROTOTYPE, .ERROR, .ERROR_PROTOTYPE, .RANGEERROR, .TYPEERROR, .SYNTAXERROR,
   .SYNTAXERROR_PROTOTYPE, .DSFIBER_PROTOTYPE, .DSFIBER, .FUNCTION_PROTOTYPE, .IMAGE_PROTOTYPE,
   .IMAGE, .JSON, .MATH, .OBJECT, .DSPACKET_PROTOTYPE, .DSPACKETSPEC_PROTOTYPE,
   .DSREGISTER_PROTOTYPE, .DSCOMMAND_PROTOTYPE, .DSEVENT_PROTOTYPE, .DSPACKETINFO_PROTOTYPE,
   .DSROLE_PROTOTYPE, .DSSERVICESPEC_PROTOTYPE, .STRING_PROTOTYPE, .STRING, .NUMBER, .DSROLE,
   .FUNCTION, .BOOLEAN, .DSPACKET, .DSSERVICESPEC, .DSPACKETSPEC, .OBJECT_PROTOTYPE,
   .NUMBER_PROTOTYPE, .BOOLEAN_PROTOTYPE, .DSREPORT_PROTOTYPE]

/-- The row of devs_builtin_functions that a function index selects: the element at
idx - DEVS_FIRST_BUILTIN_FUNCTION, when the index is not below the base and the element
exists. -/
def builtin_function_row (idx : Nat) : Option devs_builtin_function_t :=
  if DEVS_FIRST_BUILTIN_FUNCTION ≤ idx then
    devs_builtin_functions[idx - DEVS_FIRST_BUILTIN_FUNCTION]?
  else none

/-- The function index of an entry, when its value is one. -/
def entry_function_index (e : devs_builtin_proto_entry_t) : Option Nat :=
  match e.value with
  | .function idx => some idx
  | .object _ => none

/-- Whether an entry with a function index selects a row, and, unless its key is CONSTRUCTOR
or __FUNC__, a row of the same name. -/
def entry_consistent (e : devs_builtin_proto_entry_t) : Bool :=
  match e.value with
  | .object _ => true
  | .function idx =>
    match builtin_function_row idx with
    | none => false
    | some row => e.key == .CONSTRUCTOR || e.key == .__FUNC__ || row.name == e.key

/-- Every function index stored in an entry table of devs_builtin_protos. -/
def referenced_function_indices : List Nat :=
  builtin_objects.flatMap
    (fun o => (devs_builtin_protos o).entries.filterMap entry_function_index)

/-- The end of the flash range the finalize has the hash read: the call
jd_hash_fnv1a(hdf->image, hdf->size) in devsmgr_deploy_write reads the offsets from 128 up to,
not including, 128 + hdf->size, whatever write_offset is. -/
def finalize_read_end (s : State) : Nat := HEADER_SIZE + (program_header s).size

/-- The call devsmgr_deploy_write with its reads of flash.  The program region at
cfg->program_base has max_program_size bytes.  With write_offset = 0 the call returns before
it reads anything, and a chunk reads only the size word.  A finalize (NULL buffer) with a
nonzero write_offset hashes the range that ends at finalize_read_end before it compares
write_offset with the declared end: when that range lies inside the region the call returns
what devsmgr_deploy_write gives; when it leaves the region the read is outside the flash
object, the call has no defined result (it faults on the targets), and the value is none. -/
def deploy_write_call (env : Env) (s : State) (buf : Option (List Nat)) :
    Option (Int × State) :=
  if s.write_offset = 0 then some (-1, s)
  else
    match buf with
    | none =>
      if finalize_read_end s ≤ env.max_program_size then
        some (devsmgr_deploy_write env s none)
      else none
    | some data => some (devsmgr_deploy_write env s (some data))

/-! ## Arithmetic of bytes, words and flash -/

theorem land_align (n : Nat) : n &&& (DEVSMGR_ALIGN - 1) = n % 32 := by
  have h := Nat.and_pow_two_sub_one_eq_mod n 5
  simpa [DEVSMGR_ALIGN] using h

theorem land_255 (d : Nat) (h : d < 256) : 255 &&& d = d := by
  have h1 := Nat.and_pow_two_sub_one_eq_mod d 8
  rw [Nat.land_comm]
  simp at h1
  rw [h1]
  exact Nat.mod_eq_of_lt h

theorem erase_page_in (page : Nat) (f : Nat → Nat) (off a : Nat) (h1 : off ≤ a)
    (h2 : a < off + page) : erase_page page f off a = 255 := by
  simp [erase_page, h1, h2]

theorem erase_page_out (page : Nat) (f : Nat → Nat) (off a : Nat)
    (h : a < off ∨ off + page ≤ a) : erase_page page f off a = f a := by
  unfold erase_page
  rw [if_neg]
  omega

theorem program_bytes_out (f : Nat → Nat) (off : Nat) (data : List Nat) (a : Nat)
    (h : a < off ∨ off + data.length ≤ a) : program_bytes f off data a = f a := by
  unfold program_bytes
  rw [if_neg]
  omega

theorem program_bytes_erased (f : Nat → Nat) (off : Nat) (data : List Nat) (a : Nat)
    (h1 : off ≤ a) (h2 : a < off + data.length) (he : f a = 255)
    (hb : data.getD (a - off) 255 < 256) :
    program_bytes f off data a = data.getD (a - off) 255 := by
  unfold program_bytes
  rw [if_pos ⟨h1, h2⟩, he, land_255 _ hb]

theorem le32_length (x : Nat) : (le32 x).length = 4 := rfl

theorem rd32_congr (f g : Nat → Nat) (off : Nat)
    (h : ∀ a, off ≤ a → a < off + 4 → f a = g a) : rd32 f off = rd32 g off := by
  unfold rd32
  rw [h off (by omega) (by omega), h (off + 1) (by omega) (by omega),
    h (off + 2) (by omega) (by omega), h (off + 3) (by omega) (by omega)]

theorem rd32_erased (f : Nat → Nat) (off : Nat) (h : erased f off (off + 4)) :
    rd32 f off = 4294967295 := by
  unfold rd32
  rw [h off (by omega) (by omega), h (off + 1) (by omega) (by omega),
    h (off + 2) (by omega) (by omega), h (off + 3) (by omega) (by omega)]

theorem rd32_lt (f : Nat → Nat) (off : Nat) : rd32 f off < U32 := by
  unfold rd32 U32
  omega

/-- Reading a word back from four bytes that hold its little-endian encoding. -/
theorem rd32_of_bytes (f : Nat → Nat) (off x : Nat) (hx : x < U32)
    (h0 : f off = x % 256) (h1 : f (off + 1) = x / 256 % 256)
    (h2 : f (off + 2) = x / 65536 % 256) (h3 : f (off + 3) = x / 16777216 % 256) :
    rd32 f off = x := by
  unfold rd32
  rw [h0, h1, h2, h3]
  unfold U32 at hx
  omega

theorem deploy_start_accept_state (env : Env) (s : State) (sz : Nat)
    (h : ¬ (sz ≥ (U32 + env.max_program_size - HEADER_SIZE) % U32
      ∨ sz &&& (DEVSMGR_ALIGN - 1) ≠ 0)) :
    devsmgr_deploy_start env s sz =
      if sz = 0 then (0, flash_erase env (stop_program s) 0)
      else (0, send_status { flash_program (flash_erase env (stop_program s) 0) 0
              (le32 DEVSMGR_PROG_MAGIC0 ++ le32 sz) with write_offset := HEADER_SIZE }) := by
  unfold devsmgr_deploy_start
  rw [if_neg h]

theorem deploy_start_result (env : Env) (s : State) (sz : Nat) :
    (devsmgr_deploy_start env s sz).1 = 0 ∨ (devsmgr_deploy_start env s sz).1 = -1 := by
  unfold devsmgr_deploy_start
  split_ifs <;> simp

theorem deploy_start_ok_iff (env : Env) (s : State) (sz : Nat) :
    (devsmgr_deploy_start env s sz).1 = 0 ↔
      ¬ (sz ≥ (U32 + env.max_program_size - HEADER_SIZE) % U32
        ∨ sz &&& (DEVSMGR_ALIGN - 1) ≠ 0) := by
  unfold devsmgr_deploy_start
  split_ifs <;> simp_all

/-- The flash after an accepted deploy_start with a nonzero size. -/
theorem deploy_start_flash_nonzero (env : Env) (s : State) (sz : Nat)
    (hok : (devsmgr_deploy_start env s sz).1 = 0) (hsz : sz ≠ 0) :
    (devsmgr_deploy_start env s sz).2.flash =
      program_bytes (erase_page env.flash_page_size s.flash 0) 0
        (le32 DEVSMGR_PROG_MAGIC0 ++ le32 sz) := by
  rw [deploy_start_accept_state env s sz ((deploy_start_ok_iff env s sz).1 hok), if_neg hsz]
  rfl

theorem deploy_start_flash_zero (env : Env) (s : State)
    (hok : (devsmgr_deploy_start env s 0).1 = 0) :
    (devsmgr_deploy_start env s 0).2.flash = erase_page env.flash_page_size s.flash 0 := by
  rw [deploy_start_accept_state env s 0 ((deploy_start_ok_iff env s 0).1 hok), if_pos rfl]
  rfl

theorem hdr8_getD (x y a : Nat) (ha : a < 8) :
    (le32 x ++ le32 y).getD a 255 =
      if a = 0 then x % 256 else if a = 1 then x / 256 % 256
      else if a = 2 then x / 65536 % 256 else if a = 3 then x / 16777216 % 256
      else if a = 4 then y % 256 else if a = 5 then y / 256 % 256
      else if a = 6 then y / 65536 % 256 else y / 16777216 % 256 := by
  interval_cases a <;> simp [le32]

theorem hdr8_flash (page : Nat) (f : Nat → Nat) (sz : Nat) (hp : 8 ≤ page) (hsz : sz < U32) :
    let g := program_bytes (erase_page page f 0) 0 (le32 DEVSMGR_PROG_MAGIC0 ++ le32 sz)
    rd32 g 0 = DEVSMGR_PROG_MAGIC0 ∧ rd32 g 4 = sz ∧ ∀ a, 8 ≤ a → g a = erase_page page f 0 a := by
  intro g
  have hb : ∀ a, a < 8 → g a = (le32 DEVSMGR_PROG_MAGIC0 ++ le32 sz).getD a 255 := by
    intro a ha
    have := program_bytes_erased (erase_page page f 0) 0 (le32 DEVSMGR_PROG_MAGIC0 ++ le32 sz) a
      (by omega) (by simp [le32]; omega) (erase_page_in _ _ _ _ (by omega) (by omega))
    simp only [Nat.sub_zero] at this
    apply this
    rw [hdr8_getD _ _ _ ha]
    split_ifs <;> omega
  refine ⟨?_, ?_, ?_⟩
  · apply rd32_of_bytes _ _ _ (by unfold DEVSMGR_PROG_MAGIC0 U32; omega)
    · rw [hb 0 (by omega), hdr8_getD _ _ _ (by omega)]; simp
    · rw [hb 1 (by omega), hdr8_getD _ _ _ (by omega)]; simp
    · rw [hb 2 (by omega), hdr8_getD _ _ _ (by omega)]; simp
    · rw [hb 3 (by omega), hdr8_getD _ _ _ (by omega)]; simp
  · apply rd32_of_bytes _ _ _ hsz
    · rw [hb 4 (by omega), hdr8_getD _ _ _ (by omega)]; simp
    · rw [hb 5 (by omega), hdr8_getD _ _ _ (by omega)]; simp
    · rw [hb 6 (by omega), hdr8_getD _ _ _ (by omega)]; simp
    · rw [hb 7 (by omega), hdr8_getD _ _ _ (by omega)]; simp
  · intro a ha
    apply program_bytes_out
    right
    simp [le32]
    omega

/-! ## Header validity and deploy_start -/

/-- C5: devs_header returns the flash header exactly when the word at offset 0 is the magic0
sentinel 0x8d8abd53 and the word at offset 8 is the magic1 sentinel 0xb27c4b2b; what it
returns is the header read from flash; and a header whose magic1 word is not the sentinel, such
as the header left by deploy_start with magic0 and size written and magic1 still erased, yields
none. -/
theorem devs_header_iff_both_magics (s : State) :
    (devs_header s = some (program_header s) ↔
      rd32 s.flash 0 = 0x8d8abd53 ∧ rd32 s.flash 8 = 0xb27c4b2b) ∧
    (devs_header s = none ↔ ¬ (rd32 s.flash 0 = 0x8d8abd53 ∧ rd32 s.flash 8 = 0xb27c4b2b)) ∧
    (∀ h, devs_header s = some h → h = program_header s) ∧
    (rd32 s.flash 0 = 0x8d8abd53 ∧ erased s.flash 8 12 → devs_header s = none) := by
  unfold devs_header
  simp only [program_header, DEVSMGR_PROG_MAGIC0, DEVSMGR_PROG_MAGIC1]
  refine ⟨?_, ?_, ?_, ?_⟩
  · by_cases h : rd32 s.flash 0 = 0x8d8abd53 ∧ rd32 s.flash 8 = 0xb27c4b2b <;> simp [h]
  · by_cases h : rd32 s.flash 0 = 0x8d8abd53 ∧ rd32 s.flash 8 = 0xb27c4b2b <;> simp [h]
  · intro h
    by_cases h : rd32 s.flash 0 = 0x8d8abd53 ∧ rd32 s.flash 8 = 0xb27c4b2b <;> simp [h]
    intro hh
    exact hh.symm
  · rintro ⟨_, he⟩
    rw [rd32_erased s.flash 8 he]
    simp

/-- An instance of C5: the header left by deploy_start(64), magic0 and size written and
magic1 still erased, is not returned. -/
theorem devs_header_iff_both_magics_witness :
    (rd32 (devsmgr_deploy_start demo_env boot_state 64).2.flash 0 = 0x8d8abd53 ∧
      erased (devsmgr_deploy_start demo_env boot_state 64).2.flash 8 12) ∧
    devs_header (devsmgr_deploy_start demo_env boot_state 64).2 = none := by
  have h : rd32 (devsmgr_deploy_start demo_env boot_state 64).2.flash 0 = 0x8d8abd53 ∧
      erased (devsmgr_deploy_start demo_env boot_state 64).2.flash 8 12 := by
    refine ⟨by decide, ?_⟩
    intro a h1 h2
    interval_cases a <;> decide
  exact ⟨h, (devs_header_iff_both_magics _).2.2.2 h⟩

/-- A size below the limit that is a multiple of 32 is accepted. -/
theorem deploy_start_ok_of_bounds (env : Env) (s : State) (sz : Nat)
    (hmin : 128 ≤ env.max_program_size) (hmax : env.max_program_size < U32)
    (hsz : sz < env.max_program_size - 128) (h32 : sz % 32 = 0) :
    (devsmgr_deploy_start env s sz).1 = 0 := by
  rw [deploy_start_ok_iff, land_align]
  have hm : (U32 + env.max_program_size - HEADER_SIZE) % U32 = env.max_program_size - 128 := by
    unfold U32 HEADER_SIZE at *
    omega
  rw [hm]
  omega

/-- C6: with 128 <= max_program_size (a uint32_t), devsmgr_deploy_start returns -1 exactly
when size >= max_program_size - 128 or size is not a multiple of 32, and returns 0 in every
other case. -/
theorem deploy_start_fails_iff (env : Env) (s : State) (sz : Nat)
    (hmin : 128 ≤ env.max_program_size) (hmax : env.max_program_size < U32) :
    ((devsmgr_deploy_start env s sz).1 = -1 ↔
      (sz ≥ env.max_program_size - 128 ∨ sz % 32 ≠ 0)) ∧
    (¬ (sz ≥ env.max_program_size - 128 ∨ sz % 32 ≠ 0) →
      (devsmgr_deploy_start env s sz).1 = 0) := by
  have hm : (U32 + env.max_program_size - HEADER_SIZE) % U32 = env.max_program_size - 128 := by
    unfold U32 HEADER_SIZE at *
    omega
  have hok := deploy_start_ok_iff env s sz
  rw [hm, land_align] at hok
  have hr := deploy_start_result env s sz
  refine ⟨⟨?_, ?_⟩, ?_⟩
  · intro h1
    by_contra hc
    rw [hok.2 hc] at h1
    exact absurd h1 (by decide)
  · intro hc
    rcases hr with h0 | h1
    · exact absurd hc (hok.1 h0)
    · exact h1
  · intro hc
    exact hok.2 hc

/-- An instance of C6: in a 4096-byte region, size 64 is accepted and sizes 3968 and 48 are
rejected. -/
theorem deploy_start_fails_iff_witness :
    (128 ≤ demo_env.max_program_size ∧ demo_env.max_program_size < U32) ∧
    (devsmgr_deploy_start demo_env boot_state 64).1 = 0 ∧
    (devsmgr_deploy_start demo_env boot_state 3968).1 = -1 ∧
    (devsmgr_deploy_start demo_env boot_state 48).1 = -1 :=
  ⟨⟨by decide, by decide⟩,
   (deploy_start_fails_iff demo_env boot_state 64 (by decide) (by decide)).2 (by decide),
   (deploy_start_fails_iff demo_env boot_state 3968 (by decide) (by decide)).1.2 (by decide),
   (deploy_start_fails_iff demo_env boot_state 48 (by decide) (by decide)).1.2 (by decide)⟩

theorem devs_header_none_of_magic0 (s : State) (h : rd32 s.flash 0 ≠ DEVSMGR_PROG_MAGIC0) :
    devs_header s = none := by
  simp [devs_header, program_header, h]

theorem devs_header_none_of_magic1 (s : State) (h : rd32 s.flash 8 ≠ DEVSMGR_PROG_MAGIC1) :
    devs_header s = none := by
  simp [devs_header, program_header, h]

theorem devs_header_congr (s t : State) (h : ∀ a, a < 16 → s.flash a = t.flash a) :
    devs_header s = devs_header t := by
  unfold devs_header program_header
  rw [rd32_congr s.flash t.flash 0 (fun a _ h2 => h a (by omega)),
    rd32_congr s.flash t.flash 4 (fun a _ h2 => h a (by omega)),
    rd32_congr s.flash t.flash 8 (fun a _ h2 => h a (by omega)),
    rd32_congr s.flash t.flash 12 (fun a _ h2 => h a (by omega))]

theorem deploy_start_accept_lt (env : Env) (s : State) (sz : Nat)
    (hok : (devsmgr_deploy_start env s sz).1 = 0) : sz < U32 := by
  have h := (deploy_start_ok_iff env s sz).1 hok
  have h2 : (U32 + env.max_program_size - HEADER_SIZE) % U32 < U32 :=
    Nat.mod_lt _ (by unfold U32; omega)
  omega

theorem deploy_start_ctx (env : Env) (s : State) (sz : Nat)
    (hok : (devsmgr_deploy_start env s sz).1 = 0) :
    (devsmgr_deploy_start env s sz).2.ctx = none := by
  rw [deploy_start_accept_state env s sz ((deploy_start_ok_iff env s sz).1 hok)]
  split_ifs <;> rfl

theorem deploy_start_write_offset_nonzero (env : Env) (s : State) (sz : Nat)
    (hok : (devsmgr_deploy_start env s sz).1 = 0) (hsz : sz ≠ 0) :
    (devsmgr_deploy_start env s sz).2.write_offset = 128 := by
  rw [deploy_start_accept_state env s sz ((deploy_start_ok_iff env s sz).1 hok), if_neg hsz]
  rfl

/-- After an accepted deploy_start the header is absent: the page erase wiped the magic
words and at most magic0 was written back. -/
theorem deploy_start_header_none (env : Env) (s : State) (sz : Nat)
    (hpage : 16 ≤ env.flash_page_size) (hok : (devsmgr_deploy_start env s sz).1 = 0) :
    devs_header (devsmgr_deploy_start env s sz).2 = none := by
  have hlt := deploy_start_accept_lt env s sz hok
  by_cases hz : sz = 0
  · subst hz
    apply devs_header_none_of_magic0
    rw [deploy_start_flash_zero env s hok, rd32_erased]
    · decide
    · intro a h1 h2
      exact erase_page_in _ _ _ _ (by omega) (by omega)
  · apply devs_header_none_of_magic1
    rw [deploy_start_flash_nonzero env s sz hok hz, rd32_erased]
    · decide
    · intro a h1 h2
      rw [(hdr8_flash env.flash_page_size s.flash sz (by omega) hlt).2.2 a h1]
      exact erase_page_in _ _ _ _ (by omega) (by omega)

/-- After an accepted deploy_start of a nonzero size the header holds magic0 and the size,
and the bytes of magic1 and hash are erased. -/
theorem deploy_start_words (env : Env) (s : State) (sz : Nat)
    (hpage : 16 ≤ env.flash_page_size) (hok : (devsmgr_deploy_start env s sz).1 = 0)
    (hpos : 0 < sz) :
    rd32 (devsmgr_deploy_start env s sz).2.flash 0 = DEVSMGR_PROG_MAGIC0 ∧
    rd32 (devsmgr_deploy_start env s sz).2.flash 4 = sz ∧
    erased (devsmgr_deploy_start env s sz).2.flash 8 16 := by
  have hlt := deploy_start_accept_lt env s sz hok
  have hz : sz ≠ 0 := by omega
  have hf := hdr8_flash env.flash_page_size s.flash sz (by omega) hlt
  rw [deploy_start_flash_nonzero env s sz hok hz]
  refine ⟨hf.1, hf.2.1, ?_⟩
  intro a h1 h2
  rw [hf.2.2 a h1]
  exact erase_page_in _ _ _ _ (by omega) (by omega)

/-- C7: after devsmgr_deploy_start succeeds, from any prior state and for any accepted size
(on flash whose page holds at least the first 16 header bytes), no context exists and
devs_header is none; if size > 0 the flash holds the magic0 sentinel at offset 0 and size at
offset 4, the bytes of magic1 and hash (offsets 8 to 15) are still erased, and
write_offset = 128. -/
theorem deploy_start_invalidates_previous (env : Env) (s : State) (sz : Nat)
    (hpage : 16 ≤ env.flash_page_size)
    (hok : (devsmgr_deploy_start env s sz).1 = 0) :
    (devsmgr_deploy_start env s sz).2.ctx = none ∧
    devs_header (devsmgr_deploy_start env s sz).2 = none ∧
    (0 < sz →
      rd32 (devsmgr_deploy_start env s sz).2.flash 0 = 0x8d8abd53 ∧
      rd32 (devsmgr_deploy_start env s sz).2.flash 4 = sz ∧
      erased (devsmgr_deploy_start env s sz).2.flash 8 16 ∧
      (devsmgr_deploy_start env s sz).2.write_offset = 128) := by
  refine ⟨deploy_start_ctx env s sz hok, deploy_start_header_none env s sz hpage hok, ?_⟩
  intro hpos
  obtain ⟨w0, w4, w8⟩ := deploy_start_words env s sz hpage hok hpos
  have hwo := deploy_start_write_offset_nonzero env s sz hok (by omega)
  exact ⟨w0, w4, w8, hwo⟩

set_option maxRecDepth 100000 in
/-- An instance of C7: deploy_start(256) over a stored valid program with a running
context. -/
theorem deploy_start_invalidates_previous_witness :
    ((devs_header stored_state).isSome = true ∧ stored_state.ctx.isSome = true) ∧
    (16 ≤ demo_env.flash_page_size ∧ (devsmgr_deploy_start demo_env stored_state 256).1 = 0) ∧
    (devsmgr_deploy_start demo_env stored_state 256).2.ctx = none ∧
    devs_header (devsmgr_deploy_start demo_env stored_state 256).2 = none ∧
    (devsmgr_deploy_start demo_env stored_state 256).2.write_offset = 128 :=
  have h := deploy_start_invalidates_previous demo_env stored_state 256 (by decide) (by decide)
  ⟨⟨by decide, by decide⟩, ⟨by decide, by decide⟩, h.1, h.2.1, (h.2.2 (by decide)).2.2.2⟩

/-! ## devsmgr_deploy_write, case by case -/

theorem deploy_write_idle (env : Env) (s : State) (buf : Option (List Nat))
    (h : s.write_offset = 0) : devsmgr_deploy_write env s buf = (-1, s) := by
  unfold devsmgr_deploy_write
  rw [if_pos h]

theorem deploy_write_chunk_reject (env : Env) (s : State) (data : List Nat)
    (hw : s.write_offset ≠ 0)
    (h : data.length &&& (DEVSMGR_ALIGN - 1) ≠ 0
      ∨ (s.write_offset + data.length) % U32 > ((program_header s).size + HEADER_SIZE) % U32
      ∨ data.length ≥ env.flash_page_size) :
    devsmgr_deploy_write env s (some data) = (-1, { s with write_offset := 0 }) := by
  unfold devsmgr_deploy_write
  rw [if_neg hw]
  simp only []
  rw [if_pos h]

/-- The state in which the chunk is programmed: after the erase of the next page when the
write crosses a page boundary, the state itself otherwise. -/
theorem deploy_write_chunk_accept (env : Env) (s : State) (data : List Nat)
    (hw : s.write_offset ≠ 0)
    (h : ¬ (data.length &&& (DEVSMGR_ALIGN - 1) ≠ 0
      ∨ (s.write_offset + data.length) % U32 > ((program_header s).size + HEADER_SIZE) % U32
      ∨ data.length ≥ env.flash_page_size)) :
    devsmgr_deploy_write env s (some data) =
      (0, { flash_program
              (if s.write_offset / env.flash_page_size
                  ≠ (s.write_offset + data.length) % U32 / env.flash_page_size then
                flash_erase env s
                  (((s.write_offset + data.length) % U32) &&& (U32 - env.flash_page_size))
              else s) s.write_offset data
            with write_offset := (s.write_offset + data.length) % U32 }) := by
  unfold devsmgr_deploy_write
  rw [if_neg hw]
  simp only []
  rw [if_neg h]
  split_ifs <;> rfl

theorem deploy_write_finalize_reject (env : Env) (s : State)
    (hw : s.write_offset ≠ 0)
    (h : s.write_offset ≠ ((program_header s).size + HEADER_SIZE) % U32) :
    devsmgr_deploy_write env s none = (-1, s) := by
  unfold devsmgr_deploy_write
  rw [if_neg hw]
  simp only []
  rw [if_pos h]

theorem deploy_write_finalize_accept (env : Env) (s : State)
    (hw : s.write_offset ≠ 0)
    (h : s.write_offset = ((program_header s).size + HEADER_SIZE) % U32) :
    devsmgr_deploy_write env s none =
      (0, { jd_send_event (stop_program (flash_sync (flash_program s 8
              (finalize_bytes (jd_hash_fnv1a (image s 0 (program_header s).size))))))
              Event.change with
            next_restart := s.now }) := by
  unfold devsmgr_deploy_write
  rw [if_neg hw]
  simp only []
  rw [if_neg (not_not.2 h)]
  rfl

theorem deploy_write_result (env : Env) (s : State) (buf : Option (List Nat)) :
    (devsmgr_deploy_write env s buf).1 = 0 ∨ (devsmgr_deploy_write env s buf).1 = -1 := by
  unfold devsmgr_deploy_write
  split_ifs
  · right; rfl
  · cases buf with
    | none => simp only []; split_ifs <;> simp
    | some data => simp only []; split_ifs <;> simp

set_option maxRecDepth 100000 in
/-- C8, as stated, fails, at two inputs.  (1) In an open session for 2048 bytes on 1024-byte
pages, a chunk of exactly 1024 bytes meets none of the four stated failure conditions
(write_offset is 128, the length is a multiple of 32, 128 + 1024 does not exceed 128 + 2048,
and the length does not exceed the page size), yet devsmgr_deploy_write rejects it.  (2) In
the session left open by deploy_start(64) followed by deploy_start(0), write_offset is 128 and
the size field reads 0xFFFFFFFF; an empty chunk does not go past 128 + size (nor past 128 + 0,
the size last declared), yet it is rejected, because the code computes the end in 32 bits,
where it wraps to 127. -/
theorem deploy_write_rejects_beyond_stated :
    ¬ ((devsmgr_deploy_write demo_env session2048 (some page_chunk)).1 ≠ 0 ↔
        (session2048.write_offset = 0 ∨ page_chunk.length % 32 ≠ 0
          ∨ session2048.write_offset + page_chunk.length
              > 128 + (program_header session2048).size
          ∨ page_chunk.length > demo_env.flash_page_size)) ∧
    ¬ ((devsmgr_deploy_write demo_env stale_session (some [])).1 ≠ 0 ↔
        (stale_session.write_offset = 0 ∨ ([] : List Nat).length % 32 ≠ 0
          ∨ stale_session.write_offset + ([] : List Nat).length
              > 128 + (program_header stale_session).size
          ∨ ([] : List Nat).length > demo_env.flash_page_size)) ∧
    stale_session.write_offset = 128 ∧ (program_header stale_session).size = 4294967295 := by
  decide

/-- C8, amended: for every state and every chunk (non-null buffer) of length len,
devsmgr_deploy_write fails (returns -1) if and only if no session is active
(write_offset = 0), or len is not a multiple of 32, or write_offset + len exceeds 128 + the
size field of the flash header (both sums in 32 bits), or len is greater than or equal to the
flash page size; in every other case it returns 0, the last flash call programs the chunk at
write_offset (after the erase of the next page, if the write crosses a page boundary), and
write_offset advances by len (in 32 bits). -/
theorem deploy_write_chunk_fails_iff (env : Env) (s : State) (data : List Nat) :
    ((devsmgr_deploy_write env s (some data)).1 = -1 ↔
      (s.write_offset = 0 ∨ data.length % 32 ≠ 0
        ∨ (s.write_offset + data.length) % U32 > (rd32 s.flash 4 + 128) % U32
        ∨ data.length ≥ env.flash_page_size)) ∧
    (¬ (s.write_offset = 0 ∨ data.length % 32 ≠ 0
        ∨ (s.write_offset + data.length) % U32 > (rd32 s.flash 4 + 128) % U32
        ∨ data.length ≥ env.flash_page_size) →
      (devsmgr_deploy_write env s (some data)).1 = 0 ∧
      (devsmgr_deploy_write env s (some data)).2.write_offset
        = (s.write_offset + data.length) % U32 ∧
      (∃ g e, (g = s.flash ∨ ∃ off, g = erase_page env.flash_page_size s.flash off) ∧
        (devsmgr_deploy_write env s (some data)).2.flash
          = program_bytes g s.write_offset data ∧
        (devsmgr_deploy_write env s (some data)).2.flash_ops.getLast?
          = some (FlashOp.program s.write_offset data e))) := by
  have key : ∀ (hw : s.write_offset ≠ 0),
      (data.length % 32 ≠ 0
        ∨ (s.write_offset + data.length) % U32 > (rd32 s.flash 4 + 128) % U32
        ∨ data.length ≥ env.flash_page_size) ↔
      (data.length &&& (DEVSMGR_ALIGN - 1) ≠ 0
        ∨ (s.write_offset + data.length) % U32 > ((program_header s).size + HEADER_SIZE) % U32
        ∨ data.length ≥ env.flash_page_size) := by
    intro _
    rw [land_align]
    rfl
  by_cases hw : s.write_offset = 0
  · rw [deploy_write_idle env s _ hw]
    simp [hw]
  · by_cases hr : data.length % 32 ≠ 0
        ∨ (s.write_offset + data.length) % U32 > (rd32 s.flash 4 + 128) % U32
        ∨ data.length ≥ env.flash_page_size
    · rw [deploy_write_chunk_reject env s data hw ((key hw).1 hr)]
      simp [hr]
    · rw [deploy_write_chunk_accept env s data hw (fun h => hr ((key hw).2 h))]
      have hn : ¬ (s.write_offset = 0 ∨ data.length % 32 ≠ 0
          ∨ (s.write_offset + data.length) % U32 > (rd32 s.flash 4 + 128) % U32
          ∨ data.length ≥ env.flash_page_size) := by
        rintro (h | h)
        · exact hw h
        · exact hr h
      refine ⟨⟨fun h => ?_, fun h => absurd h hn⟩, fun _ => ⟨rfl, ?_, ?_⟩⟩
      · simp at h
      · split_ifs <;> rfl
      · split_ifs
        · exact ⟨_, range_erased (erase_page env.flash_page_size s.flash
              (((s.write_offset + data.length) % U32) &&& (U32 - env.flash_page_size)))
              s.write_offset data.length,
            Or.inr ⟨_, rfl⟩, rfl, by simp [flash_program, flash_erase]⟩
        · exact ⟨_, range_erased s.flash s.write_offset data.length,
            Or.inl rfl, rfl, by simp [flash_program]⟩

set_option maxRecDepth 100000 in
/-- An instance of amended C8: in the open session for 2048 bytes, a 64-byte chunk is
accepted and moves write_offset from 128 to 192, while the chunk of one full page is
rejected. -/
theorem deploy_write_chunk_fails_iff_witness :
    (devsmgr_deploy_write demo_env session2048 (some pattern64)).1 = 0 ∧
    (devsmgr_deploy_write demo_env session2048 (some pattern64)).2.write_offset = 192 ∧
    (devsmgr_deploy_write demo_env session2048 (some page_chunk)).1 = -1 :=
  ⟨((deploy_write_chunk_fails_iff demo_env session2048 pattern64).2 (by decide)).1,
   ((deploy_write_chunk_fails_iff demo_env session2048 pattern64).2 (by decide)).2.1,
   (deploy_write_chunk_fails_iff demo_env session2048 page_chunk).1.2 (by decide)⟩

/-! ## What leaves the program store alone -/

theorem same_store_refl (s : State) : same_store s s := ⟨rfl, rfl, rfl⟩

theorem same_store_trans {s t u : State} (h1 : same_store s t) (h2 : same_store t u) :
    same_store s u :=
  ⟨h2.1.trans h1.1, h2.2.1.trans h1.2.1, h2.2.2.trans h1.2.2⟩

theorem send_status_store (s : State) : same_store s (send_status s) := ⟨rfl, rfl, rfl⟩

theorem stop_program_store (s : State) : same_store s (stop_program s) := ⟨rfl, rfl, rfl⟩

theorem run_img_store (env : Env) (s : State) (img : List Nat) (b : Bool) :
    same_store s (run_img env s img b) := by
  unfold run_img
  split_ifs <;> exact ⟨rfl, rfl, rfl⟩

theorem try_run_store (env : Env) (s : State) : same_store s (try_run env s) := by
  unfold try_run
  split
  · split_ifs
    · exact same_store_trans (run_img_store env s _ _) (send_status_store _)
    · exact same_store_trans (run_img_store env s _ _) (send_status_store _)
  · exact same_store_trans (run_img_store env s _ _) (send_status_store _)

theorem process_readback_store (env : Env) (s : State) (r : Int) :
    same_store s (process_readback env s r) := by
  unfold process_readback
  simp only []
  split_ifs <;> exact ⟨rfl, rfl, rfl⟩

theorem process_autostart_store (env : Env) (s : State) :
    same_store s (process_autostart env s) := by
  unfold process_autostart
  simp only []
  split_ifs
  · exact same_store_trans (s := s) (t := { s with next_restart := _ }) ⟨rfl, rfl, rfl⟩
      (try_run_store env _)
  · exact ⟨rfl, rfl, rfl⟩
  · exact ⟨rfl, rfl, rfl⟩

theorem process_fault_store (env : Env) (s : State) (code pc : Nat) :
    same_store s (process_fault env s code pc) := by
  unfold process_fault
  split_ifs <;> exact ⟨rfl, rfl, rfl⟩

theorem process_store (env : Env) (s : State) (r : Int) (code pc : Nat) :
    same_store s (devsmgr_process env s r code pc) :=
  same_store_trans (same_store_trans (process_readback_store env s r)
    (process_autostart_store env _)) (process_fault_store env _ code pc)

theorem restart_store (s : State) : same_store s (devsmgr_restart s) := ⟨rfl, rfl, rfl⟩

theorem deploy_start_reject_state (env : Env) (s : State) (sz : Nat)
    (h : (devsmgr_deploy_start env s sz).1 ≠ 0) : (devsmgr_deploy_start env s sz).2 = s := by
  unfold devsmgr_deploy_start at h ⊢
  split_ifs at h ⊢ <;> simp_all

/-- Every packet other than an accepted deploy command leaves the program store alone. -/
theorem packet_store (env : Env) (s : State) (cmd : Cmd)
    (h : ∀ sz port, cmd = Cmd.deploy_bytecode sz port → (devsmgr_deploy_start env s sz).1 ≠ 0) :
    same_store s (devsmgr_handle_packet env s cmd).1 := by
  cases cmd with
  | deploy_bytecode sz port =>
    have h1 := h sz port rfl
    simp only [devsmgr_handle_packet, deploy_bytecode]
    rw [if_pos h1, deploy_start_reject_state env s sz h1]
    exact same_store_refl s
  | read_bytecode r =>
    simp only [devsmgr_handle_packet]
    split_ifs <;> exact ⟨rfl, rfl, rfl⟩
  | set_running v =>
    simp only [devsmgr_handle_packet]
    split_ifs
    · exact same_store_trans (s := s) (t := { s with running := 0 }) ⟨rfl, rfl, rfl⟩
        (try_run_store env _)
    · exact ⟨rfl, rfl, rfl⟩
    · exact ⟨rfl, rfl, rfl⟩
  | set_autostart v =>
    simp only [devsmgr_handle_packet]
    split_ifs <;> exact ⟨rfl, rfl, rfl⟩
  | set_logging v =>
    simp only [devsmgr_handle_packet]
    split <;> exact ⟨rfl, rfl, rfl⟩
  | _ => exact ⟨rfl, rfl, rfl⟩

/-! ## Pages -/

theorem land_page_mask (x k : Nat) (hk : k ≤ 32) (hx : x < 2 ^ 32) :
    x &&& (2 ^ 32 - 2 ^ k) = x / 2 ^ k * 2 ^ k := by
  have hm : 2 ^ 32 - 2 ^ k = 2 ^ k * (2 ^ (32 - k) - 1) := by
    rw [Nat.mul_sub, ← Nat.pow_add, Nat.add_sub_cancel' hk, Nat.mul_one]
  rw [hm]
  apply Nat.eq_of_testBit_eq
  intro i
  rw [Nat.testBit_and, Nat.mul_comm (x / 2 ^ k), Nat.testBit_mul_pow_two, Nat.testBit_mul_pow_two,
    Nat.testBit_two_pow_sub_one, ← Nat.shiftRight_eq_div_pow, Nat.testBit_shiftRight]
  by_cases hik : k ≤ i
  · simp only [ge_iff_le, hik, decide_True, Bool.true_and]
    rw [Nat.add_sub_cancel' hik]
    by_cases hi : i < 32
    · have : i - k < 32 - k := by omega
      simp [this]
    · have : ¬ (i - k < 32 - k) := by omega
      simp only [this, decide_False, Bool.and_false]
      have : x < 2 ^ i := lt_of_lt_of_le hx (Nat.pow_le_pow_right (by norm_num) (by omega))
      rw [Nat.testBit_lt_two_pow this]
  · simp [hik]

theorem wf_page_pos (env : Env) (hwf : env.wf) : 0 < env.flash_page_size := by
  have := hwf.2.1
  unfold HEADER_SIZE at this
  omega

theorem wf_page_ok (env : Env) (hwf : env.wf) : env.page_ok := by
  refine ⟨hwf.1, ?_⟩
  have := hwf.2.2.2
  omega

theorem page_ok_pos (env : Env) (hpg : env.page_ok) : 0 < env.flash_page_size := by
  obtain ⟨⟨k, hk⟩, _⟩ := hpg
  rw [hk]
  exact Nat.pos_pow_of_pos k (by norm_num)

/-- The page offset the erase is given is the start of the page that holds x. -/
theorem page_off_eq (env : Env) (hpg : env.page_ok) (x : Nat) (hx : x < U32) :
    x &&& (U32 - env.flash_page_size) = x / env.flash_page_size * env.flash_page_size := by
  obtain ⟨⟨k, hk⟩, h4⟩ := hpg
  rw [hk] at h4 ⊢
  have hk32 : k ≤ 32 := by
    by_contra hc
    have : 2 ^ 33 ≤ 2 ^ k := Nat.pow_le_pow_right (by norm_num) (by omega)
    unfold U32 at h4
    omega
  have := land_page_mask x k hk32 (by unfold U32 at hx; omega)
  simpa [U32] using this

theorem page_start_le (P x : Nat) : x / P * P ≤ x := Nat.div_mul_le_self x P

theorem page_end_gt (P x : Nat) (hP : 0 < P) : x < x / P * P + P := by
  have h1 := Nat.div_add_mod x P
  have h2 := Nat.mod_lt x hP
  rw [Nat.mul_comm] at h1
  omega

theorem page_next (P w n : Nat) (hP : 0 < P) (hn : n < P) (h : w / P ≠ (w + n) / P) :
    (w + n) / P = w / P + 1 := by
  have h1 : w / P ≤ (w + n) / P := Nat.div_le_div_right (by omega)
  have h2 : (w + n) / P < w / P + 2 := by
    rw [Nat.div_lt_iff_lt_mul hP]
    have := page_end_gt P w hP
    rw [Nat.add_mul]
    omega
  omega

theorem page_next_start_gt (P w n : Nat) (hP : 0 < P) (h : w / P ≠ (w + n) / P) :
    w < (w + n) / P * P := by
  have h1 : w / P ≤ (w + n) / P := Nat.div_le_div_right (by omega)
  have h2 : w / P + 1 ≤ (w + n) / P := by omega
  have h3 : (w / P + 1) * P ≤ (w + n) / P * P := Nat.mul_le_mul_right P h2
  have h4 := page_end_gt P w hP
  rw [Nat.add_mul] at h3
  omega

/-! ## An accepted chunk -/

/-- The result of an accepted chunk whose end does not wrap around: flash, write_offset and
trace. -/
theorem chunk_accept_fields (env : Env) (hpg : env.page_ok) (s : State) (data : List Nat)
    (hw : s.write_offset ≠ 0)
    (hok : (devsmgr_deploy_write env s (some data)).1 = 0)
    (hnw : s.write_offset + data.length < U32) :
    (devsmgr_deploy_write env s (some data)).2.write_offset = s.write_offset + data.length ∧
    (devsmgr_deploy_write env s (some data)).2.flash =
      program_bytes
        (if s.write_offset / env.flash_page_size
            ≠ (s.write_offset + data.length) / env.flash_page_size then
          erase_page env.flash_page_size s.flash
            ((s.write_offset + data.length) / env.flash_page_size * env.flash_page_size)
        else s.flash) s.write_offset data ∧
    (devsmgr_deploy_write env s (some data)).2.flash_ops =
      s.flash_ops ++
        (if s.write_offset / env.flash_page_size
            ≠ (s.write_offset + data.length) / env.flash_page_size then
          [FlashOp.erase
            ((s.write_offset + data.length) / env.flash_page_size * env.flash_page_size)]
        else []) ++
        [FlashOp.program s.write_offset data
          (range_erased
            (if s.write_offset / env.flash_page_size
                ≠ (s.write_offset + data.length) / env.flash_page_size then
              erase_page env.flash_page_size s.flash
                ((s.write_offset + data.length) / env.flash_page_size * env.flash_page_size)
            else s.flash) s.write_offset data.length)] := by
  have hacc : ¬ (data.length &&& (DEVSMGR_ALIGN - 1) ≠ 0
      ∨ (s.write_offset + data.length) % U32 > ((program_header s).size + HEADER_SIZE) % U32
      ∨ data.length ≥ env.flash_page_size) := by
    intro hc
    rw [deploy_write_chunk_reject env s data hw hc] at hok
    simp at hok
  rw [deploy_write_chunk_accept env s data hw hacc]
  rw [Nat.mod_eq_of_lt hnw, page_off_eq env hpg _ hnw]
  split_ifs
  · refine ⟨rfl, rfl, ?_⟩
    simp [flash_program, flash_erase]
  · refine ⟨rfl, rfl, ?_⟩
    simp [flash_program]

theorem chunk_accept_cond (env : Env) (s : State) (data : List Nat)
    (hw : s.write_offset ≠ 0)
    (hok : (devsmgr_deploy_write env s (some data)).1 = 0) :
    data.length % 32 = 0 ∧ (s.write_offset + data.length) % U32 ≤ endp s
      ∧ data.length < env.flash_page_size := by
  by_contra hc
  have : data.length &&& (DEVSMGR_ALIGN - 1) ≠ 0
      ∨ (s.write_offset + data.length) % U32 > ((program_header s).size + HEADER_SIZE) % U32
      ∨ data.length ≥ env.flash_page_size := by
    rw [land_align]
    unfold endp at hc
    simp only [program_header]
    omega
  rw [deploy_write_chunk_reject env s data hw this] at hok
  simp at hok

/-- An accepted chunk changes no flash byte below write_offset. -/
theorem chunk_accept_below (env : Env) (hpg : env.page_ok) (s : State) (data : List Nat)
    (hw : s.write_offset ≠ 0)
    (hok : (devsmgr_deploy_write env s (some data)).1 = 0)
    (hnw : s.write_offset + data.length < U32) (a : Nat) (ha : a < s.write_offset) :
    (devsmgr_deploy_write env s (some data)).2.flash a = s.flash a := by
  rw [(chunk_accept_fields env hpg s data hw hok hnw).2.1]
  rw [program_bytes_out _ _ _ _ (Or.inl ha)]
  split_ifs with hc
  · apply erase_page_out
    left
    have := page_next_start_gt env.flash_page_size s.write_offset data.length
      (page_ok_pos env hpg) hc
    omega
  · rfl

/-! ## The session invariant -/

theorem endp_congr (s t : State) (h : ∀ a, a < 16 → s.flash a = t.flash a) :
    endp s = endp t := by
  unfold endp
  rw [rd32_congr s.flash t.flash 4 (fun a _ h2 => h a (by omega))]

theorem session_inv_congr (env : Env) (s t : State)
    (hf : ∀ a, a < 16 → t.flash a = s.flash a) (hw : t.write_offset = s.write_offset)
    (h : session_inv env s) : session_inv env t := by
  unfold session_inv at *
  rw [hw, endp_congr t s hf, devs_header_congr t s hf]
  exact h

theorem session_inv_same_store (env : Env) (s t : State) (hst : same_store s t)
    (h : session_inv env s) : session_inv env t :=
  session_inv_congr env s t (fun a _ => by rw [hst.1]) hst.2.1 h

theorem wf_accept_bound (env : Env) (hwf : env.wf) (s : State) (sz : Nat)
    (hok : (devsmgr_deploy_start env s sz).1 = 0) :
    sz + 128 < env.max_program_size ∧ sz % 32 = 0 := by
  have h := (deploy_start_ok_iff env s sz).1 hok
  rw [land_align] at h
  obtain ⟨_, _, h3, h4⟩ := hwf
  have hm : (U32 + env.max_program_size - HEADER_SIZE) % U32 = env.max_program_size - 128 := by
    unfold U32 HEADER_SIZE at *
    omega
  rw [hm] at h
  unfold HEADER_SIZE at h3
  omega

theorem session_inv_deploy_start (env : Env) (hwf : env.wf) (s : State) (sz : Nat)
    (h : session_inv env s) : session_inv env (devsmgr_deploy_start env s sz).2 := by
  have hP : 128 ≤ env.flash_page_size := hwf.2.1
  have hM : 128 ≤ env.max_program_size := hwf.2.2.1
  rcases deploy_start_result env s sz with hok | hrej
  · have hb := wf_accept_bound env hwf s sz hok
    have hnone := deploy_start_header_none env s sz (by omega) hok
    by_cases hz : sz = 0
    · subst hz
      rcases h with h0 | ⟨h1, h2, h3, _, _⟩
      · left
        rw [deploy_start_accept_state env s 0 ((deploy_start_ok_iff env s 0).1 hok), if_pos rfl]
        exact h0
      · right
        have hwo : (devsmgr_deploy_start env s 0).2.write_offset = s.write_offset := by
          rw [deploy_start_accept_state env s 0 ((deploy_start_ok_iff env s 0).1 hok),
            if_pos rfl]
          rfl
        have hend : endp (devsmgr_deploy_start env s 0).2 = 127 := by
          unfold endp
          rw [deploy_start_flash_zero env s hok, rd32_erased]
          · rfl
          · intro a h1 h2
            exact erase_page_in _ _ _ _ (by omega) (by omega)
        rw [hwo, hend]
        refine ⟨h1, h2, h3, by omega, ?_⟩
        intro hne
        exact absurd hnone hne
    · right
      have hpos : 0 < sz := by omega
      obtain ⟨_, h4, _⟩ := deploy_start_words env s sz (by omega) hok hpos
      have hwo := deploy_start_write_offset_nonzero env s sz hok hz
      have hend : endp (devsmgr_deploy_start env s sz).2 = sz + 128 := by
        unfold endp
        rw [h4]
        unfold HEADER_SIZE
        apply Nat.mod_eq_of_lt
        have := hwf.2.2.2
        omega
      rw [hwo, hend]
      refine ⟨le_refl _, by omega, by decide, by omega, ?_⟩
      intro hne
      exact absurd hnone hne
  · rw [deploy_start_reject_state env s sz (by rw [hrej]; decide)]
    exact h

theorem finalize_bytes_length (h : Nat) : (finalize_bytes h).length = 120 := by
  simp [finalize_bytes, le32]

theorem finalize_accept_flash (env : Env) (s : State) (hw : s.write_offset ≠ 0)
    (h : s.write_offset = endp s) :
    (devsmgr_deploy_write env s none).2.flash =
      program_bytes s.flash 8 (finalize_bytes (jd_hash_fnv1a (image s 0 (rd32 s.flash 4)))) ∧
    (devsmgr_deploy_write env s none).2.write_offset = s.write_offset := by
  rw [deploy_write_finalize_accept env s hw h]
  exact ⟨rfl, rfl⟩

theorem session_inv_deploy_write (env : Env) (hwf : env.wf) (s : State)
    (buf : Option (List Nat)) (h : session_inv env s) :
    session_inv env (devsmgr_deploy_write env s buf).2 := by
  by_cases hw : s.write_offset = 0
  · rw [deploy_write_idle env s buf hw]
    exact h
  · rcases h with h0 | ⟨h1, h2, h3, h4, h5⟩
    · exact absurd h0 hw
    · cases buf with
      | none =>
        by_cases he : s.write_offset = endp s
        · obtain ⟨hf, hwo⟩ := finalize_accept_flash env s hw he
          right
          have hend : endp (devsmgr_deploy_write env s none).2 = endp s := by
            unfold endp
            rw [hf]
            rw [rd32_congr _ s.flash 4 (fun a _ _ => program_bytes_out _ _ _ _ (by omega))]
          rw [hwo, hend]
          exact ⟨h1, h2, h3, h4, fun _ => he⟩
        · rw [deploy_write_finalize_reject env s hw he]
          right
          exact ⟨h1, h2, h3, h4, h5⟩
      | some data =>
        rcases deploy_write_result env s (some data) with hok | hrej
        · have hc := chunk_accept_cond env s data hw hok
          have hnw : s.write_offset + data.length < U32 := by
            have := hwf.2.2.2
            omega
          have hfl := chunk_accept_fields env (wf_page_ok env hwf) s data hw hok hnw
          have hlow : ∀ a, a < 16 →
              (devsmgr_deploy_write env s (some data)).2.flash a = s.flash a := by
            intro a ha
            apply chunk_accept_below env (wf_page_ok env hwf) s data hw hok hnw
            unfold HEADER_SIZE at h1
            omega
          rw [Nat.mod_eq_of_lt hnw] at hc
          right
          rw [hfl.1, endp_congr _ s hlow, devs_header_congr _ s hlow]
          refine ⟨by omega, by omega, by omega, h4, ?_⟩
          intro hne
          have := h5 hne
          omega
        · left
          have hr : data.length &&& (DEVSMGR_ALIGN - 1) ≠ 0
              ∨ (s.write_offset + data.length) % U32
                  > ((program_header s).size + HEADER_SIZE) % U32
              ∨ data.length ≥ env.flash_page_size := by
            by_contra hc
            rw [deploy_write_chunk_accept env s data hw hc] at hrej
            simp at hrej
          rw [deploy_write_chunk_reject env s data hw hr]

theorem session_inv_deploy_loop (env : Env) (hwf : env.wf) (img : List Nat) :
    ∀ (fuel : Nat) (s : State) (soff : Nat) (r : Int × State), session_inv env s →
      deploy_loop env fuel s img soff = some r → session_inv env r.2 := by
  intro fuel
  induction fuel with
  | zero =>
    intro s soff r h hr
    unfold deploy_loop at hr
    split_ifs at hr
    cases hr
    exact h
  | succ n ih =>
    intro s soff r h hr
    unfold deploy_loop at hr
    simp only [] at hr
    split_ifs at hr with h1 h2
    · cases hr
      exact session_inv_deploy_write env hwf s _ h
    · exact ih _ _ r (session_inv_deploy_write env hwf s _ h) hr
    · cases hr
      exact h

theorem session_inv_deploy_finish (env : Env) (hwf : env.wf) (s : State)
    (h : session_inv env s) : session_inv env (deploy_finish env s).2 := by
  have h3 := session_inv_deploy_write env hwf s none h
  unfold deploy_finish
  simp only []
  split_ifs
  · exact h3
  · split <;> exact h3

theorem session_inv_deploy (env : Env) (hwf : env.wf) (s : State) (img : List Nat)
    (r : Int × State) (h : session_inv env s) (hr : devsmgr_deploy env s img = some r) :
    session_inv env r.2 := by
  have h1 := session_inv_deploy_start env hwf s img.length h
  unfold devsmgr_deploy at hr
  generalize devsmgr_deploy_start env s img.length = ds at hr h1
  obtain ⟨c0, s0⟩ := ds
  simp only [] at hr
  split_ifs at hr with c1 c2
  · rw [← Option.some.inj hr]
    exact h1
  · rw [← Option.some.inj hr]
    exact h1
  · split at hr
    · exact absurd hr (by simp)
    · rename_i c s1 hl
      have h2 := session_inv_deploy_loop env hwf img _ _ _ _ h1 hl
      split_ifs at hr with c3
      · rw [← Option.some.inj hr]
        exact h2
      · rw [← Option.some.inj hr]
        exact session_inv_deploy_finish env hwf s1 h2

theorem step_tick (env : Env) (s : State) (t : Nat) :
    step env s (Op.tick t) = { s with now := t % U32 } := by
  simp only [step]

theorem step_process (env : Env) (s : State) (r : Int) (code pc : Nat) :
    step env s (Op.process r code pc) = devsmgr_process env s r code pc := by
  simp only [step]

theorem step_restart (env : Env) (s : State) : step env s Op.restart = devsmgr_restart s := by
  simp only [step]

theorem step_deploy_start (env : Env) (s : State) (sz : Nat) :
    step env s (Op.deploy_start sz) = (devsmgr_deploy_start env s sz).2 := by
  simp only [step]

theorem step_deploy_write (env : Env) (s : State) (buf : Option (List Nat)) :
    step env s (Op.deploy_write buf) = (devsmgr_deploy_write env s buf).2 := by
  simp only [step]

theorem step_deploy (env : Env) (s : State) (img : List Nat) :
    step env s (Op.deploy img) = deploy_state env s img := by
  simp only [step]

theorem step_packet (env : Env) (s : State) (cmd : Cmd) :
    step env s (Op.packet cmd) = (devsmgr_handle_packet env s cmd).1 := by
  simp only [step]

theorem handle_packet_deploy (env : Env) (s : State) (sz port : Nat) :
    devsmgr_handle_packet env s (Cmd.deploy_bytecode sz port) = deploy_bytecode env s sz port := by
  simp only [devsmgr_handle_packet]

theorem deploy_bytecode_state (env : Env) (s : State) (sz port : Nat) :
    (deploy_bytecode env s sz port).1 = (devsmgr_deploy_start env s sz).2 := by
  unfold deploy_bytecode
  generalize devsmgr_deploy_start env s sz = ds
  simp only []
  split_ifs <;> rfl

theorem session_inv_step (env : Env) (hwf : env.wf) (s : State) (op : Op)
    (h : session_inv env s) : session_inv env (step env s op) := by
  cases op with
  | tick t =>
    rw [step_tick]
    exact session_inv_same_store env s _ ⟨rfl, rfl, rfl⟩ h
  | process r code pc =>
    rw [step_process]
    exact session_inv_same_store env s _ (process_store env s r code pc) h
  | restart =>
    rw [step_restart]
    exact session_inv_same_store env s _ (restart_store s) h
  | deploy_start sz =>
    rw [step_deploy_start]
    exact session_inv_deploy_start env hwf s sz h
  | deploy_write buf =>
    rw [step_deploy_write]
    exact session_inv_deploy_write env hwf s buf h
  | deploy img =>
    rw [step_deploy]
    unfold deploy_state
    cases hd : devsmgr_deploy env s img with
    | none => exact h
    | some r => exact session_inv_deploy env hwf s img r h hd
  | packet cmd =>
    rw [step_packet]
    by_cases hc : ∀ sz port, cmd = Cmd.deploy_bytecode sz port →
        (devsmgr_deploy_start env s sz).1 ≠ 0
    · exact session_inv_same_store env s _ (packet_store env s cmd hc) h
    · push_neg at hc
      obtain ⟨sz, port, rfl, hok⟩ := hc
      rw [handle_packet_deploy, deploy_bytecode_state]
      exact session_inv_deploy_start env hwf s sz h

theorem run_nil (env : Env) (s : State) : run env s [] = s := by
  simp only [run, List.foldl_nil]

theorem run_cons (env : Env) (s : State) (op : Op) (ops : List Op) :
    run env s (op :: ops) = run env (step env s op) ops := by
  simp only [run, List.foldl_cons]

theorem session_inv_run (env : Env) (hwf : env.wf) (ops : List Op) :
    ∀ s, session_inv env s → session_inv env (run env s ops) := by
  induction ops with
  | nil =>
    intro s h
    rw [run_nil]
    exact h
  | cons op ops ih =>
    intro s h
    rw [run_cons]
    exact ih _ (session_inv_step env hwf s op h)

/-- Every reachable state satisfies the session invariant. -/
theorem reachable_session_inv (env : Env) (hwf : env.wf) (s : State) (h : Reachable env s) :
    session_inv env s := by
  obtain ⟨flash, now, ops, rfl⟩ := h
  exact session_inv_run env hwf ops _ (Or.inl rfl)

/-! ## Finalize before all bytes arrived -/

theorem demo_env_wf : demo_env.wf :=
  ⟨⟨10, by decide⟩, by decide, by decide, by decide⟩

theorem deploy_start_zero_write_offset (env : Env) (s : State)
    (hok : (devsmgr_deploy_start env s 0).1 = 0) :
    (devsmgr_deploy_start env s 0).2.write_offset = s.write_offset := by
  rw [deploy_start_accept_state env s 0 ((deploy_start_ok_iff env s 0).1 hok), if_pos rfl]
  rfl

/-- A deploy_start that does not open a session (rejected, or of size 0) keeps
write_offset. -/
theorem deploy_start_keeps_write_offset (env : Env) (s : State) (sz : Nat)
    (h : ¬ (sz ≠ 0 ∧ (devsmgr_deploy_start env s sz).1 = 0)) :
    (devsmgr_deploy_start env s sz).2.write_offset = s.write_offset := by
  rcases deploy_start_result env s sz with hok | hrej
  · have hz : sz = 0 := by
      by_contra hc
      exact h ⟨hc, hok⟩
    subst hz
    exact deploy_start_zero_write_offset env s hok
  · rw [deploy_start_reject_state env s sz (by rw [hrej]; decide)]

theorem deploy_keeps_write_offset (env : Env) (s : State) (img : List Nat)
    (h : ¬ (img.length ≠ 0 ∧ (devsmgr_deploy_start env s img.length).1 = 0)) :
    (deploy_state env s img).write_offset = s.write_offset := by
  have h1 := deploy_start_keeps_write_offset env s img.length h
  unfold deploy_state devsmgr_deploy
  generalize devsmgr_deploy_start env s img.length = ds at h h1 ⊢
  obtain ⟨c0, s0⟩ := ds
  simp only [] at h h1 ⊢
  by_cases c1 : c0 ≠ 0
  · rw [if_pos c1]
    exact h1
  · rw [if_neg c1]
    by_cases c2 : img.length = 0
    · rw [if_pos c2]
      exact h1
    · exact absurd ⟨c2, not_not.1 c1⟩ h

theorem step_keeps_idle (env : Env) (s : State) (op : Op) (hw : s.write_offset = 0)
    (h : opens_session env s op = false) : (step env s op).write_offset = 0 := by
  cases op with
  | tick t => rw [step_tick]; exact hw
  | process r code pc => rw [step_process, (process_store env s r code pc).2.1]; exact hw
  | restart => rw [step_restart]; exact hw
  | deploy_start sz =>
    rw [step_deploy_start, deploy_start_keeps_write_offset env s sz (by simpa [opens_session] using h)]
    exact hw
  | deploy_write buf => rw [step_deploy_write, deploy_write_idle env s buf hw]; exact hw
  | deploy img =>
    rw [step_deploy, deploy_keeps_write_offset env s img (by simpa [opens_session] using h)]
    exact hw
  | packet cmd =>
    rw [step_packet]
    by_cases hc : ∀ sz port, cmd = Cmd.deploy_bytecode sz port →
        (devsmgr_deploy_start env s sz).1 ≠ 0
    · rw [(packet_store env s cmd hc).2.1]
      exact hw
    · push_neg at hc
      obtain ⟨sz, port, rfl, hok⟩ := hc
      rw [handle_packet_deploy, deploy_bytecode_state,
        deploy_start_keeps_write_offset env s sz (by simpa [opens_session] using h)]
      exact hw

theorem run_keeps_idle (env : Env) (ops : List Op) :
    ∀ s, s.write_offset = 0 → no_session_opened env s ops → (run env s ops).write_offset = 0 := by
  induction ops with
  | nil =>
    intro s hw _
    rw [run_nil]
    exact hw
  | cons op ops ih =>
    intro s hw h
    rw [run_cons]
    exact ih _ (step_keeps_idle env s op hw h.1) h.2

/-- C9: after any rejected chunk in devsmgr_deploy_write, write_offset is 0 and the flash is
unchanged by that call (no flash call was made); from then on, after any sequence of calls in
which no devsmgr_deploy_start with a nonzero size succeeds, every devsmgr_deploy_write, chunk
or finalize and whatever its arguments, returns -1 and changes nothing. -/
theorem rejected_chunk_aborts_session (env : Env) (s : State) (data : List Nat)
    (hrej : (devsmgr_deploy_write env s (some data)).1 ≠ 0) :
    (devsmgr_deploy_write env s (some data)).2.write_offset = 0 ∧
    (devsmgr_deploy_write env s (some data)).2.flash = s.flash ∧
    (devsmgr_deploy_write env s (some data)).2.flash_ops = s.flash_ops ∧
    ∀ ops, no_session_opened env (devsmgr_deploy_write env s (some data)).2 ops →
      (run env (devsmgr_deploy_write env s (some data)).2 ops).write_offset = 0 ∧
      ∀ buf,
        devsmgr_deploy_write env (run env (devsmgr_deploy_write env s (some data)).2 ops) buf
          = (-1, run env (devsmgr_deploy_write env s (some data)).2 ops) := by
  have h0 : (devsmgr_deploy_write env s (some data)).2.write_offset = 0 ∧
      (devsmgr_deploy_write env s (some data)).2.flash = s.flash ∧
      (devsmgr_deploy_write env s (some data)).2.flash_ops = s.flash_ops := by
    by_cases hw : s.write_offset = 0
    · rw [deploy_write_idle env s _ hw]
      exact ⟨hw, rfl, rfl⟩
    · have hr : data.length &&& (DEVSMGR_ALIGN - 1) ≠ 0
          ∨ (s.write_offset + data.length) % U32
              > ((program_header s).size + HEADER_SIZE) % U32
          ∨ data.length ≥ env.flash_page_size := by
        by_contra hc
        rw [deploy_write_chunk_accept env s data hw hc] at hrej
        simp at hrej
      rw [deploy_write_chunk_reject env s data hw hr]
      exact ⟨rfl, rfl, rfl⟩
  refine ⟨h0.1, h0.2.1, h0.2.2, ?_⟩
  intro ops hops
  have hz := run_keeps_idle env ops _ h0.1 hops
  exact ⟨hz, fun buf => deploy_write_idle env _ buf hz⟩

set_option maxRecDepth 100000 in
/-- An instance of C9: in the session for 2048 bytes a 40-byte chunk is rejected; after a
poll, a deploy_start(0), a start request and another chunk, a well-formed chunk and a finalize
are both refused. -/
theorem rejected_chunk_aborts_session_witness :
    (devsmgr_deploy_write demo_env session2048 (some odd_chunk)).1 ≠ 0 ∧
    (devsmgr_deploy_write demo_env
      (run demo_env (devsmgr_deploy_write demo_env session2048 (some odd_chunk)).2
        calls_after_reject) (some pattern64)).1 = -1 ∧
    (devsmgr_deploy_write demo_env
      (run demo_env (devsmgr_deploy_write demo_env session2048 (some odd_chunk)).2
        calls_after_reject) none).1 = -1 :=
  have h := (rejected_chunk_aborts_session demo_env session2048 odd_chunk (by decide)).2.2.2
    calls_after_reject ⟨by decide, by decide, by decide, by decide, trivial⟩
  ⟨by decide, congrArg Prod.fst (h.2 (some pattern64)), congrArg Prod.fst (h.2 none)⟩

/-! ## No partial commit is visible -/

/-- A chunk call changes no flash byte of the header. -/
theorem chunk_header_flash (env : Env) (hwf : env.wf) (s : State) (data : List Nat)
    (h : session_inv env s) (a : Nat) (ha : a < 128) :
    (devsmgr_deploy_write env s (some data)).2.flash a = s.flash a := by
  by_cases hw : s.write_offset = 0
  · rw [deploy_write_idle env s _ hw]
  · rcases h with h0 | ⟨h1, h2, _, _, _⟩
    · exact absurd h0 hw
    · rcases deploy_write_result env s (some data) with hok | hrej
      · have hc := chunk_accept_cond env s data hw hok
        have hnw : s.write_offset + data.length < U32 := by
          have := hwf.2.2.2
          omega
        apply chunk_accept_below env (wf_page_ok env hwf) s data hw hok hnw
        unfold HEADER_SIZE at h1
        omega
      · have hr : data.length &&& (DEVSMGR_ALIGN - 1) ≠ 0
            ∨ (s.write_offset + data.length) % U32
                > ((program_header s).size + HEADER_SIZE) % U32
            ∨ data.length ≥ env.flash_page_size := by
          by_contra hc
          rw [deploy_write_chunk_accept env s data hw hc] at hrej
          simp at hrej
        rw [deploy_write_chunk_reject env s data hw hr]

/-- No devsmgr_deploy_write call changes the first eight header bytes (magic0 and size). -/
theorem deploy_write_magic0_size (env : Env) (hwf : env.wf) (s : State)
    (buf : Option (List Nat)) (h : session_inv env s) (a : Nat) (ha : a < 8) :
    (devsmgr_deploy_write env s buf).2.flash a = s.flash a := by
  cases buf with
  | some data => exact chunk_header_flash env hwf s data h a (by omega)
  | none =>
    by_cases hw : s.write_offset = 0
    · rw [deploy_write_idle env s _ hw]
    · by_cases he : s.write_offset = endp s
      · rw [(finalize_accept_flash env s hw he).1]
        exact program_bytes_out _ _ _ _ (by omega)
      · rw [deploy_write_finalize_reject env s hw he]

theorem write_run_nil (env : Env) (s : State) : write_run env s [] = s := by
  simp only [write_run, List.foldl_nil]

theorem write_run_cons (env : Env) (s : State) (b : Option (List Nat))
    (bs : List (Option (List Nat))) :
    write_run env s (b :: bs) = write_run env (devsmgr_deploy_write env s b).2 bs := by
  simp only [write_run, List.foldl_cons]

theorem write_run_snoc (env : Env) (s : State) (bs : List (Option (List Nat)))
    (b : Option (List Nat)) :
    write_run env s (bs ++ [b]) = (devsmgr_deploy_write env (write_run env s bs) b).2 := by
  simp only [write_run, List.foldl_append, List.foldl_cons, List.foldl_nil]

/-- Along any sequence of devsmgr_deploy_write calls the session invariant holds and the size
field keeps its value. -/
theorem write_run_inv (env : Env) (hwf : env.wf) (bufs : List (Option (List Nat))) :
    ∀ s, session_inv env s →
      session_inv env (write_run env s bufs) ∧
      rd32 (write_run env s bufs).flash 4 = rd32 s.flash 4 ∧
      rd32 (write_run env s bufs).flash 0 = rd32 s.flash 0 := by
  induction bufs with
  | nil =>
    intro s h
    rw [write_run_nil]
    exact ⟨h, rfl, rfl⟩
  | cons b bs ih =>
    intro s h
    rw [write_run_cons]
    have h1 := session_inv_deploy_write env hwf s b h
    obtain ⟨i1, i2, i3⟩ := ih _ h1
    refine ⟨i1, ?_, ?_⟩
    · rw [i2]
      exact rd32_congr _ _ 4 (fun a _ h2 => deploy_write_magic0_size env hwf s b h a (by omega))
    · rw [i3]
      exact rd32_congr _ _ 0 (fun a _ h2 => deploy_write_magic0_size env hwf s b h a (by omega))

/-- The session invariant right after an accepted deploy_start of a nonzero size, from any
state. -/
theorem session_inv_after_start (env : Env) (hwf : env.wf) (s : State) (sz : Nat)
    (hok : (devsmgr_deploy_start env s sz).1 = 0) (hz : 0 < sz) :
    session_inv env (devsmgr_deploy_start env s sz).2 := by
  have hP : 128 ≤ env.flash_page_size := hwf.2.1
  have hb := wf_accept_bound env hwf s sz hok
  have hnone := deploy_start_header_none env s sz (by omega) hok
  right
  obtain ⟨_, h4, _⟩ := deploy_start_words env s sz (by omega) hok hz
  have hwo := deploy_start_write_offset_nonzero env s sz hok (by omega)
  have hend : endp (devsmgr_deploy_start env s sz).2 = sz + 128 := by
    unfold endp
    rw [h4]
    unfold HEADER_SIZE
    apply Nat.mod_eq_of_lt
    have := hwf.2.2.2
    omega
  rw [hwo, hend]
  refine ⟨le_refl _, by omega, by decide, by omega, ?_⟩
  intro hne
  exact absurd hnone hne

/-- C4: after a successful deploy_start(S) with S > 0, from any state: (1) after any sequence
of devsmgr_deploy_write calls, chunks accepted or rejected and finalize calls, in which every
finalize call failed, devs_header is none; (2) in any such sequence, with or without
successful finalize calls, a call after which devs_header is no longer none is a finalize
(NULL buffer) made when write_offset = 128 + S. -/
theorem no_partial_commit_visible (env : Env) (hwf : env.wf) (s : State) (S : Nat)
    (hS : 0 < S) (hok : (devsmgr_deploy_start env s S).1 = 0) :
    (∀ bufs : List (Option (List Nat)),
      (∀ pre post, bufs = pre ++ none :: post →
        (devsmgr_deploy_write env
          (write_run env (devsmgr_deploy_start env s S).2 pre) none).1 ≠ 0) →
      devs_header (write_run env (devsmgr_deploy_start env s S).2 bufs) = none) ∧
    (∀ (bufs : List (Option (List Nat))) (b : Option (List Nat)),
      devs_header (write_run env (devsmgr_deploy_start env s S).2 bufs) = none →
      devs_header (devsmgr_deploy_write env
        (write_run env (devsmgr_deploy_start env s S).2 bufs) b).2 ≠ none →
      b = none ∧
        (write_run env (devsmgr_deploy_start env s S).2 bufs).write_offset = 128 + S) := by
  have hP : 128 ≤ env.flash_page_size := hwf.2.1
  have hinv0 := session_inv_after_start env hwf s S hok hS
  have hnone0 := deploy_start_header_none env s S (by omega) hok
  have hsz0 := (deploy_start_words env s S (by omega) hok hS).2.1
  have hb := wf_accept_bound env hwf s S hok
  have hmax := hwf.2.2.2
  -- one call, from a state of the session whose header is absent
  have key : ∀ (t : State) (b : Option (List Nat)), session_inv env t → rd32 t.flash 4 = S →
      devs_header t = none → devs_header (devsmgr_deploy_write env t b).2 ≠ none →
      b = none ∧ t.write_offset = 128 + S ∧ (devsmgr_deploy_write env t b).1 = 0 := by
    intro t b hinv hsz hnone hsome
    cases b with
    | some data =>
      exfalso
      apply hsome
      rw [devs_header_congr _ t (fun a ha => chunk_header_flash env hwf t data hinv a (by omega))]
      exact hnone
    | none =>
      by_cases hw : t.write_offset = 0
      · rw [deploy_write_idle env t _ hw] at hsome
        exact absurd hnone hsome
      · by_cases he : t.write_offset = endp t
        · refine ⟨rfl, ?_, ?_⟩
          · rw [he]
            unfold endp
            rw [hsz]
            unfold HEADER_SIZE U32 at *
            omega
          · rw [deploy_write_finalize_accept env t hw he]
        · rw [deploy_write_finalize_reject env t hw he] at hsome
          exact absurd hnone hsome
  constructor
  · intro bufs
    induction bufs using List.reverseRecOn with
    | nil =>
      intro _
      rw [write_run_nil]
      exact hnone0
    | append_singleton l b ih =>
      intro hfail
      have hl : devs_header (write_run env (devsmgr_deploy_start env s S).2 l) = none := by
        apply ih
        intro pre post hpp
        exact hfail pre (post ++ [b]) (by rw [hpp]; simp)
      obtain ⟨i1, i2, _⟩ := write_run_inv env hwf l _ hinv0
      rw [hsz0] at i2
      rw [write_run_snoc]
      by_contra hsome
      obtain ⟨hb1, _, hb3⟩ := key _ b i1 i2 hl hsome
      subst hb1
      exact hfail l [] rfl hb3
  · intro bufs b hnone hsome
    obtain ⟨i1, i2, _⟩ := write_run_inv env hwf bufs _ hinv0
    rw [hsz0] at i2
    obtain ⟨hb1, hb2, _⟩ := key _ b i1 i2 hnone hsome
    exact ⟨hb1, hb2⟩

set_option maxRecDepth 100000 in
/-- An instance of C4: over a stored program, deploy_start(256), one 64-byte chunk and a
finalize that fails for missing bytes leave devs_header none. -/
theorem no_partial_commit_visible_witness :
    (0 < 256 ∧ (devsmgr_deploy_start demo_env stored_state 256).1 = 0) ∧
    (devsmgr_deploy_write demo_env
      (write_run demo_env (devsmgr_deploy_start demo_env stored_state 256).2
        [some pattern64]) none).1 ≠ 0 ∧
    devs_header (write_run demo_env (devsmgr_deploy_start demo_env stored_state 256).2
      [some pattern64, none]) = none :=
  have hfail : (devsmgr_deploy_write demo_env
      (write_run demo_env (devsmgr_deploy_start demo_env stored_state 256).2
        [some pattern64]) none).1 ≠ 0 := by decide
  ⟨⟨by decide, by decide⟩, hfail,
    (no_partial_commit_visible demo_env demo_env_wf stored_state 256 (by decide) (by decide)).1
      [some pattern64, none] (by
        intro pre post h
        rcases pre with _ | ⟨x, _ | ⟨y, rest⟩⟩
        · simp at h
        · simp at h
          rw [← h.1]
          exact hfail
        · simp at h)⟩

/-! ## A deploy session that writes the whole image -/

theorem range_erased_true (f : Nat → Nat) (off len : Nat)
    (h : ∀ a, off ≤ a → a < off + len → f a = 255) : range_erased f off len = true := by
  unfold range_erased
  rw [List.all_eq_true]
  intro i hi
  rw [List.mem_range] at hi
  rw [h (off + i) (by omega) (by omega)]
  rfl

theorem times_programmed_append (T U : List FlashOp) (a : Nat) :
    times_programmed (T ++ U) a = times_programmed T a + times_programmed U a := by
  simp [times_programmed, List.filter_append]

theorem times_programmed_erase (off a : Nat) :
    times_programmed [FlashOp.erase off] a = 0 := by
  simp [times_programmed, FlashOp.covers]

theorem times_programmed_sync (a : Nat) : times_programmed [FlashOp.sync] a = 0 := by
  simp [times_programmed, FlashOp.covers]

theorem times_programmed_nil (a : Nat) : times_programmed [] a = 0 := by
  simp [times_programmed]

theorem times_programmed_program (off : Nat) (data : List Nat) (e : Bool) (a : Nat) :
    times_programmed [FlashOp.program off data e] a
      = if off ≤ a ∧ a < off + data.length then 1 else 0 := by
  by_cases h : off ≤ a ∧ a < off + data.length
  · simp [times_programmed, FlashOp.covers, h]
  · simp [times_programmed, FlashOp.covers, h]

theorem getD_take_drop (img : List Nat) (k n j d : Nat) (hj : j < n) (hk : k + n ≤ img.length) :
    ((img.drop k).take n).getD j d = img.getD (k + j) 0 := by
  rw [List.getD_eq_getElem?_getD, List.getD_eq_getElem?_getD, List.getElem?_take_of_lt hj,
    List.getElem?_drop]
  have h1 : k + j < img.length := by omega
  rw [List.getElem?_eq_getElem h1]
  rfl

theorem length_take_drop (img : List Nat) (k n : Nat) (hk : k + n ≤ img.length) :
    ((img.drop k).take n).length = n := by
  rw [List.length_take, List.length_drop]
  omega

theorem is_bytes_getD (img : List Nat) (hb : is_bytes img) (i : Nat) : img.getD i 0 < 256 := by
  rw [List.getD_eq_getElem?_getD]
  by_cases h : i < img.length
  · rw [List.getElem?_eq_getElem h]
    exact hb _ (List.getElem_mem h)
  · rw [List.getElem?_eq_none (by omega)]
    decide

/-- The flash in which an accepted chunk is programmed (after the erase of the next page, if
any) is erased from write_offset to the end of the page that holds the end of the chunk. -/
theorem chunk_target_erased (P w n : Nat) (f : Nat → Nat) (hP : 0 < P) (hn : n < P)
    (hah : erased f w ((w / P + 1) * P)) (a : Nat) (h1 : w ≤ a)
    (h2 : a < ((w + n) / P + 1) * P) :
    (if w / P ≠ (w + n) / P then erase_page P f ((w + n) / P * P) else f) a = 255 := by
  by_cases hc : w / P ≠ (w + n) / P
  · rw [if_pos hc]
    have hnx := page_next P w n hP hn hc
    by_cases ha : a < (w + n) / P * P
    · rw [erase_page_out _ _ _ _ (Or.inl ha)]
      apply hah a h1
      rw [← hnx]
      exact ha
    · apply erase_page_in
      · omega
      · rw [Nat.add_mul] at h2
        omega
  · rw [if_neg hc]
    apply hah a h1
    rw [not_not.1 hc]
    exact h2

theorem sess_chunk (env : Env) (hpg : env.page_ok) (base : List FlashOp) (img : List Nat)
    (hb : is_bytes img) (hlen : img.length + 128 < U32) (k n : Nat) (s : State)
    (hs : sess env base img k s) (hn32 : n % 32 = 0) (hnP : n < env.flash_page_size)
    (hk : k + n ≤ img.length) :
    (devsmgr_deploy_write env s (some ((img.drop k).take n))).1 = 0 ∧
    sess env base img (k + n) (devsmgr_deploy_write env s (some ((img.drop k).take n))).2 := by
  obtain ⟨hwo, hm0, hsz, hhdr, hwr, hah, T, hT, htr⟩ := hs
  obtain ⟨hclean, hcount⟩ := htr
  have hP := page_ok_pos env hpg
  have hdl : ((img.drop k).take n).length = n := length_take_drop img k n hk
  generalize hdata : (img.drop k).take n = data at hdl ⊢
  have hw : s.write_offset ≠ 0 := by omega
  have hacc : ¬ (data.length &&& (DEVSMGR_ALIGN - 1) ≠ 0
      ∨ (s.write_offset + data.length) % U32 > ((program_header s).size + HEADER_SIZE) % U32
      ∨ data.length ≥ env.flash_page_size) := by
    rw [land_align, hdl, hwo]
    simp only [program_header]
    rw [hsz]
    unfold HEADER_SIZE
    rw [Nat.mod_eq_of_lt (show 128 + k + n < U32 by omega), Nat.mod_eq_of_lt hlen]
    omega
  have hok : (devsmgr_deploy_write env s (some data)).1 = 0 := by
    rw [deploy_write_chunk_accept env s data hw hacc]
  have hnw : s.write_offset + data.length < U32 := by omega
  obtain ⟨f1, f2, f3⟩ := chunk_accept_fields env hpg s data hw hok hnw
  have hbelow := chunk_accept_below env hpg s data hw hok hnw
  rw [hdl, hwo] at f1 f2 f3
  rw [hwo] at hbelow
  have hg := chunk_target_erased env.flash_page_size (128 + k) n s.flash hP hnP hah
  have hpe := page_end_gt env.flash_page_size (128 + k + n) hP
  refine ⟨hok, ?_, ?_, ?_, ?_, ?_, ?_, ?_⟩
  · rw [f1]
    omega
  · rw [← hm0]
    exact rd32_congr _ _ 0 (fun a _ h2 => hbelow a (by omega))
  · rw [← hsz]
    exact rd32_congr _ _ 4 (fun a _ h2 => hbelow a (by omega))
  · intro a h1 h2
    rw [hbelow a (by omega)]
    exact hhdr a h1 h2
  · intro i hi
    by_cases hik : i < k
    · rw [hbelow _ (by omega)]
      exact hwr i hik
    · rw [f2]
      have hrange : 128 + k ≤ 128 + i ∧ 128 + i < 128 + k + data.length := by omega
      have hval : data.getD (128 + i - (128 + k)) 255 = img.getD i 0 := by
        rw [← hdata, getD_take_drop img k n _ 255 (by omega) hk]
        congr 1
        omega
      rw [program_bytes_erased _ _ _ _ hrange.1 hrange.2
        (hg _ hrange.1 (by rw [Nat.add_mul]; omega))
        (by rw [hval]; exact is_bytes_getD img hb i), hval]
  · intro a h1 h2
    rw [f2, program_bytes_out _ _ _ _ (Or.inr (by omega))]
    rw [← Nat.add_assoc] at h1 h2
    exact hg a (by omega) h2
  · refine ⟨_, by rw [f3, hT, List.append_assoc, List.append_assoc], ?_, ?_⟩
    · intro op hop
      rw [List.mem_append, List.mem_append] at hop
      rcases hop with h1 | h1 | h1
      · exact hclean op h1
      · split_ifs at h1
        · rw [List.mem_singleton] at h1
          rw [h1]
          rfl
        · simp at h1
      · rw [List.mem_singleton] at h1
        rw [h1]
        show range_erased _ _ _ = true
        apply range_erased_true
        intro a h1 h2
        exact hg a h1 (by rw [Nat.add_mul]; omega)
    · intro a ha
      rw [times_programmed_append, times_programmed_append, hcount a ha,
        times_programmed_program, hdl]
      have hmid : times_programmed
          (if (128 + k) / env.flash_page_size ≠ (128 + k + n) / env.flash_page_size then
            [FlashOp.erase ((128 + k + n) / env.flash_page_size * env.flash_page_size)]
          else []) a = 0 := by
        split_ifs
        · exact times_programmed_erase _ _
        · exact times_programmed_nil _
      rw [hmid]
      split_ifs <;> omega

theorem deploy_start_flash_ops_nonzero (env : Env) (s : State) (sz : Nat)
    (hok : (devsmgr_deploy_start env s sz).1 = 0) (hsz : sz ≠ 0) :
    (devsmgr_deploy_start env s sz).2.flash_ops =
      s.flash_ops ++ [FlashOp.erase 0, FlashOp.program 0 (le32 DEVSMGR_PROG_MAGIC0 ++ le32 sz)
        (range_erased (erase_page env.flash_page_size s.flash 0) 0 8)] := by
  rw [deploy_start_accept_state env s sz ((deploy_start_ok_iff env s sz).1 hok), if_neg hsz]
  simp [send_status, jd_send_event, flash_program, flash_erase, stop_program, le32]

/-- Right after an accepted deploy_start for a nonempty image, on pages larger than the
header, the session is in its initial state. -/
theorem sess_start (env : Env) (hP : 128 < env.flash_page_size) (s : State)
    (img : List Nat) (h0 : 0 < img.length)
    (hok : (devsmgr_deploy_start env s img.length).1 = 0) :
    sess env s.flash_ops img 0 (devsmgr_deploy_start env s img.length).2 := by
  have hz : img.length ≠ 0 := by omega
  have hlt := deploy_start_accept_lt env s img.length hok
  have hf := hdr8_flash env.flash_page_size s.flash img.length (by omega) hlt
  have hfl := deploy_start_flash_nonzero env s img.length hok hz
  refine ⟨deploy_start_write_offset_nonzero env s img.length hok hz, ?_, ?_, ?_, ?_, ?_, ?_⟩
  · rw [hfl]
    exact hf.1
  · rw [hfl]
    exact hf.2.1
  · intro a h1 h2
    rw [hfl, hf.2.2 a h1]
    exact erase_page_in _ _ _ _ (by omega) (by omega)
  · intro i hi
    omega
  · intro a h1 h2
    rw [hfl, hf.2.2 a (by omega)]
    apply erase_page_in _ _ _ _ (by omega)
    have hd : (128 + 0) / env.flash_page_size = 0 := Nat.div_eq_of_lt (by omega)
    rw [hd] at h2
    omega
  · refine ⟨_, deploy_start_flash_ops_nonzero env s img.length hok hz, ?_, ?_⟩
    · intro op hop
      simp only [List.mem_cons, List.mem_singleton, List.not_mem_nil, or_false] at hop
      rcases hop with h1 | h1
      · rw [h1]
        rfl
      · rw [h1]
        show range_erased _ _ _ = true
        apply range_erased_true
        intro a h1 h2
        exact erase_page_in _ _ _ _ (by omega) (by omega)
    · intro a ha
      have : [FlashOp.erase 0, FlashOp.program 0 (le32 DEVSMGR_PROG_MAGIC0 ++ le32 img.length)
          (range_erased (erase_page env.flash_page_size s.flash 0) 0 8)]
          = [FlashOp.erase 0] ++ [FlashOp.program 0 (le32 DEVSMGR_PROG_MAGIC0 ++ le32 img.length)
          (range_erased (erase_page env.flash_page_size s.flash 0) 0 8)] := rfl
      rw [this, times_programmed_append, times_programmed_erase, times_programmed_program]
      simp only [List.length_append, le32_length]
      split_ifs <;> omega

theorem jd_hash_fnv1a_lt (data : List Nat) : jd_hash_fnv1a data < U32 := by
  unfold jd_hash_fnv1a
  have key : ∀ (l : List Nat) (h : Nat), h < U32 →
      l.foldl (fun h b => ((h ^^^ b) * 0x1000193) % U32) h < U32 := by
    intro l
    induction l with
    | nil => intro h hh; exact hh
    | cons b l ih =>
      intro h _
      rw [List.foldl_cons]
      exact ih _ (Nat.mod_lt _ (by unfold U32; omega))
  exact key data _ (by unfold U32; omega)

theorem image_eq (s : State) (img : List Nat)
    (h : ∀ i, i < img.length → s.flash (128 + i) = img.getD i 0) :
    image s 0 img.length = img := by
  apply List.ext_getElem
  · simp [image]
  · intro i h1 h2
    simp only [image, List.getElem_map, List.getElem_range, HEADER_SIZE, Nat.add_zero]
    rw [h i h2, List.getD_eq_getElem?_getD, List.getElem?_eq_getElem h2]
    rfl

theorem tail_getD (m h a : Nat) (ha : a < 8) :
    (le32 m ++ le32 h ++ List.replicate 112 0).getD a 255 =
      if a = 0 then m % 256 else if a = 1 then m / 256 % 256
      else if a = 2 then m / 65536 % 256
      else if a = 3 then m / 16777216 % 256
      else if a = 4 then h % 256 else if a = 5 then h / 256 % 256
      else if a = 6 then h / 65536 % 256 else h / 16777216 % 256 := by
  interval_cases a <;> simp [le32]

theorem finalize_getD (h a : Nat) (ha : a < 8) :
    (finalize_bytes h).getD a 255 =
      if a = 0 then DEVSMGR_PROG_MAGIC1 % 256 else if a = 1 then DEVSMGR_PROG_MAGIC1 / 256 % 256
      else if a = 2 then DEVSMGR_PROG_MAGIC1 / 65536 % 256
      else if a = 3 then DEVSMGR_PROG_MAGIC1 / 16777216 % 256
      else if a = 4 then h % 256 else if a = 5 then h / 256 % 256
      else if a = 6 then h / 65536 % 256 else h / 16777216 % 256 := by
  unfold finalize_bytes
  exact tail_getD DEVSMGR_PROG_MAGIC1 h a ha

theorem is_bytes_getD_dflt (l : List Nat) (hb : is_bytes l) (i : Nat) :
    l.getD i 255 < 256 := by
  rw [List.getD_eq_getElem?_getD]
  by_cases h : i < l.length
  · rw [List.getElem?_eq_getElem h]
    exact hb _ (List.getElem_mem h)
  · rw [List.getElem?_eq_none (by omega)]
    decide

theorem finalize_is_bytes (h : Nat) : is_bytes (finalize_bytes h) := by
  intro b hb
  simp only [finalize_bytes, le32, List.mem_append, List.mem_cons, List.mem_singleton,
    List.not_mem_nil, or_false, List.mem_replicate] at hb
  rcases hb with ((h1 | h1 | h1 | h1) | (h1 | h1 | h1 | h1)) | h1
  all_goals omega

theorem finalize_getD_lt (h a : Nat) : (finalize_bytes h).getD a 255 < 256 :=
  is_bytes_getD_dflt _ (finalize_is_bytes h) a

theorem finalize_accept_fields (env : Env) (s : State) (hw : s.write_offset ≠ 0)
    (h : s.write_offset = endp s) :
    (devsmgr_deploy_write env s none).1 = 0 ∧
    (devsmgr_deploy_write env s none).2.ctx = none ∧
    (devsmgr_deploy_write env s none).2.next_restart = s.now ∧
    (devsmgr_deploy_write env s none).2.flash_ops =
      s.flash_ops ++
        [FlashOp.program 8 (finalize_bytes (jd_hash_fnv1a (image s 0 (rd32 s.flash 4))))
          (range_erased s.flash 8 120), FlashOp.sync] := by
  rw [deploy_write_finalize_accept env s hw h]
  refine ⟨rfl, rfl, rfl, ?_⟩
  simp [jd_send_event, stop_program, send_status, flash_sync, flash_program,
    finalize_bytes_length, program_header]

/-- The flash after a finalize onto an erased header tail: magic1 and the hash read back, and
nothing outside the bytes 8 to 127 changes. -/
theorem finalize_flash_words (f : Nat → Nat) (h : Nat) (hh : h < U32) (he : erased f 8 128) :
    rd32 (program_bytes f 8 (finalize_bytes h)) 8 = DEVSMGR_PROG_MAGIC1 ∧
    rd32 (program_bytes f 8 (finalize_bytes h)) 12 = h ∧
    ∀ a, a < 8 ∨ 128 ≤ a → program_bytes f 8 (finalize_bytes h) a = f a := by
  have hb : ∀ a, 8 ≤ a → a < 16 →
      program_bytes f 8 (finalize_bytes h) a = (finalize_bytes h).getD (a - 8) 255 := by
    intro a h1 h2
    exact program_bytes_erased f 8 _ a h1 (by rw [finalize_bytes_length]; omega)
      (he a h1 (by omega)) (finalize_getD_lt h _)
  refine ⟨?_, ?_, ?_⟩
  · apply rd32_of_bytes _ _ _ (by unfold DEVSMGR_PROG_MAGIC1 U32; omega)
    · rw [hb 8 (by omega) (by omega), finalize_getD _ _ (by omega)]; simp
    · rw [hb 9 (by omega) (by omega), finalize_getD _ _ (by omega)]; simp
    · rw [hb 10 (by omega) (by omega), finalize_getD _ _ (by omega)]; simp
    · rw [hb 11 (by omega) (by omega), finalize_getD _ _ (by omega)]; simp
  · apply rd32_of_bytes _ _ _ hh
    · rw [hb 12 (by omega) (by omega), finalize_getD _ _ (by omega)]; simp
    · rw [hb 13 (by omega) (by omega), finalize_getD _ _ (by omega)]; simp
    · rw [hb 14 (by omega) (by omega), finalize_getD _ _ (by omega)]; simp
    · rw [hb 15 (by omega) (by omega), finalize_getD _ _ (by omega)]; simp
  · intro a ha
    apply program_bytes_out
    rw [finalize_bytes_length]
    omega

theorem image_congr (s t : State) (off len : Nat)
    (h : ∀ a, 128 ≤ a → t.flash a = s.flash a) : image t off len = image s off len := by
  unfold image
  apply List.map_congr_left
  intro i _
  exact h _ (by unfold HEADER_SIZE; omega)

/-- The finalize of a session in which the whole image was written commits it. -/
theorem sess_finalize (env : Env) (base : List FlashOp) (img : List Nat)
    (hlen : img.length + 128 < U32) (s : State) (hs : sess env base img img.length s) :
    (devsmgr_deploy_write env s none).1 = 0 ∧
    devs_header (devsmgr_deploy_write env s none).2 =
      some { magic0 := DEVSMGR_PROG_MAGIC0, size := img.length,
             magic1 := DEVSMGR_PROG_MAGIC1, hash := jd_hash_fnv1a img } ∧
    image (devsmgr_deploy_write env s none).2 0 img.length = img ∧
    (∀ i, i < img.length →
      (devsmgr_deploy_write env s none).2.flash (128 + i) = img.getD i 0) ∧
    (devsmgr_deploy_write env s none).2.write_offset = 128 + img.length ∧
    ∃ T, (devsmgr_deploy_write env s none).2.flash_ops = base ++ T ∧
      (∀ op ∈ T, FlashOp.clean op = true) ∧
      ∀ i, i < img.length → times_programmed T (128 + i) = 1 := by
  obtain ⟨hwo, hm0, hsz, hhdr, hwr, _, T, hT, htr⟩ := hs
  obtain ⟨hclean, hcount⟩ := htr
  have hw : s.write_offset ≠ 0 := by omega
  have he : s.write_offset = endp s := by
    unfold endp
    rw [hsz, hwo]
    unfold HEADER_SIZE
    rw [Nat.mod_eq_of_lt hlen]
    omega
  have himg : image s 0 (rd32 s.flash 4) = img := by
    rw [hsz]
    exact image_eq s img hwr
  obtain ⟨g1, _, _, g4⟩ := finalize_accept_fields env s hw he
  obtain ⟨f1, f2⟩ := finalize_accept_flash env s hw he
  rw [himg] at g4 f1
  obtain ⟨w1, w2, w3⟩ := finalize_flash_words s.flash (jd_hash_fnv1a img)
    (jd_hash_fnv1a_lt img) hhdr
  have hfl : ∀ i, i < img.length →
      (devsmgr_deploy_write env s none).2.flash (128 + i) = img.getD i 0 := by
    intro i hi
    rw [f1, w3 _ (Or.inr (by omega))]
    exact hwr i hi
  refine ⟨g1, ?_, image_eq _ img hfl, hfl, by rw [f2, hwo], ?_⟩
  · unfold devs_header program_header
    simp only []
    rw [f1, w1, w2,
      rd32_congr _ s.flash 0 (fun a _ h2 => w3 a (Or.inl (by omega))),
      rd32_congr _ s.flash 4 (fun a _ h2 => w3 a (Or.inl (by omega))), hm0, hsz]
    simp
  · refine ⟨_, by rw [g4, hT, List.append_assoc], ?_, ?_⟩
    · intro op hop
      rw [List.mem_append] at hop
      rcases hop with h1 | h1
      · exact hclean op h1
      · simp only [List.mem_cons, List.mem_singleton, List.not_mem_nil, or_false] at h1
        rcases h1 with h1 | h1
        · rw [h1]
          show range_erased _ _ _ = true
          apply range_erased_true
          intro a h1 h2
          exact hhdr a h1 (by omega)
        · rw [h1]
          rfl
    · intro i hi
      have hsplit : [FlashOp.program 8 (finalize_bytes (jd_hash_fnv1a img))
          (range_erased s.flash 8 120), FlashOp.sync]
          = [FlashOp.program 8 (finalize_bytes (jd_hash_fnv1a img))
              (range_erased s.flash 8 120)] ++ [FlashOp.sync] := rfl
      rw [times_programmed_append, hsplit, times_programmed_append, times_programmed_sync,
        times_programmed_program, finalize_bytes_length, hcount _ (by omega)]
      split_ifs <;> omega

theorem deploy_chunk_size_spec (len soff : Nat) (h32 : len % 32 = 0) (hs32 : soff % 32 = 0)
    (hlt : soff < len) :
    deploy_chunk_size len soff % 32 = 0 ∧ 0 < deploy_chunk_size len soff ∧
    deploy_chunk_size len soff ≤ 128 ∧ soff + deploy_chunk_size len soff ≤ len := by
  unfold deploy_chunk_size
  split_ifs <;> omega

/-- The chunk loop of devsmgr_deploy, started in a session that has written soff bytes, ends
with return value 0 in a session that has written the whole image. -/
theorem deploy_loop_sess (env : Env) (hpg : env.page_ok) (hP : 128 < env.flash_page_size)
    (base : List FlashOp) (img : List Nat) (hb : is_bytes img) (hlen : img.length + 128 < U32)
    (h32 : img.length % 32 = 0) :
    ∀ (fuel soff : Nat) (s : State), sess env base img soff s → soff ≤ img.length →
      soff % 32 = 0 → img.length - soff ≤ fuel →
      ∃ s', deploy_loop env fuel s img soff = some (0, s') ∧ sess env base img img.length s' := by
  intro fuel
  induction fuel with
  | zero =>
    intro soff s hs h1 _ h3
    have : soff = img.length := by omega
    subst this
    refine ⟨s, ?_, hs⟩
    unfold deploy_loop
    rw [if_neg (by omega)]
  | succ n ih =>
    intro soff s hs h1 h2 h3
    unfold deploy_loop
    by_cases hlt : soff < img.length
    · rw [if_pos hlt]
      obtain ⟨c1, c2, c3, c4⟩ := deploy_chunk_size_spec img.length soff h32 h2 hlt
      obtain ⟨r1, r2⟩ := sess_chunk env hpg base img hb hlen soff
        (deploy_chunk_size img.length soff) s hs c1 (by omega) c4
      generalize devsmgr_deploy_write env s
        (some ((img.drop soff).take (deploy_chunk_size img.length soff))) = r at r1 r2 ⊢
      obtain ⟨rc, rs⟩ := r
      simp only [] at r1 r2 ⊢
      rw [if_neg (by rw [r1]; simp)]
      exact ih _ rs r2 c4 (by omega) (by omega)
    · rw [if_neg hlt]
      have : soff = img.length := by omega
      subst this
      exact ⟨s, rfl, hs⟩

theorem deploy_finish_sess (env : Env) (base : List FlashOp) (img : List Nat)
    (hlen : img.length + 128 < U32) (s : State) (hs : sess env base img img.length s) :
    deploy_finish env s = (env.devs_verify img, (devsmgr_deploy_write env s none).2) := by
  obtain ⟨g1, g2, g3, _⟩ := sess_finalize env base img hlen s hs
  unfold deploy_finish
  generalize devsmgr_deploy_write env s none = r at g1 g2 g3 ⊢
  obtain ⟨rc, rs⟩ := r
  simp only [] at g1 g2 g3 ⊢
  rw [if_neg (by rw [g1]; simp), g2]
  simp only []
  rw [g3]

/-- What a committed image looks like: the header is valid with the size and the FNV-1a hash
of the image, the image bytes are in flash from offset 128, and since the trace base every
program call went onto erased bytes and every image byte was programmed exactly once. -/
theorem bulk_deploy_commits (env : Env) (hpg : env.page_ok) (hP : 128 < env.flash_page_size)
    (hmax : env.max_program_size < U32)
    (s : State) (img : List Nat) (hb : is_bytes img) (h32 : img.length % 32 = 0)
    (h0 : 0 < img.length) (hS : img.length < env.max_program_size - 128) :
    ∃ s', devsmgr_deploy env s img = some (env.devs_verify img, s') ∧
      devs_header s' = some { magic0 := DEVSMGR_PROG_MAGIC0, size := img.length,
                              magic1 := DEVSMGR_PROG_MAGIC1, hash := jd_hash_fnv1a img } ∧
      image s' 0 img.length = img ∧
      (∀ i, i < img.length → s'.flash (128 + i) = img.getD i 0) ∧
      ∃ T, s'.flash_ops = s.flash_ops ++ T ∧ (∀ op ∈ T, FlashOp.clean op = true) ∧
        ∀ i, i < img.length → times_programmed T (128 + i) = 1 := by
  have hlen : img.length + 128 < U32 := by omega
  have hok : (devsmgr_deploy_start env s img.length).1 = 0 :=
    deploy_start_ok_of_bounds env s img.length (by omega) hmax hS h32
  have hs0 := sess_start env hP s img h0 hok
  obtain ⟨s1, l1, l2⟩ := deploy_loop_sess env hpg hP s.flash_ops img hb hlen h32
    img.length 0 _ hs0 (by omega) (by omega) (by omega)
  obtain ⟨_, g2, g3, g4, _, g6⟩ := sess_finalize env s.flash_ops img hlen s1 l2
  refine ⟨(devsmgr_deploy_write env s1 none).2, ?_, g2, g3, g4, g6⟩
  unfold devsmgr_deploy
  generalize devsmgr_deploy_start env s img.length = ds at hok l1 ⊢
  obtain ⟨dc, dst⟩ := ds
  simp only [] at hok l1 ⊢
  rw [if_neg (by rw [hok]; simp), if_neg (by omega), l1]
  simp only []
  rw [if_neg (by simp), deploy_finish_sess env s.flash_ops img hlen s1 l2]

theorem write_results_nil (env : Env) (s : State) : write_results env s [] = [] := by
  simp only [write_results]

theorem write_results_cons (env : Env) (s : State) (b : Option (List Nat))
    (bs : List (Option (List Nat))) :
    write_results env s (b :: bs) =
      (devsmgr_deploy_write env s b).1
        :: write_results env (devsmgr_deploy_write env s b).2 bs := by
  simp only [write_results]

/-- Writing the rest of the image in any chunks whose lengths are multiples of 32 below the
page size is accepted chunk by chunk and ends in a session that has written the whole
image. -/
theorem chunks_run_sess (env : Env) (hpg : env.page_ok) (base : List FlashOp) (img : List Nat)
    (hb : is_bytes img) (hlen : img.length + 128 < U32) :
    ∀ (cs : List (List Nat)) (k : Nat) (s : State), sess env base img k s → k ≤ img.length →
      img.drop k = cs.flatten →
      (∀ c ∈ cs, c.length % 32 = 0 ∧ c.length < env.flash_page_size) →
      sess env base img img.length (write_run env s (cs.map some)) ∧
      ∀ r ∈ write_results env s (cs.map some), r = 0 := by
  intro cs
  induction cs with
  | nil =>
    intro k s hs hk hd _
    have hl := congrArg List.length hd
    simp only [List.length_drop, List.flatten_nil, List.length_nil] at hl
    have : k = img.length := by omega
    subst this
    rw [List.map_nil, write_run_nil, write_results_nil]
    exact ⟨hs, fun r hr => absurd hr (List.not_mem_nil r)⟩
  | cons c cs ih =>
    intro k s hs hk hd hc
    rw [List.flatten_cons] at hd
    have hl := congrArg List.length hd
    simp only [List.length_drop, List.length_append] at hl
    have hkn : k + c.length ≤ img.length := by omega
    have hcc : (img.drop k).take c.length = c := by
      rw [hd, List.take_left']
      rfl
    have hrest : img.drop (k + c.length) = cs.flatten := by
      rw [← List.drop_drop, hd, List.drop_left']
      rfl
    obtain ⟨hc1, hc2⟩ := hc c (List.mem_cons_self c cs)
    obtain ⟨r1, r2⟩ := sess_chunk env hpg base img hb hlen k c.length s hs hc1 hc2 hkn
    rw [hcc] at r1 r2
    obtain ⟨i1, i2⟩ := ih (k + c.length) _ r2 hkn hrest
      (fun c1 h1 => hc c1 (List.mem_cons_of_mem c h1))
    rw [List.map_cons, write_run_cons, write_results_cons]
    refine ⟨i1, ?_⟩
    intro r hr
    rw [List.mem_cons] at hr
    rcases hr with h1 | h1
    · rw [h1, r1]
    · exact i2 r h1

/-! ## The bulk entry point always returns -/

theorem deploy_loop_total (env : Env) (img : List Nat) :
    ∀ (fuel soff : Nat) (s : State), img.length - soff ≤ fuel →
      ∃ r, deploy_loop env fuel s img soff = some r := by
  intro fuel
  induction fuel with
  | zero =>
    intro soff s h
    unfold deploy_loop
    rw [if_neg (by omega)]
    exact ⟨_, rfl⟩
  | succ n ih =>
    intro soff s h
    unfold deploy_loop
    by_cases hlt : soff < img.length
    · rw [if_pos hlt]
      have hpos : 0 < deploy_chunk_size img.length soff := by
        unfold deploy_chunk_size
        split_ifs <;> omega
      generalize devsmgr_deploy_write env s
        (some ((img.drop soff).take (deploy_chunk_size img.length soff))) = r
      obtain ⟨rc, rs⟩ := r
      simp only []
      by_cases hc : rc ≠ 0
      · rw [if_pos hc]
        exact ⟨_, rfl⟩
      · rw [if_neg hc]
        exact ih _ rs (by omega)
    · rw [if_neg hlt]
      exact ⟨_, rfl⟩

/-- The model of devsmgr_deploy never runs out of fuel: the function returns on every
input. -/
theorem devsmgr_deploy_total (env : Env) (s : State) (img : List Nat) :
    ∃ r, devsmgr_deploy env s img = some r := by
  unfold devsmgr_deploy
  generalize devsmgr_deploy_start env s img.length = ds
  obtain ⟨dc, dst⟩ := ds
  simp only []
  by_cases c1 : dc ≠ 0
  · rw [if_pos c1]
    exact ⟨_, rfl⟩
  · rw [if_neg c1]
    by_cases c2 : img.length = 0
    · rw [if_pos c2]
      exact ⟨_, rfl⟩
    · rw [if_neg c2]
      obtain ⟨r, hr⟩ := deploy_loop_total env img img.length 0 dst (by omega)
      rw [hr]
      obtain ⟨rc, rs⟩ := r
      simp only []
      split_ifs <;> exact ⟨_, rfl⟩

/-! ## Deploying an image: the bulk entry point and the streamed session -/

set_option maxRecDepth 100000 in
theorem demo_is_bytes_image256 : is_bytes image256 := by
  unfold is_bytes
  decide

set_option maxRecDepth 100000 in
theorem demo_is_bytes_pattern64 : is_bytes pattern64 := by
  unfold is_bytes
  decide

/-- C2: for every image of S bytes, S a multiple of 32 with 0 < S < max_program_size - 128,
on flash whose page size is a power of two greater than 128, devsmgr_deploy returns the
result of the structural verification of the stored image (so none of its own codes -3, -4,
-5); afterwards the header is valid, its size field is S, the flash bytes at offsets
128 to 128 + S - 1 equal the image, every program call of the session went onto erased bytes
and every image byte was programmed exactly once. -/
theorem bulk_deploy_stores_image (env : Env) (hpg : env.page_ok)
    (hP : 128 < env.flash_page_size) (hmax : env.max_program_size < U32) (s : State) (img : List Nat) (hb : is_bytes img) (h32 : img.length % 32 = 0)
    (h0 : 0 < img.length) (hS : img.length < env.max_program_size - 128) :
    ∃ s', devsmgr_deploy env s img = some (env.devs_verify (image s' 0 img.length), s') ∧
      image s' 0 img.length = img ∧
      (∃ hd, devs_header s' = some hd ∧ hd.size = img.length) ∧
      (∀ i, i < img.length → s'.flash (128 + i) = img.getD i 0) ∧
      ∃ T, s'.flash_ops = s.flash_ops ++ T ∧ (∀ op ∈ T, FlashOp.clean op = true) ∧
        ∀ i, i < img.length → times_programmed T (128 + i) = 1 := by
  obtain ⟨s1, h1, h2, h3, h4, h5⟩ := bulk_deploy_commits env hpg hP hmax s img hb h32 h0 hS
  refine ⟨s1, ?_, h3, ⟨_, h2, rfl⟩, h4, h5⟩
  rw [h3]
  exact h1

set_option maxRecDepth 100000 in
/-- An instance of C2: the 256-byte test image deployed in bulk over a stored program. -/
theorem bulk_deploy_stores_image_witness :
    (demo_env.page_ok ∧ 128 < demo_env.flash_page_size ∧ demo_env.max_program_size < U32 ∧
      is_bytes image256 ∧ image256.length % 32 = 0 ∧ 0 < image256.length ∧
      image256.length < demo_env.max_program_size - 128) ∧
    ∃ s', devsmgr_deploy demo_env stored_state image256
        = some (demo_env.devs_verify (image s' 0 image256.length), s') ∧
      image s' 0 image256.length = image256 :=
  have h := bulk_deploy_stores_image demo_env (wf_page_ok demo_env demo_env_wf) (by decide)
    (by decide) stored_state image256 demo_is_bytes_image256 (by decide) (by decide) (by decide)
  ⟨⟨wf_page_ok demo_env demo_env_wf, by decide, by decide, demo_is_bytes_image256, by decide,
      by decide, by decide⟩,
    h.imp (fun _ hs => ⟨hs.1, hs.2.1⟩)⟩

/-- C3: for every image P of S bytes, S a multiple of 32 with 0 < S < max_program_size - 128,
cut into chunks whose lengths are multiples of 32 below the flash page size (for S = 64, the
one chunk P): deploy_start(S) succeeds, every deploy_write of a chunk succeeds, the finalize
at the close of the stream succeeds, the program-hash query returns the 32-bit FNV-1a hash of
P and the program-size query returns S. -/
theorem streamed_deploy_commits_hash (env : Env) (hpg : env.page_ok)
    (hP : 128 < env.flash_page_size) (hmax : env.max_program_size < U32) (s : State) (img : List Nat) (chunks : List (List Nat))
    (hb : is_bytes img) (h32 : img.length % 32 = 0) (h0 : 0 < img.length)
    (hS : img.length < env.max_program_size - 128) (hj : chunks.flatten = img)
    (hc : ∀ c ∈ chunks, c.length % 32 = 0 ∧ c.length < env.flash_page_size) :
    (devsmgr_deploy_start env s img.length).1 = 0 ∧
    (∀ r ∈ write_results env (devsmgr_deploy_start env s img.length).2 (chunks.map some),
      r = 0) ∧
    (devsmgr_deploy_write env
      (write_run env (devsmgr_deploy_start env s img.length).2 (chunks.map some)) none).1 = 0 ∧
    program_hash_query (devsmgr_deploy_write env
      (write_run env (devsmgr_deploy_start env s img.length).2 (chunks.map some)) none).2
      = jd_hash_fnv1a img ∧
    program_size_query (devsmgr_deploy_write env
      (write_run env (devsmgr_deploy_start env s img.length).2 (chunks.map some)) none).2
      = img.length := by
  have hlen : img.length + 128 < U32 := by omega
  have hok : (devsmgr_deploy_start env s img.length).1 = 0 :=
    deploy_start_ok_of_bounds env s img.length (by omega) hmax hS h32
  have hs0 := sess_start env hP s img h0 hok
  obtain ⟨l1, l2⟩ := chunks_run_sess env hpg s.flash_ops img hb hlen chunks 0 _ hs0
    (by omega) (by rw [List.drop_zero, hj]) hc
  obtain ⟨g1, g2, _⟩ := sess_finalize env s.flash_ops img hlen _ l1
  refine ⟨hok, l2, g1, ?_, ?_⟩
  · unfold program_hash_query
    rw [g2]
  · unfold program_size_query
    rw [g2]

set_option maxRecDepth 100000 in
/-- An instance of C3, the concrete scenario: deploy_start(64), one deploy_write of the
64-byte pattern, close.  The hash returned is 0x71b1e1c5, the FNV-1a hash of the pattern; the
hash function also meets the published FNV-1a test vectors for "a" and "foobar". -/
theorem streamed_deploy_commits_hash_witness :
    (demo_env.page_ok ∧ 128 < demo_env.flash_page_size ∧ demo_env.max_program_size < U32 ∧
      is_bytes pattern64 ∧ pattern64.length % 32 = 0 ∧ 0 < pattern64.length ∧
      pattern64.length < demo_env.max_program_size - 128 ∧
      [pattern64].flatten = pattern64 ∧
      ∀ c ∈ [pattern64], c.length % 32 = 0 ∧ c.length < demo_env.flash_page_size) ∧
    (jd_hash_fnv1a [97] = 0xe40c292c ∧
      jd_hash_fnv1a [102, 111, 111, 98, 97, 114] = 0xbf9cf968 ∧
      jd_hash_fnv1a pattern64 = 0x71b1e1c5) ∧
    (devsmgr_deploy_write demo_env
      (write_run demo_env (devsmgr_deploy_start demo_env boot_state pattern64.length).2
        ([pattern64].map some)) none).1 = 0 ∧
    program_hash_query (devsmgr_deploy_write demo_env
      (write_run demo_env (devsmgr_deploy_start demo_env boot_state pattern64.length).2
        ([pattern64].map some)) none).2 = jd_hash_fnv1a pattern64 ∧
    program_size_query (devsmgr_deploy_write demo_env
      (write_run demo_env (devsmgr_deploy_start demo_env boot_state pattern64.length).2
        ([pattern64].map some)) none).2 = 64 :=
  have hc : ∀ c ∈ [pattern64], c.length % 32 = 0 ∧ c.length < demo_env.flash_page_size := by
    decide
  have h := streamed_deploy_commits_hash demo_env (wf_page_ok demo_env demo_env_wf) (by decide)
    (by decide) boot_state pattern64 [pattern64] demo_is_bytes_pattern64 (by decide)
    (by decide) (by decide) (by decide) hc
  ⟨⟨wf_page_ok demo_env demo_env_wf, by decide, by decide, demo_is_bytes_pattern64, by decide,
      by decide, by decide, by decide, hc⟩,
    ⟨by decide, by decide, by decide⟩, h.2.2.1, h.2.2.2.1, h.2.2.2.2⟩

/-! ## Reading the image back -/

set_option maxRecDepth 1000000 in
/-- C1 fails on the code: the 256-byte test image is deployed (the header is valid with size
256 and the flash holds the image), read back with 236-byte packets and polled until the
session is idle (read_program_ptr = -1); the pipe was then handed two chunks of 236 bytes,
472 bytes in all, not the 256 bytes of the image: the second chunk starts at image offset 236
and runs 216 bytes past the end of the image. -/
theorem readback_overruns_image :
    program_size_query (run demo_env boot_state (round_trip_calls.take 4)) = 256 ∧
    image (run demo_env boot_state (round_trip_calls.take 4)) 0 256 = image256 ∧
    (run demo_env boot_state round_trip_calls).read_program_ptr = -1 ∧
    (pipe_output (run demo_env boot_state round_trip_calls).pipe_log).length = 472 ∧
    pipe_output (run demo_env boot_state round_trip_calls).pipe_log ≠ image256 ∧
    (run demo_env boot_state round_trip_calls).pipe_log =
      [PipeOp.write (image (run demo_env boot_state (round_trip_calls.take 4)) 0 236) 0,
       PipeOp.write (image (run demo_env boot_state (round_trip_calls.take 4)) 236 236) 0,
       PipeOp.close] := by
  decide

/-! ## Status -/

theorem current_status_ready_iff (s : State) :
    current_status s = Status.READY ↔ s.ctx.isSome = true := by
  unfold current_status
  by_cases h : s.ctx.isSome = true
  · simp [h]
  · simp only [h]
    cases devs_header s with
    | none => simp
    | some hd => by_cases h2 : hd.size ≠ 0 <;> simp [h2]

/-- C13: for every state, current_status is Ready if and only if a context exists; it is
Sleeping if and only if no context exists and the header is valid (both magic words match)
with a nonzero size field; it is WaitingForInput if and only if no context exists and the
header is not valid or its size field is zero.  The three cases are exhaustive, and as values
of one function mutually exclusive. -/
theorem current_status_cases (s : State) :
    (current_status s = Status.READY ↔ s.ctx.isSome = true) ∧
    (current_status s = Status.SLEEPING ↔
      s.ctx = none ∧ (rd32 s.flash 0 = 0x8d8abd53 ∧ rd32 s.flash 8 = 0xb27c4b2b)
        ∧ rd32 s.flash 4 ≠ 0) ∧
    (current_status s = Status.WAITING_FOR_INPUT ↔
      s.ctx = none ∧ ¬ ((rd32 s.flash 0 = 0x8d8abd53 ∧ rd32 s.flash 8 = 0xb27c4b2b)
        ∧ rd32 s.flash 4 ≠ 0)) ∧
    (current_status s = Status.READY ∨ current_status s = Status.SLEEPING
      ∨ current_status s = Status.WAITING_FOR_INPUT) := by
  unfold current_status devs_header
  simp only [program_header, DEVSMGR_PROG_MAGIC0, DEVSMGR_PROG_MAGIC1]
  cases hc : s.ctx with
  | some c => simp
  | none =>
    by_cases hm : rd32 s.flash 0 = 0x8d8abd53 ∧ rd32 s.flash 8 = 0xb27c4b2b
    · by_cases hz : rd32 s.flash 4 = 0
      · simp [hm, hz]
      · simp [hm, hz]
    · simp [hm]

/-! ## Starting the program -/

theorem send_status_ctx (s : State) : (send_status s).ctx = s.ctx := rfl

theorem send_status_events (s : State) :
    (send_status s).events = s.events ++ [Event.status_code_changed (current_status s)] := rfl

theorem send_status_next_restart (s : State) : (send_status s).next_restart = s.next_restart :=
  rfl

theorem send_status_now (s : State) : (send_status s).now = s.now := rfl

theorem run_img_ok (env : Env) (s : State) (img : List Nat) (b : Bool)
    (h : env.devs_create_ctx img = true) :
    run_img env s img b =
      { s with ctx := some { img := img, builtin := b, logging := s.logging } } := by
  unfold run_img
  rw [if_pos h]

theorem run_img_frame (env : Env) (s : State) (img : List Nat) (b : Bool) :
    (run_img env s img b).events = s.events ∧
    (run_img env s img b).next_restart = s.next_restart ∧
    (run_img env s img b).now = s.now ∧
    (run_img env s img b).flash = s.flash := by
  unfold run_img
  split_ifs <;> exact ⟨rfl, rfl, rfl, rfl⟩

/-- The image try_run hands to run_img, and whether it is the built-in one. -/
theorem try_run_eq (env : Env) (s : State) :
    try_run env s =
      if (rd32 s.flash 0 = DEVSMGR_PROG_MAGIC0 ∧ rd32 s.flash 8 = DEVSMGR_PROG_MAGIC1)
          ∧ rd32 s.flash 4 ≠ 0 ∧ env.devs_verify (image s 0 (rd32 s.flash 4)) = 0 then
        send_status (run_img env s (image s 0 (rd32 s.flash 4)) false)
      else send_status (run_img env s devs_empty_program true) := by
  unfold try_run devs_header
  simp only [program_header]
  by_cases hm : rd32 s.flash 0 = DEVSMGR_PROG_MAGIC0 ∧ rd32 s.flash 8 = DEVSMGR_PROG_MAGIC1
  · rw [if_pos hm]
    simp only [hm, true_and, and_self]
  · rw [if_neg hm]
    simp only [hm, false_and, if_false]

/-- When the header is valid with a nonzero size and the image verifies, try_run builds the
context from the flash image. -/
theorem try_run_ctx_flash (env : Env) (hen : env.engine_ok) (s : State)
    (hc : (rd32 s.flash 0 = DEVSMGR_PROG_MAGIC0 ∧ rd32 s.flash 8 = DEVSMGR_PROG_MAGIC1)
      ∧ rd32 s.flash 4 ≠ 0 ∧ env.devs_verify (image s 0 (rd32 s.flash 4)) = 0) :
    (try_run env s).ctx =
      some { img := image s 0 (rd32 s.flash 4), builtin := false, logging := s.logging } := by
  rw [try_run_eq, if_pos hc, send_status_ctx, run_img_ok env s _ _ (hen.1 _ hc.2.2)]

/-- In every other case try_run builds the context from the built-in empty program. -/
theorem try_run_ctx_builtin (env : Env) (hen : env.engine_ok) (s : State)
    (hc : ¬ ((rd32 s.flash 0 = DEVSMGR_PROG_MAGIC0 ∧ rd32 s.flash 8 = DEVSMGR_PROG_MAGIC1)
      ∧ rd32 s.flash 4 ≠ 0 ∧ env.devs_verify (image s 0 (rd32 s.flash 4)) = 0)) :
    (try_run env s).ctx =
      some { img := devs_empty_program, builtin := true, logging := s.logging } := by
  rw [try_run_eq, if_neg hc, send_status_ctx, run_img_ok env s _ _ (hen.1 _ hen.2)]

theorem try_run_live (env : Env) (hen : env.engine_ok) (s : State) :
    (try_run env s).ctx.isSome = true ∧ current_status (try_run env s) = Status.READY := by
  have h3 : (try_run env s).ctx.isSome = true := by
    by_cases hc : (rd32 s.flash 0 = DEVSMGR_PROG_MAGIC0 ∧ rd32 s.flash 8 = DEVSMGR_PROG_MAGIC1)
        ∧ rd32 s.flash 4 ≠ 0 ∧ env.devs_verify (image s 0 (rd32 s.flash 4)) = 0
    · rw [try_run_ctx_flash env hen s hc]
      rfl
    · rw [try_run_ctx_builtin env hen s hc]
      rfl
  exact ⟨h3, (current_status_ready_iff _).2 h3⟩

/-- C15: with an engine that creates a context for every verified image and a built-in empty
program that passes verification (asserted in devsmgr_init): for every store state, try_run
builds the context from the flash image (hd->image, hd->size) exactly when the header is
valid, its size is nonzero and devs_verify of the image returns 0, and otherwise from the
160-byte built-in empty program; in both cases a context exists afterwards and the status is
Ready. -/
theorem try_run_always_live (env : Env) (hen : env.engine_ok) (s : State) :
    (((rd32 s.flash 0 = 0x8d8abd53 ∧ rd32 s.flash 8 = 0xb27c4b2b)
        ∧ rd32 s.flash 4 ≠ 0 ∧ env.devs_verify (image s 0 (rd32 s.flash 4)) = 0) →
      (try_run env s).ctx =
        some { img := image s 0 (rd32 s.flash 4), builtin := false, logging := s.logging }) ∧
    (¬ ((rd32 s.flash 0 = 0x8d8abd53 ∧ rd32 s.flash 8 = 0xb27c4b2b)
        ∧ rd32 s.flash 4 ≠ 0 ∧ env.devs_verify (image s 0 (rd32 s.flash 4)) = 0) →
      (try_run env s).ctx =
        some { img := devs_empty_program, builtin := true, logging := s.logging }) ∧
    devs_empty_program.length = 160 ∧
    (try_run env s).ctx.isSome = true ∧
    current_status (try_run env s) = Status.READY := by
  obtain ⟨h3, h4⟩ := try_run_live env hen s
  refine ⟨?_, ?_, rfl, h3, h4⟩
  · intro hc
    exact try_run_ctx_flash env hen s hc
  · intro hc
    exact try_run_ctx_builtin env hen s hc

theorem demo_env_engine_ok : demo_env.engine_ok :=
  ⟨fun _ _ => rfl, rfl⟩

set_option maxRecDepth 100000 in
/-- An instance of C15: at boot on flash without a header the context is built from the
built-in empty program; over the stored program it is built from the 64 bytes in flash. -/
theorem try_run_always_live_witness :
    demo_env.engine_ok ∧
    (try_run demo_env boot_state).ctx =
      some { img := devs_empty_program, builtin := true, logging := 1 } ∧
    (try_run demo_env stored_state).ctx =
      some { img := pattern64, builtin := false, logging := 1 } ∧
    current_status (try_run demo_env boot_state) = Status.READY :=
  ⟨demo_env_engine_ok,
   (try_run_always_live demo_env demo_env_engine_ok boot_state).2.1 (by decide),
   ((try_run_always_live demo_env demo_env_engine_ok stored_state).1 (by decide)).trans
     (by decide),
   (try_run_always_live demo_env demo_env_engine_ok boot_state).2.2.2.2⟩

/-! ## Polling: faults and restart delays -/

theorem process_readback_frame (env : Env) (s : State) (r : Int) :
    (process_readback env s r).ctx = s.ctx ∧
    (process_readback env s r).events = s.events ∧
    (process_readback env s r).now = s.now ∧
    (process_readback env s r).next_restart = s.next_restart ∧
    (process_readback env s r).running = s.running ∧
    (process_readback env s r).autostart = s.autostart := by
  unfold process_readback
  simp only []
  split_ifs <;> exact ⟨rfl, rfl, rfl, rfl, rfl, rfl⟩

/-- With a context present the restart timer may move the deadline but starts nothing. -/
theorem process_autostart_running (env : Env) (s : State) (h : s.ctx.isSome = true) :
    (process_autostart env s).ctx = s.ctx ∧
    (process_autostart env s).events = s.events ∧
    (process_autostart env s).now = s.now ∧
    (process_autostart env s).running = s.running ∧
    (process_autostart env s).flash = s.flash := by
  have hn : ¬ (s.ctx.isNone = true) := by
    cases hc : s.ctx with
    | none => rw [hc] at h; simp at h
    | some c => simp
  unfold process_autostart
  simp only []
  split_ifs with h1 h2
  · exact absurd h2.2 hn
  · exact ⟨rfl, rfl, rfl, rfl, rfl⟩
  · exact ⟨rfl, rfl, rfl, rfl, rfl⟩

theorem process_fault_nonzero (env : Env) (s : State) (code pc : Nat)
    (h : s.ctx.isSome = true) (hc : code ≠ 0) :
    process_fault env s code pc =
      { stop_program (jd_send_event s
          (Event.program_panic (if code = env.panic_reboot then 0 else code) pc)) with
        next_restart := (s.now + SECONDS (if code = env.panic_reboot then 1 else 5)) % U32 } := by
  have hn : ¬ (s.ctx.isNone = true) := by
    cases hc : s.ctx with
    | none => rw [hc] at h; simp at h
    | some c => simp
  unfold process_fault
  rw [if_neg hn, if_pos hc]
  rfl

theorem process_fault_zero (env : Env) (s : State) (pc : Nat) :
    process_fault env s 0 pc = s := by
  unfold process_fault
  by_cases h1 : s.ctx.isNone = true
  · rw [if_pos h1]
  · rw [if_neg h1, if_neg (by simp)]

theorem current_status_stopped (s : State) (h : s.ctx = none) :
    current_status s ≠ Status.READY := by
  intro hc
  rw [current_status_ready_iff, h] at hc
  simp at hc

theorem stop_program_fields (s : State) :
    (stop_program s).ctx = none ∧
    (stop_program s).events =
      s.events ++ [Event.status_code_changed (current_status { s with ctx := none })] ∧
    (stop_program s).now = s.now ∧
    (stop_program s).next_restart = s.next_restart ∧
    (stop_program s).flash = s.flash ∧
    current_status { s with ctx := none } ≠ Status.READY :=
  ⟨rfl, rfl, rfl, rfl, rfl, current_status_stopped _ rfl⟩

/-- C17: for every poll made while a context exists in which the engine reports a nonzero
code C at program counter P: the events of the poll are exactly one program-fault event, with
payload C, P when C is not the reboot-class code and 0, P when it is, followed by the
status-changed event of the stop (a status other than Ready); afterwards no context exists
and next_restart = (now + 5 * 2^20) mod 2^32 for a non-reboot code, (now + 2^20) mod 2^32 for
the reboot-class code.  When the engine reports code 0 the poll emits no event and keeps the
context. -/
theorem poll_reports_fault (env : Env) (s : State) (r : Int) (code pc : Nat)
    (hctx : s.ctx.isSome = true) :
    (code ≠ 0 →
      (∃ st, st ≠ Status.READY ∧
        (devsmgr_process env s r code pc).events =
          s.events ++ [Event.program_panic (if code = env.panic_reboot then 0 else code) pc,
            Event.status_code_changed st]) ∧
      (devsmgr_process env s r code pc).ctx = none ∧
      (devsmgr_process env s r code pc).next_restart =
        (s.now + (if code = env.panic_reboot then 1048576 else 5242880)) % 4294967296) ∧
    (code = 0 →
      (devsmgr_process env s r code pc).events = s.events ∧
      (devsmgr_process env s r code pc).ctx = s.ctx) := by
  obtain ⟨a1, a2, a3, _⟩ := process_readback_frame env s r
  have hctx1 : (process_readback env s r).ctx.isSome = true := by rw [a1]; exact hctx
  obtain ⟨b1, b2, b3, _⟩ := process_autostart_running env (process_readback env s r) hctx1
  have hctx2 : (process_autostart env (process_readback env s r)).ctx.isSome = true := by
    rw [b1]; exact hctx1
  unfold devsmgr_process
  constructor
  · intro hc
    rw [process_fault_nonzero env _ code pc hctx2 hc]
    obtain ⟨c1, c2, _, _, _, c6⟩ := stop_program_fields
      (jd_send_event (process_autostart env (process_readback env s r))
        (Event.program_panic (if code = env.panic_reboot then 0 else code) pc))
    refine ⟨⟨_, c6, ?_⟩, c1, ?_⟩
    · show (stop_program _).events = _
      rw [c2]
      show (_ ++ [_]) ++ [_] = _
      rw [b2, a2, List.append_assoc]
      rfl
    · show (_ + SECONDS _) % U32 = _
      rw [b3, a3]
      by_cases hb : code = env.panic_reboot
      · rw [if_pos hb, if_pos hb]
        rfl
      · rw [if_neg hb, if_neg hb]
        rfl
  · intro hc
    subst hc
    rw [process_fault_zero, b1, b2, a1, a2]
    exact ⟨rfl, rfl⟩

set_option maxRecDepth 100000 in
/-- An instance of C17: the running stored program faults with code 17 at program counter
42, and the same with the reboot-class code 60000. -/
theorem poll_reports_fault_witness :
    stored_state.ctx.isSome = true ∧
    (devsmgr_process demo_env stored_state 0 17 42).events =
      stored_state.events ++
        [Event.program_panic 17 42, Event.status_code_changed Status.SLEEPING] ∧
    (devsmgr_process demo_env stored_state 0 17 42).next_restart = 5242880 ∧
    (devsmgr_process demo_env stored_state 0 60000 42).next_restart = 1048576 ∧
    (devsmgr_process demo_env stored_state 0 0 42).ctx = stored_state.ctx :=
  ⟨by decide, by decide,
   ((poll_reports_fault demo_env stored_state 0 17 42 (by decide)).1 (by decide)).2.2.trans
     (by decide),
   ((poll_reports_fault demo_env stored_state 0 60000 42 (by decide)).1 (by decide)).2.2.trans
     (by decide),
   ((poll_reports_fault demo_env stored_state 0 0 42 (by decide)).2 rfl).2⟩

theorem try_run_frame (env : Env) (s : State) :
    (try_run env s).next_restart = s.next_restart ∧
    (try_run env s).now = s.now ∧
    (try_run env s).flash = s.flash ∧
    ∃ st, (try_run env s).events = s.events ++ [Event.status_code_changed st] := by
  rw [try_run_eq]
  split_ifs
  · obtain ⟨h1, h2, h3, h4⟩ := run_img_frame env s (image s 0 (rd32 s.flash 4)) false
    rw [send_status_next_restart, send_status_now, send_status_events, h1, h2, h3]
    exact ⟨rfl, rfl, h4, _, rfl⟩
  · obtain ⟨h1, h2, h3, h4⟩ := run_img_frame env s devs_empty_program true
    rw [send_status_next_restart, send_status_now, send_status_events, h1, h2, h3]
    exact ⟨rfl, rfl, h4, _, rfl⟩

/-- When the restart timer fires, the deadline moves one sampling period ahead. -/
theorem process_autostart_fired (env : Env) (s : State)
    (h : in_future s.now s.next_restart = false) :
    (process_autostart env s).next_restart = (s.now + SECONDS 8) % U32 := by
  unfold process_autostart jd_should_sample
  rw [h]
  simp only [Bool.false_eq_true, if_false, if_true]
  split_ifs
  · rw [(try_run_frame env _).1]
  · rfl

/-- C18: devsmgr_restart destroys the context and sets next_restart = (now + 50 * 1024) mod
2^32 for every value of now (for now = 2^32 - 1 the sum wraps to 51199).  This delay, MS(50),
is strictly shorter than the delay after a reboot-class fault, SECONDS(1) = 2^20 ticks, which
is strictly shorter than the delay after any other fault, SECONDS(5) = 5 * 2^20 ticks, exactly
five times the short one, which is strictly shorter than the sampling period of the restart
timer in devsmgr_process, SECONDS(8) = 8 * 2^20 ticks. -/
theorem restart_delay_shortest (env : Env) (s : State) :
    (devsmgr_restart s).ctx = none ∧
    (devsmgr_restart s).next_restart = (s.now + 50 * 1024) % 2 ^ 32 ∧
    (s.now = 4294967295 → (devsmgr_restart s).next_restart = 51199) ∧
    (∀ code pc, s.ctx.isSome = true → code ≠ 0 →
      (process_fault env s code pc).next_restart =
        (s.now + (if code = env.panic_reboot then 2 ^ 20 else 5 * 2 ^ 20)) % 2 ^ 32) ∧
    (in_future s.now s.next_restart = false →
      (process_autostart env s).next_restart = (s.now + 8 * 2 ^ 20) % 2 ^ 32) ∧
    50 * 1024 < 2 ^ 20 ∧ 2 ^ 20 < 5 * 2 ^ 20 ∧ 5 * 2 ^ 20 < 8 * 2 ^ 20 ∧
    MS 50 = 50 * 1024 ∧ SECONDS 1 = 2 ^ 20 ∧ SECONDS 5 = 5 * SECONDS 1 ∧
    SECONDS 8 = 8 * 2 ^ 20 := by
  have h2 : (devsmgr_restart s).next_restart = (s.now + 50 * 1024) % 2 ^ 32 := rfl
  refine ⟨rfl, h2, ?_, ?_, ?_, by norm_num, by norm_num, by norm_num, rfl, rfl, rfl, rfl⟩
  · intro hn
    rw [h2, hn]
    norm_num
  · intro code pc hctx hc
    rw [process_fault_nonzero env s code pc hctx hc]
    show (s.now + SECONDS _) % U32 = _
    by_cases hb : code = env.panic_reboot
    · rw [if_pos hb, if_pos hb]
      rfl
    · rw [if_neg hb, if_neg hb]
      rfl
  · intro hf
    rw [process_autostart_fired env s hf]
    rfl

set_option maxRecDepth 100000 in
/-- An instance of C18: restart of the running stored program at tick 0. -/
theorem restart_delay_shortest_witness :
    stored_state.ctx.isSome = true ∧
    (devsmgr_restart stored_state).ctx = none ∧
    (devsmgr_restart stored_state).next_restart = 51200 :=
  ⟨by decide, (restart_delay_shortest demo_env stored_state).1,
   (restart_delay_shortest demo_env stored_state).2.1.trans (by decide)⟩

/-! ## Register writes -/

theorem handle_set_autostart (env : Env) (s : State) (v : Nat) :
    (devsmgr_handle_packet env s (Cmd.set_autostart v)).1 =
      if v % 256 ≠ 0 then { s with autostart := v % 256, next_restart := s.now }
      else { s with autostart := v % 256 } := by
  simp only [devsmgr_handle_packet]
  split_ifs <;> rfl

/-- A deadline equal to an earlier tick is due: the sampling test fires at every tick that is
d ticks later, for 0 < d up to 2^32 - 2^29. -/
theorem deadline_due_after (t d : Nat) (ht : t < U32) (hd0 : 0 < d)
    (hd : d ≤ 4294967296 - 536870912) :
    in_future ((t + d) % U32) t = false := by
  unfold in_future U32 at *
  simp only [beq_eq_false_iff_ne, ne_eq]
  omega

/-- C19: a write of a nonzero byte to the autostart register sets next_restart = now
(whether or not a context exists), a write of zero leaves next_restart unchanged, and in both
cases the write stores the byte and neither creates nor destroys a context, changes the
flash, makes a flash call or emits an event.  After a nonzero write with no context the retry
is due at once: at every later tick (up to 2^32 - 2^29 ticks later) the restart timer of
devsmgr_process fires and the poll calls try_run. -/
theorem autostart_write_schedules_retry (env : Env) (s : State) (v : Nat) :
    (v % 256 ≠ 0 → (devsmgr_handle_packet env s (Cmd.set_autostart v)).1.next_restart = s.now) ∧
    (v % 256 = 0 →
      (devsmgr_handle_packet env s (Cmd.set_autostart v)).1.next_restart = s.next_restart) ∧
    (devsmgr_handle_packet env s (Cmd.set_autostart v)).1.autostart = v % 256 ∧
    (devsmgr_handle_packet env s (Cmd.set_autostart v)).1.ctx = s.ctx ∧
    (devsmgr_handle_packet env s (Cmd.set_autostart v)).1.flash = s.flash ∧
    (devsmgr_handle_packet env s (Cmd.set_autostart v)).1.flash_ops = s.flash_ops ∧
    (devsmgr_handle_packet env s (Cmd.set_autostart v)).1.events = s.events ∧
    (v % 256 ≠ 0 → s.ctx = none → s.now < U32 →
      ∀ d, 0 < d → d ≤ 4294967296 - 536870912 →
        process_autostart env
            { (devsmgr_handle_packet env s (Cmd.set_autostart v)).1 with
              now := (s.now + d) % U32 } =
          try_run env
            { (devsmgr_handle_packet env s (Cmd.set_autostart v)).1 with
              now := (s.now + d) % U32,
              next_restart := ((s.now + d) % U32 + SECONDS 8) % U32 }) := by
  rw [handle_set_autostart]
  by_cases hv : v % 256 ≠ 0
  · rw [if_pos hv]
    refine ⟨fun _ => rfl, fun h => absurd h hv, rfl, rfl, rfl, rfl, rfl, ?_⟩
    intro _ hctx hnow d hd0 hd
    have hdue := deadline_due_after s.now d hnow hd0 hd
    unfold process_autostart jd_should_sample
    simp only []
    rw [hdue]
    simp only [Bool.false_eq_true, if_false, if_true]
    rw [if_pos ⟨hv, by rw [hctx]; rfl⟩]
  · rw [if_neg hv]
    exact ⟨fun h => absurd h hv, fun _ => rfl, rfl, rfl, rfl, rfl, rfl, fun h => absurd h hv⟩

set_option maxRecDepth 100000 in
/-- An instance of C19: at boot (no context, first start due 1.5 s later) a write of 1 to the
autostart register makes the deadline 0; the poll at tick 1 then starts the program, which a
poll at tick 1 without the write does not. -/
theorem autostart_write_schedules_retry_witness :
    boot_state.ctx = none ∧ boot_state.next_restart = 1572864 ∧
    (devsmgr_handle_packet demo_env boot_state (Cmd.set_autostart 1)).1.next_restart = 0 ∧
    (run demo_env boot_state
      [Op.packet (Cmd.set_autostart 1), Op.tick 1, Op.process 0 0 0]).ctx.isSome = true ∧
    (run demo_env boot_state [Op.tick 1, Op.process 0 0 0]).ctx = none :=
  ⟨by decide, by decide,
   ((autostart_write_schedules_retry demo_env boot_state 1).1 (by decide)).trans (by decide),
   by decide, by decide⟩

theorem handle_set_running (env : Env) (s : State) (v : Nat) :
    (devsmgr_handle_packet env s (Cmd.set_running v)).1 =
      if v % 256 ≠ 0 ∧ s.ctx.isNone = true then try_run env { s with running := 0 }
      else if v % 256 = 0 ∧ s.ctx.isSome = true then stop_program { s with running := v % 256 }
      else { s with running := v % 256 } := by
  simp only [devsmgr_handle_packet]
  split_ifs <;> rfl

theorem isNone_of_none {α : Type} (o : Option α) (h : o = none) : o.isNone = true := by
  rw [h]
  rfl

theorem not_isNone_of_isSome {α : Type} (o : Option α) (h : o.isSome = true) :
    ¬ (o.isNone = true) := by
  cases o with
  | none => simp at h
  | some c => simp

/-- C20: a write to the running register.  With a nonzero byte and no context it performs
try_run: with an engine that creates a context for every verified image, a context exists
afterwards and one status event, Ready, is published.  With zero and a context it stops the
program: no context afterwards, next_restart unchanged, one status event published.  When the
written byte already agrees with the presence of a context, the context, the flash and
next_restart are unchanged and no event is emitted. -/
theorem running_write_starts_or_stops (env : Env) (hen : env.engine_ok) (s : State) (v : Nat) :
    (v % 256 ≠ 0 → s.ctx = none →
      (devsmgr_handle_packet env s (Cmd.set_running v)).1 = try_run env { s with running := 0 } ∧
      (devsmgr_handle_packet env s (Cmd.set_running v)).1.ctx.isSome = true ∧
      (devsmgr_handle_packet env s (Cmd.set_running v)).1.events =
        s.events ++ [Event.status_code_changed Status.READY]) ∧
    (v % 256 = 0 → s.ctx.isSome = true →
      (devsmgr_handle_packet env s (Cmd.set_running v)).1.ctx = none ∧
      (devsmgr_handle_packet env s (Cmd.set_running v)).1.next_restart = s.next_restart ∧
      ∃ st, st ≠ Status.READY ∧
        (devsmgr_handle_packet env s (Cmd.set_running v)).1.events =
          s.events ++ [Event.status_code_changed st]) ∧
    ((v % 256 ≠ 0 ↔ s.ctx.isSome = true) →
      (devsmgr_handle_packet env s (Cmd.set_running v)).1.ctx = s.ctx ∧
      (devsmgr_handle_packet env s (Cmd.set_running v)).1.flash = s.flash ∧
      (devsmgr_handle_packet env s (Cmd.set_running v)).1.flash_ops = s.flash_ops ∧
      (devsmgr_handle_packet env s (Cmd.set_running v)).1.next_restart = s.next_restart ∧
      (devsmgr_handle_packet env s (Cmd.set_running v)).1.events = s.events) := by
  rw [handle_set_running]
  refine ⟨?_, ?_, ?_⟩
  · intro hv hctx
    rw [if_pos ⟨hv, isNone_of_none _ hctx⟩]
    have hlive := try_run_live env hen { s with running := 0 }
    refine ⟨rfl, hlive.1, ?_⟩
    have hst := hlive.2
    rw [try_run_eq] at hst ⊢
    split_ifs at hst ⊢
    · rw [send_status_events, (run_img_frame env _ _ _).1]
      rw [current_status_ready_iff, send_status_ctx] at hst
      rw [(current_status_ready_iff _).2 hst]
    · rw [send_status_events, (run_img_frame env _ _ _).1]
      rw [current_status_ready_iff, send_status_ctx] at hst
      rw [(current_status_ready_iff _).2 hst]
  · intro hv hctx
    rw [if_neg (fun h => h.1 hv), if_pos ⟨hv, hctx⟩]
    obtain ⟨c1, c2, _, c4, _, c6⟩ := stop_program_fields { s with running := v % 256 }
    exact ⟨c1, c4, _, c6, c2⟩
  · intro hagree
    rw [if_neg (fun h => not_isNone_of_isSome _ (hagree.1 h.1) h.2),
      if_neg (fun h => (hagree.2 h.2) h.1)]
    exact ⟨rfl, rfl, rfl, rfl, rfl⟩

set_option maxRecDepth 100000 in
/-- An instance of C20: at boot a write of 1 starts the built-in program; over the running
stored program a write of 0 stops it and a write of 1 changes nothing. -/
theorem running_write_starts_or_stops_witness :
    demo_env.engine_ok ∧ boot_state.ctx = none ∧ stored_state.ctx.isSome = true ∧
    (devsmgr_handle_packet demo_env boot_state (Cmd.set_running 1)).1.ctx.isSome = true ∧
    (devsmgr_handle_packet demo_env stored_state (Cmd.set_running 0)).1.ctx = none ∧
    (devsmgr_handle_packet demo_env stored_state (Cmd.set_running 1)).1.events
      = stored_state.events :=
  ⟨demo_env_engine_ok, by decide, by decide,
   ((running_write_starts_or_stops demo_env demo_env_engine_ok boot_state 1).1
      (by decide) (by decide)).2.1,
   ((running_write_starts_or_stops demo_env demo_env_engine_ok stored_state 0).2.1
      (by decide) (by decide)).1,
   ((running_write_starts_or_stops demo_env demo_env_engine_ok stored_state 1).2.2
      (by decide)).2.2.2.2⟩

/-! ## Invariants of all runs -/

theorem inv_deploy_loop (env : Env) (I : State → Prop)
    (hw : ∀ s buf, I s → I (devsmgr_deploy_write env s buf).2) (img : List Nat) :
    ∀ (fuel : Nat) (s : State) (soff : Nat) (r : Int × State), I s →
      deploy_loop env fuel s img soff = some r → I r.2 := by
  intro fuel
  induction fuel with
  | zero =>
    intro s soff r h hr
    unfold deploy_loop at hr
    split_ifs at hr
    rw [← Option.some.inj hr]
    exact h
  | succ n ih =>
    intro s soff r h hr
    unfold deploy_loop at hr
    have h1 := hw s (some ((img.drop soff).take (deploy_chunk_size img.length soff))) h
    generalize devsmgr_deploy_write env s
      (some ((img.drop soff).take (deploy_chunk_size img.length soff))) = dw at hr h1
    obtain ⟨dc, ds⟩ := dw
    simp only [] at hr h1
    split_ifs at hr
    · rw [← Option.some.inj hr]
      exact h1
    · exact ih _ _ r h1 hr
    · rw [← Option.some.inj hr]
      exact h

theorem inv_deploy_finish (env : Env) (I : State → Prop)
    (hw : ∀ s buf, I s → I (devsmgr_deploy_write env s buf).2) (s : State) (h : I s) :
    I (deploy_finish env s).2 := by
  have h1 := hw s none h
  unfold deploy_finish
  generalize devsmgr_deploy_write env s none = dw at h1 ⊢
  obtain ⟨dc, ds⟩ := dw
  simp only [] at h1 ⊢
  split_ifs
  · exact h1
  · split <;> exact h1

theorem inv_deploy_state (env : Env) (I : State → Prop)
    (hs : ∀ s sz, I s → I (devsmgr_deploy_start env s sz).2)
    (hw : ∀ s buf, I s → I (devsmgr_deploy_write env s buf).2)
    (s : State) (img : List Nat) (h : I s) : I (deploy_state env s img) := by
  have h1 := hs s img.length h
  unfold deploy_state devsmgr_deploy
  generalize devsmgr_deploy_start env s img.length = ds at h1 ⊢
  obtain ⟨c0, s0⟩ := ds
  simp only [] at h1 ⊢
  split_ifs
  · exact h1
  · exact h1
  · cases hl : deploy_loop env img.length s0 img 0 with
    | none => exact h
    | some r =>
      have h2 := inv_deploy_loop env I hw img _ _ _ r h1 hl
      obtain ⟨rc, rs⟩ := r
      simp only [] at h2 ⊢
      split_ifs
      · exact h2
      · exact inv_deploy_finish env I hw rs h2

/-- A property that holds after devsmgr_init and is kept by a tick, a poll, a restart, a
deploy_start, a deploy_write and every packet other than the deploy command holds in every
reachable state. -/
theorem inv_reachable (env : Env) (I : State → Prop)
    (hinit : ∀ flash now, I (devsmgr_init flash now))
    (htick : ∀ s t, I s → I { s with now := t % U32 })
    (hproc : ∀ s r code pc, I s → I (devsmgr_process env s r code pc))
    (hrestart : ∀ s, I s → I (devsmgr_restart s))
    (hs : ∀ s sz, I s → I (devsmgr_deploy_start env s sz).2)
    (hw : ∀ s buf, I s → I (devsmgr_deploy_write env s buf).2)
    (hpkt : ∀ s cmd, (∀ sz port, cmd ≠ Cmd.deploy_bytecode sz port) → I s →
      I (devsmgr_handle_packet env s cmd).1)
    (s : State) (h : Reachable env s) : I s := by
  have hstep : ∀ s op, I s → I (step env s op) := by
    intro s op h
    cases op with
    | tick t => rw [step_tick]; exact htick s t h
    | process r code pc => rw [step_process]; exact hproc s r code pc h
    | restart => rw [step_restart]; exact hrestart s h
    | deploy_start sz => rw [step_deploy_start]; exact hs s sz h
    | deploy_write buf => rw [step_deploy_write]; exact hw s buf h
    | deploy img => rw [step_deploy]; exact inv_deploy_state env I hs hw s img h
    | packet cmd =>
      rw [step_packet]
      by_cases hc : ∀ sz port, cmd ≠ Cmd.deploy_bytecode sz port
      · exact hpkt s cmd hc h
      · push_neg at hc
        obtain ⟨sz, port, rfl⟩ := hc
        rw [handle_packet_deploy, deploy_bytecode_state]
        exact hs s sz h
  have hrun : ∀ ops s, I s → I (run env s ops) := by
    intro ops
    induction ops with
    | nil =>
      intro s h
      rw [run_nil]
      exact h
    | cons op ops ih =>
      intro s h
      rw [run_cons]
      exact ih _ (hstep s op h)
  obtain ⟨flash, now, ops, rfl⟩ := h
  exact hrun ops _ (hinit flash now)

/-! ## The running flag mirrors the context -/

theorem run_inv_send_status (s : State) : run_inv (send_status s) := by
  unfold run_inv
  show (if current_status s = Status.READY then 1 else 0) ≠ 0 ↔ s.ctx.isSome = true
  rw [← current_status_ready_iff]
  split_ifs with h <;> simp [h]

theorem run_inv_fields (s t : State) (hr : t.running = s.running)
    (hc : t.ctx.isSome = s.ctx.isSome) (h : run_inv s) : run_inv t := by
  unfold run_inv at *
  rw [hr, hc]
  exact h

theorem run_inv_try_run (env : Env) (s : State) : run_inv (try_run env s) := by
  rw [try_run_eq]
  split_ifs <;> exact run_inv_send_status _

theorem run_inv_stop (s : State) : run_inv (stop_program s) :=
  run_inv_send_status _

theorem run_inv_process (env : Env) (s : State) (r : Int) (code pc : Nat) (h : run_inv s) :
    run_inv (devsmgr_process env s r code pc) := by
  obtain ⟨a1, _, _, _, a5, _⟩ := process_readback_frame env s r
  have h1 : run_inv (process_readback env s r) := run_inv_fields s _ a5 (by rw [a1]) h
  have h2 : run_inv (process_autostart env (process_readback env s r)) := by
    generalize process_readback env s r = m at h1 ⊢
    unfold process_autostart
    simp only []
    split_ifs
    · exact run_inv_try_run env _
    · exact run_inv_fields m _ rfl rfl h1
    · exact run_inv_fields m _ rfl rfl h1
  unfold devsmgr_process
  generalize process_autostart env (process_readback env s r) = m at h2 ⊢
  by_cases hn : m.ctx.isNone = true
  · unfold process_fault
    rw [if_pos hn]
    exact h2
  · by_cases hc : code = 0
    · subst hc
      rw [process_fault_zero]
      exact h2
    · have hsome : m.ctx.isSome = true := by
        cases hm : m.ctx with
        | none => rw [hm] at hn; simp at hn
        | some c => rfl
      rw [process_fault_nonzero env m code pc hsome hc]
      exact run_inv_fields (stop_program _) _ rfl rfl (run_inv_stop _)

theorem run_inv_deploy_start (env : Env) (s : State) (sz : Nat) (h : run_inv s) :
    run_inv (devsmgr_deploy_start env s sz).2 := by
  unfold devsmgr_deploy_start
  split_ifs
  · exact h
  · exact run_inv_fields (stop_program s) _ rfl rfl (run_inv_stop s)
  · exact run_inv_send_status _

theorem run_inv_deploy_write (env : Env) (s : State) (buf : Option (List Nat))
    (h : run_inv s) : run_inv (devsmgr_deploy_write env s buf).2 := by
  unfold devsmgr_deploy_write
  split_ifs
  · exact h
  · cases buf with
    | none =>
      simp only []
      split_ifs
      · exact h
      · exact run_inv_fields (stop_program _) _ rfl rfl (run_inv_stop _)
    | some data =>
      simp only []
      split_ifs
      · exact run_inv_fields s _ rfl rfl h
      · exact run_inv_fields s _ rfl rfl h
      · exact run_inv_fields s _ rfl rfl h

theorem run_inv_packet (env : Env) (s : State) (cmd : Cmd)
    (hc : ∀ sz port, cmd ≠ Cmd.deploy_bytecode sz port) (h : run_inv s) :
    run_inv (devsmgr_handle_packet env s cmd).1 := by
  cases cmd with
  | deploy_bytecode sz port => exact absurd rfl (hc sz port)
  | read_bytecode r =>
    simp only [devsmgr_handle_packet]
    split_ifs
    · exact run_inv_fields s _ rfl rfl h
    · exact h
  | set_running v =>
    rw [handle_set_running]
    split_ifs with h1 h2
    · exact run_inv_try_run env _
    · exact run_inv_stop _
    · unfold run_inv
      show v % 256 ≠ 0 ↔ s.ctx.isSome = true
      constructor
      · intro hv
        by_contra hn
        apply h1
        refine ⟨hv, ?_⟩
        cases hs : s.ctx with
        | none => rfl
        | some c => rw [hs] at hn; simp at hn
      · intro hs hv
        exact h2 ⟨hv, hs⟩
  | set_autostart v =>
    rw [handle_set_autostart]
    split_ifs
    · exact run_inv_fields s _ rfl rfl h
    · exact run_inv_fields s _ rfl rfl h
  | set_logging v =>
    refine run_inv_fields s _ ?_ ?_ h
    · cases hs : s.ctx <;> simp [devsmgr_handle_packet, hs]
    · cases hs : s.ctx <;> simp [devsmgr_handle_packet, hs]
  | get_program_size => exact h
  | get_program_hash => exact h
  | get_program_sha256 => exact h
  | get_status_code => exact h
  | get_runtime_version => exact h
  | other => exact h

/-- C14: in every state reachable from devsmgr_init by any sequence of calls (polls,
restarts, deploy_start, deploy_write chunks and finalize, the bulk deploy, ticks, and every
packet, among them writes of any byte value to the running, autostart and logging
registers), the running flag is nonzero if and only if a context exists, that is if and only
if the status is Ready. -/
theorem running_flag_mirrors_context (env : Env) (s : State) (h : Reachable env s) :
    (s.running ≠ 0 ↔ s.ctx.isSome = true) ∧
    (s.running ≠ 0 ↔ current_status s = Status.READY) := by
  have hinv : run_inv s := by
    apply inv_reachable env run_inv _ _ _ _ _ _ _ s h
    · intro flash now
      unfold run_inv devsmgr_init
      simp
    · intro s t hs
      exact run_inv_fields s _ rfl rfl hs
    · exact run_inv_process env
    · intro s _
      exact run_inv_fields (stop_program s) _ rfl rfl (run_inv_stop s)
    · exact run_inv_deploy_start env
    · exact run_inv_deploy_write env
    · exact run_inv_packet env
  unfold run_inv at hinv
  exact ⟨hinv, by rw [current_status_ready_iff]; exact hinv⟩

set_option maxRecDepth 100000 in
/-- An instance of C14: after a bulk deploy and a write of 1 to the running register the
flag is 1, and it agrees with the context and with the status. -/
theorem running_flag_mirrors_context_witness :
    stored_state.running = 1 ∧
    (stored_state.running ≠ 0 ↔ stored_state.ctx.isSome = true) ∧
    (stored_state.running ≠ 0 ↔ current_status stored_state = Status.READY) :=
  ⟨by decide,
   running_flag_mirrors_context demo_env stored_state
     ⟨fun _ => 0, 0, [Op.deploy pattern64, Op.packet (Cmd.set_running 1)], rfl⟩⟩

/-! ## A context built from flash and the stored image -/

theorem ctx_inv_none (s : State) (h : s.ctx = none) : ctx_inv s := by
  intro c hc
  rw [h] at hc
  cases hc

theorem devs_header_flash (s t : State) (h : t.flash = s.flash) :
    devs_header t = devs_header s :=
  devs_header_congr t s (fun a _ => by rw [h])

theorem image_flash (s t : State) (h : t.flash = s.flash) (off len : Nat) :
    image t off len = image s off len := by
  unfold image
  rw [h]

theorem devs_header_valid (s : State)
    (h : rd32 s.flash 0 = DEVSMGR_PROG_MAGIC0 ∧ rd32 s.flash 8 = DEVSMGR_PROG_MAGIC1) :
    devs_header s = some (program_header s) := by
  unfold devs_header
  simp only []
  exact if_pos h

theorem ctx_inv_of (s t : State) (hf : t.flash = s.flash)
    (hc : ∀ c, t.ctx = some c → c.builtin = false →
      ∃ d, s.ctx = some d ∧ d.builtin = false ∧ d.img = c.img)
    (h : ctx_inv s) : ctx_inv t := by
  intro c h1 h2
  obtain ⟨d, hd1, hd2, hd3⟩ := hc c h1 h2
  obtain ⟨hd, e1, e2⟩ := h d hd1 hd2
  refine ⟨hd, ?_, ?_⟩
  · rw [devs_header_flash s t hf]
    exact e1
  · rw [image_flash s t hf, ← hd3]
    exact e2

theorem ctx_inv_same (s t : State) (hf : t.flash = s.flash) (hc : t.ctx = s.ctx)
    (h : ctx_inv s) : ctx_inv t :=
  ctx_inv_of s t hf (fun c h1 h2 => ⟨c, by rw [← hc]; exact h1, h2, rfl⟩) h

/-- A context that try_run builds from flash is built from the image the valid header
declares; flash is not touched. -/
theorem ctx_inv_try_run (env : Env) (s : State) : ctx_inv (try_run env s) := by
  have hfl : (try_run env s).flash = s.flash := (try_run_store env s).1
  intro c h1 h2
  have himg : ∀ n, image (try_run env s) 0 n = image s 0 n :=
    fun n => image_flash s _ hfl 0 n
  rw [devs_header_flash s _ hfl]
  simp only [himg]
  rw [try_run_eq] at h1
  by_cases hc : (rd32 s.flash 0 = DEVSMGR_PROG_MAGIC0 ∧ rd32 s.flash 8 = DEVSMGR_PROG_MAGIC1)
      ∧ rd32 s.flash 4 ≠ 0 ∧ env.devs_verify (image s 0 (rd32 s.flash 4)) = 0
  · rw [if_pos hc, send_status_ctx] at h1
    refine ⟨program_header s, devs_header_valid s hc.1, ?_⟩
    unfold run_img at h1
    split_ifs at h1
    simp only [Option.some.injEq] at h1
    rw [← h1]
    rfl
  · rw [if_neg hc, send_status_ctx] at h1
    unfold run_img at h1
    split_ifs at h1
    simp only [Option.some.injEq] at h1
    rw [← h1] at h2
    cases h2

theorem ctx_inv_process (env : Env) (s : State) (r : Int) (code pc : Nat) (h : ctx_inv s) :
    ctx_inv (devsmgr_process env s r code pc) := by
  have h1 : ctx_inv (process_readback env s r) :=
    ctx_inv_same s _ (process_readback_store env s r).1 (process_readback_frame env s r).1 h
  have h2 : ctx_inv (process_autostart env (process_readback env s r)) := by
    generalize process_readback env s r = m at h1 ⊢
    unfold process_autostart
    simp only []
    split_ifs
    · exact ctx_inv_try_run env _
    · exact ctx_inv_same m _ rfl rfl h1
    · exact ctx_inv_same m _ rfl rfl h1
  unfold devsmgr_process
  generalize process_autostart env (process_readback env s r) = m at h2 ⊢
  by_cases hn : m.ctx.isNone = true
  · unfold process_fault
    rw [if_pos hn]
    exact h2
  · by_cases hc : code = 0
    · subst hc
      rw [process_fault_zero]
      exact h2
    · have hsome : m.ctx.isSome = true := by
        cases hm : m.ctx with
        | none => rw [hm] at hn; simp at hn
        | some c => rfl
      rw [process_fault_nonzero env m code pc hsome hc]
      exact ctx_inv_none _ rfl

theorem deploy_start_same_or_stopped (env : Env) (s : State) (sz : Nat) :
    (devsmgr_deploy_start env s sz).2 = s ∨ (devsmgr_deploy_start env s sz).2.ctx = none := by
  rcases deploy_start_result env s sz with hok | hrej
  · right
    exact deploy_start_ctx env s sz hok
  · left
    exact deploy_start_reject_state env s sz (by rw [hrej]; decide)

theorem ctx_inv_deploy_start (env : Env) (s : State) (sz : Nat) (h : ctx_inv s) :
    ctx_inv (devsmgr_deploy_start env s sz).2 := by
  rcases deploy_start_same_or_stopped env s sz with h1 | h1
  · rw [h1]
    exact h
  · exact ctx_inv_none _ h1

/-- No call of devsmgr_deploy_write creates a context: it keeps the handle or clears it. -/
theorem deploy_write_ctx (env : Env) (s : State) (buf : Option (List Nat)) :
    (devsmgr_deploy_write env s buf).2.ctx = s.ctx ∨
    (devsmgr_deploy_write env s buf).2.ctx = none := by
  by_cases hw : s.write_offset = 0
  · rw [deploy_write_idle env s buf hw]
    left; rfl
  · cases buf with
    | none =>
      by_cases he : s.write_offset = ((program_header s).size + HEADER_SIZE) % U32
      · rw [deploy_write_finalize_accept env s hw he]
        right; rfl
      · rw [deploy_write_finalize_reject env s hw he]
        left; rfl
    | some data =>
      by_cases hc : data.length &&& (DEVSMGR_ALIGN - 1) ≠ 0
        ∨ (s.write_offset + data.length) % U32 > ((program_header s).size + HEADER_SIZE) % U32
        ∨ data.length ≥ env.flash_page_size
      · rw [deploy_write_chunk_reject env s data hw hc]
        left; rfl
      · rw [deploy_write_chunk_accept env s data hw hc]
        left
        split_ifs <;> rfl

/-- While a context built from flash is alive, a call of devsmgr_deploy_write that does not
destroy it leaves every flash byte as it was: only the empty chunk is accepted. -/
theorem deploy_write_alive (env : Env) (hwf : env.wf) (s : State) (buf : Option (List Nat))
    (hs : session_inv env s) (hi : ctx_inv s) (c : Ctx)
    (h1 : (devsmgr_deploy_write env s buf).2.ctx = some c) (h2 : c.builtin = false) :
    (devsmgr_deploy_write env s buf).2.flash = s.flash := by
  by_cases hw : s.write_offset = 0
  · rw [deploy_write_idle env s buf hw]
  · have hctx : s.ctx = some c := by
      rcases deploy_write_ctx env s buf with h | h
      · rw [← h]; exact h1
      · rw [h] at h1; cases h1
    obtain ⟨hd, hhd, _⟩ := hi c hctx h2
    have hend : s.write_offset = endp s ∧ s.write_offset < env.max_program_size := by
      rcases hs with h0 | ⟨_, hlt, _, _, h5⟩
      · exact absurd h0 hw
      · exact ⟨h5 (by rw [hhd]; simp), hlt⟩
    cases buf with
    | none =>
      rw [(finalize_accept_fields env s hw hend.1).2.1] at h1
      cases h1
    | some data =>
      rcases deploy_write_result env s (some data) with hok | hrej
      · have hcond := chunk_accept_cond env s data hw hok
        have hU := hwf.2.2.2
        have hnw : s.write_offset + data.length < U32 := by omega
        rw [Nat.mod_eq_of_lt hnw] at hcond
        have hlen : data.length = 0 := by omega
        have hnil : data = [] := List.length_eq_zero.1 hlen
        subst hnil
        rw [(chunk_accept_fields env (wf_page_ok env hwf) s [] hw hok hnw).2.1]
        funext a
        rw [program_bytes_out _ _ _ _ (by simp; omega)]
        simp
      · have hc : data.length &&& (DEVSMGR_ALIGN - 1) ≠ 0
            ∨ (s.write_offset + data.length) % U32
                > ((program_header s).size + HEADER_SIZE) % U32
            ∨ data.length ≥ env.flash_page_size := by
          by_contra hc
          rw [deploy_write_chunk_accept env s data hw hc] at hrej
          simp at hrej
        rw [deploy_write_chunk_reject env s data hw hc]

theorem ctx_inv_deploy_write (env : Env) (hwf : env.wf) (s : State) (buf : Option (List Nat))
    (hs : session_inv env s) (hi : ctx_inv s) :
    ctx_inv (devsmgr_deploy_write env s buf).2 := by
  intro c h1 h2
  have hfl := deploy_write_alive env hwf s buf hs hi c h1 h2
  have himg : ∀ n, image (devsmgr_deploy_write env s buf).2 0 n = image s 0 n :=
    fun n => image_flash s _ hfl 0 n
  rw [devs_header_flash s _ hfl]
  simp only [himg]
  rcases deploy_write_ctx env s buf with h | h
  · rw [h] at h1
    exact hi c h1 h2
  · rw [h] at h1
    cases h1

theorem handle_set_logging_frame (env : Env) (s : State) (v : Nat) :
    (devsmgr_handle_packet env s (Cmd.set_logging v)).1.flash = s.flash ∧
    ∀ c, (devsmgr_handle_packet env s (Cmd.set_logging v)).1.ctx = some c →
      ∃ d, s.ctx = some d ∧ d.builtin = c.builtin ∧ d.img = c.img := by
  cases hs : s.ctx with
  | none =>
    simp [devsmgr_handle_packet, hs]
  | some d =>
    simp [devsmgr_handle_packet, hs]

theorem ctx_inv_packet (env : Env) (s : State) (cmd : Cmd)
    (hc : ∀ sz port, cmd ≠ Cmd.deploy_bytecode sz port) (h : ctx_inv s) :
    ctx_inv (devsmgr_handle_packet env s cmd).1 := by
  cases cmd with
  | deploy_bytecode sz port => exact absurd rfl (hc sz port)
  | read_bytecode r =>
    simp only [devsmgr_handle_packet]
    split_ifs
    · exact ctx_inv_same s _ rfl rfl h
    · exact h
  | set_running v =>
    rw [handle_set_running]
    split_ifs
    · exact ctx_inv_try_run env _
    · exact ctx_inv_none _ rfl
    · exact ctx_inv_same s _ rfl rfl h
  | set_autostart v =>
    rw [handle_set_autostart]
    split_ifs
    · exact ctx_inv_same s _ rfl rfl h
    · exact ctx_inv_same s _ rfl rfl h
  | set_logging v =>
    obtain ⟨hf, hx⟩ := handle_set_logging_frame env s v
    refine ctx_inv_of s _ hf ?_ h
    intro c h1 h2
    obtain ⟨d, e1, e2, e3⟩ := hx c h1
    exact ⟨d, e1, by rw [e2]; exact h2, e3⟩
  | get_program_size => exact h
  | get_program_hash => exact h
  | get_program_sha256 => exact h
  | get_status_code => exact h
  | get_runtime_version => exact h
  | other => exact h

/-- In every reachable state the session invariant holds and a context built from flash has
a valid header and the image it was built from still in flash. -/
theorem reachable_ctx_inv (env : Env) (hwf : env.wf) (s : State) (h : Reachable env s) :
    session_inv env s ∧ ctx_inv s := by
  apply inv_reachable env (fun s => session_inv env s ∧ ctx_inv s) _ _ _ _ _ _ _ s h
  · intro flash now
    exact ⟨Or.inl rfl, ctx_inv_none _ rfl⟩
  · intro s t hs
    exact ⟨session_inv_same_store env s _ ⟨rfl, rfl, rfl⟩ hs.1, ctx_inv_same s _ rfl rfl hs.2⟩
  · intro s r code pc hs
    exact ⟨session_inv_same_store env s _ (process_store env s r code pc) hs.1,
      ctx_inv_process env s r code pc hs.2⟩
  · intro s hs
    exact ⟨session_inv_same_store env s _ (restart_store s) hs.1, ctx_inv_none _ rfl⟩
  · intro s sz hs
    exact ⟨session_inv_deploy_start env hwf s sz hs.1, ctx_inv_deploy_start env s sz hs.2⟩
  · intro s buf hs
    exact ⟨session_inv_deploy_write env hwf s buf hs.1,
      ctx_inv_deploy_write env hwf s buf hs.1 hs.2⟩
  · intro s cmd hc hs
    refine ⟨session_inv_same_store env s _ (packet_store env s cmd ?_) hs.1,
      ctx_inv_packet env s cmd hc hs.2⟩
    intro sz port he
    exact absurd he (hc sz port)

/-- One call that ends with a context built from flash has not changed any flash byte. -/
theorem step_alive_flash (env : Env) (hwf : env.wf) (s : State)
    (hs : session_inv env s) (hi : ctx_inv s) (op : Op) (c : Ctx)
    (h1 : (step env s op).ctx = some c) (h2 : c.builtin = false) :
    (step env s op).flash = s.flash := by
  cases op with
  | tick t => rw [step_tick]
  | process r code pc => rw [step_process]; exact (process_store env s r code pc).1
  | restart => rw [step_restart]; exact (restart_store s).1
  | deploy_start sz =>
    rw [step_deploy_start] at h1 ⊢
    rcases deploy_start_same_or_stopped env s sz with h | h
    · rw [h]
    · rw [h] at h1
      cases h1
  | deploy_write buf =>
    rw [step_deploy_write] at h1 ⊢
    exact deploy_write_alive env hwf s buf hs hi c h1 h2
  | deploy img =>
    rw [step_deploy] at h1 ⊢
    have hI : (session_inv env (deploy_state env s img) ∧ ctx_inv (deploy_state env s img)) ∧
        ∀ c, (deploy_state env s img).ctx = some c → c.builtin = false →
          (deploy_state env s img).flash = s.flash := by
      apply inv_deploy_state env
        (fun t => (session_inv env t ∧ ctx_inv t) ∧
          ∀ c, t.ctx = some c → c.builtin = false → t.flash = s.flash) _ _ s img
        ⟨⟨hs, hi⟩, fun _ _ _ => rfl⟩
      · intro t sz ht
        refine ⟨⟨session_inv_deploy_start env hwf t sz ht.1.1,
          ctx_inv_deploy_start env t sz ht.1.2⟩, ?_⟩
        intro d e1 e2
        rcases deploy_start_same_or_stopped env t sz with h | h
        · rw [h] at e1 ⊢
          exact ht.2 d e1 e2
        · rw [h] at e1
          cases e1
      · intro t buf ht
        refine ⟨⟨session_inv_deploy_write env hwf t buf ht.1.1,
          ctx_inv_deploy_write env hwf t buf ht.1.1 ht.1.2⟩, ?_⟩
        intro d e1 e2
        rw [deploy_write_alive env hwf t buf ht.1.1 ht.1.2 d e1 e2]
        rcases deploy_write_ctx env t buf with h | h
        · rw [h] at e1
          exact ht.2 d e1 e2
        · rw [h] at e1
          cases e1
    exact hI.2 c h1 h2
  | packet cmd =>
    rw [step_packet] at h1 ⊢
    by_cases hd : ∃ sz port, cmd = Cmd.deploy_bytecode sz port
    · obtain ⟨sz, port, rfl⟩ := hd
      rw [handle_packet_deploy, deploy_bytecode_state] at h1 ⊢
      rcases deploy_start_same_or_stopped env s sz with h | h
      · rw [h]
      · rw [h] at h1
        cases h1
    · refine (packet_store env s cmd ?_).1
      intro sz port he
      exact absurd ⟨sz, port, he⟩ hd

/-- C16: in every reachable state a context built from the flash image (not from the
built-in empty program) comes with a valid header, and the image the header declares is
still, byte for byte, the image the context was built from.  An accepted deploy_start applies
its erase to the state stop_program leaves, in which no context exists.  And every call
(of any kind, with any arguments) after which a context built from flash exists has left
every flash byte as it was. -/
theorem flash_context_image_unchanged (env : Env) (hwf : env.wf) (s : State)
    (h : Reachable env s) :
    (∀ c, s.ctx = some c → c.builtin = false →
      ∃ hd, devs_header s = some hd ∧ c.img = image s 0 hd.size) ∧
    (∀ sz, (devsmgr_deploy_start env s sz).1 = 0 →
      (stop_program s).ctx = none ∧
      (devsmgr_deploy_start env s sz).2 =
        if sz = 0 then flash_erase env (stop_program s) 0
        else send_status { flash_program (flash_erase env (stop_program s) 0) 0
                (le32 DEVSMGR_PROG_MAGIC0 ++ le32 sz) with write_offset := HEADER_SIZE }) ∧
    (∀ op c, (step env s op).ctx = some c → c.builtin = false →
      (step env s op).flash = s.flash) := by
  obtain ⟨hs, hi⟩ := reachable_ctx_inv env hwf s h
  refine ⟨hi, ?_, ?_⟩
  · intro sz hok
    refine ⟨rfl, ?_⟩
    rw [deploy_start_accept_state env s sz ((deploy_start_ok_iff env s sz).1 hok)]
    split_ifs <;> rfl
  · intro op c h1 h2
    exact step_alive_flash env hwf s hs hi op c h1 h2

set_option maxRecDepth 100000 in
/-- An instance of C16: the context started after the bulk deploy of pattern64 is built from
flash, the header is valid and the stored image is pattern64; an empty chunk written while
it runs leaves flash as it was. -/
theorem flash_context_image_unchanged_witness :
    demo_env.wf ∧
    stored_state.ctx = some { img := pattern64, builtin := false, logging := 1 } ∧
    (∃ hd, devs_header stored_state = some hd ∧ pattern64 = image stored_state 0 hd.size) ∧
    (step demo_env stored_state (Op.deploy_write (some []))).flash = stored_state.flash :=
  have h := flash_context_image_unchanged demo_env demo_env_wf stored_state
    ⟨fun _ => 0, 0, [Op.deploy pattern64, Op.packet (Cmd.set_running 1)], rfl⟩
  ⟨demo_env_wf, by decide,
   h.1 { img := pattern64, builtin := false, logging := 1 } (by decide) rfl,
   h.2.2 (Op.deploy_write (some [])) { img := pattern64, builtin := false, logging := 1 }
     (by decide) rfl⟩

/-! ## The header during and after a session -/

theorem header_inv_same (s t : State) (hf : t.flash = s.flash)
    (hw : t.write_offset = s.write_offset) (h : header_inv s) : header_inv t := by
  unfold header_inv committed_tail endp image at *
  rw [hf, hw]
  exact h

theorem header_inv_same_store (s t : State) (hst : same_store s t) (h : header_inv s) :
    header_inv t :=
  header_inv_same s t hst.1 hst.2.1 h

/-- After an accepted deploy_start(0) the size field reads as erased, so the declared end
wraps to 127. -/
theorem deploy_start_zero_endp (env : Env) (hP : 128 ≤ env.flash_page_size) (s : State)
    (hok : (devsmgr_deploy_start env s 0).1 = 0) :
    rd32 (devsmgr_deploy_start env s 0).2.flash 4 = 4294967295 ∧
    endp (devsmgr_deploy_start env s 0).2 = 127 := by
  have h4 : rd32 (devsmgr_deploy_start env s 0).2.flash 4 = 4294967295 := by
    rw [deploy_start_flash_zero env s hok]
    apply rd32_erased
    intro a h1 h2
    exact erase_page_in _ _ _ _ (by omega) (by omega)
  refine ⟨h4, ?_⟩
  unfold endp
  rw [h4]
  norm_num [HEADER_SIZE, U32]

theorem deploy_start_tail_erased (env : Env) (hP : 128 ≤ env.flash_page_size) (s : State)
    (sz : Nat) (hok : (devsmgr_deploy_start env s sz).1 = 0) (hz : sz ≠ 0) :
    rd32 (devsmgr_deploy_start env s sz).2.flash 0 = DEVSMGR_PROG_MAGIC0 ∧
    erased (devsmgr_deploy_start env s sz).2.flash 8 128 := by
  have hlt := deploy_start_accept_lt env s sz hok
  have hf := hdr8_flash env.flash_page_size s.flash sz (by omega) hlt
  rw [deploy_start_flash_nonzero env s sz hok hz]
  refine ⟨hf.1, ?_⟩
  intro a h1 h2
  rw [hf.2.2 a h1]
  exact erase_page_in _ _ _ _ (by omega) (by omega)

theorem header_inv_deploy_start (env : Env) (hwf : env.wf) (s : State) (sz : Nat)
    (h : header_inv s) : header_inv (devsmgr_deploy_start env s sz).2 := by
  have hP : 128 ≤ env.flash_page_size := hwf.2.1
  rcases deploy_start_result env s sz with hok | hrej
  · by_cases hz : sz = 0
    · subst hz
      right; left
      rw [(deploy_start_zero_endp env hP s hok).2]
      decide
    · right; right
      obtain ⟨h0, he⟩ := deploy_start_tail_erased env hP s sz hok hz
      exact ⟨h0, Or.inl he⟩
  · rw [deploy_start_reject_state env s sz (by rw [hrej]; decide)]
    exact h

/-- A chunk accepted when write_offset already equals the declared end is the empty chunk:
flash and write_offset stay as they are. -/
theorem chunk_at_end (env : Env) (hwf : env.wf) (s : State) (data : List Nat)
    (hw : s.write_offset ≠ 0) (hlt : s.write_offset < env.max_program_size)
    (hend : s.write_offset = endp s)
    (hok : (devsmgr_deploy_write env s (some data)).1 = 0) :
    (devsmgr_deploy_write env s (some data)).2.flash = s.flash ∧
    (devsmgr_deploy_write env s (some data)).2.write_offset = s.write_offset := by
  have hcond := chunk_accept_cond env s data hw hok
  have hU := hwf.2.2.2
  have hnw : s.write_offset + data.length < U32 := by omega
  rw [Nat.mod_eq_of_lt hnw] at hcond
  have hlen : data.length = 0 := by omega
  have hnil : data = [] := List.length_eq_zero.1 hlen
  subst hnil
  obtain ⟨f1, f2, _⟩ := chunk_accept_fields env (wf_page_ok env hwf) s [] hw hok hnw
  refine ⟨?_, by rw [f1]; rfl⟩
  rw [f2]
  funext a
  rw [program_bytes_out _ _ _ _ (by simp; omega)]
  simp

theorem deploy_write_chunk_rejected (env : Env) (s : State) (data : List Nat)
    (hw : s.write_offset ≠ 0) (hrej : (devsmgr_deploy_write env s (some data)).1 = -1) :
    devsmgr_deploy_write env s (some data) = (-1, { s with write_offset := 0 }) := by
  have hc : data.length &&& (DEVSMGR_ALIGN - 1) ≠ 0
      ∨ (s.write_offset + data.length) % U32
          > ((program_header s).size + HEADER_SIZE) % U32
      ∨ data.length ≥ env.flash_page_size := by
    by_contra hc
    rw [deploy_write_chunk_accept env s data hw hc] at hrej
    simp at hrej
  exact deploy_write_chunk_reject env s data hw hc

/-- The flash after an accepted finalize, with the header tail erased or already committed:
the tail holds magic1, the hash and the padding, and nothing else changes. -/
theorem finalize_tail (s : State) (f : Nat → Nat)
    (hf : f = program_bytes s.flash 8 (finalize_bytes (jd_hash_fnv1a (image s 0 (rd32 s.flash 4)))))
    (h : erased s.flash 8 128 ∨ committed_tail s) :
    (∀ a, 8 ≤ a → a < 128 →
      f a = (finalize_bytes (jd_hash_fnv1a (image s 0 (rd32 s.flash 4)))).getD (a - 8) 255) ∧
    (∀ a, a < 8 ∨ 128 ≤ a → f a = s.flash a) := by
  subst hf
  constructor
  · intro a h1 h2
    rcases h with he | hc
    · exact program_bytes_erased _ 8 _ a h1 (by rw [finalize_bytes_length]; omega)
        (he a h1 h2) (finalize_getD_lt _ _)
    · unfold program_bytes
      rw [if_pos ⟨h1, by rw [finalize_bytes_length]; omega⟩, hc a h1 h2, Nat.and_self]
  · intro a ha
    exact program_bytes_out _ _ _ _ (by rw [finalize_bytes_length]; omega)

theorem header_inv_deploy_write (env : Env) (hwf : env.wf) (s : State)
    (buf : Option (List Nat)) (hs : session_inv env s) (h : header_inv s) :
    header_inv (devsmgr_deploy_write env s buf).2 := by
  by_cases hw : s.write_offset = 0
  · rw [deploy_write_idle env s buf hw]
    exact h
  · rcases hs with h0 | ⟨g1, g2, _, _, _⟩
    · exact absurd h0 hw
    cases buf with
    | some data =>
      rcases deploy_write_result env s (some data) with hok | hrej
      · have hfl : ∀ a, a < 128 →
            (devsmgr_deploy_write env s (some data)).2.flash a = s.flash a :=
          fun a ha => chunk_header_flash env hwf s data (Or.inr ⟨g1, g2, by assumption,
            by assumption, by assumption⟩) a ha
        have hend : endp (devsmgr_deploy_write env s (some data)).2 = endp s :=
          endp_congr _ _ (fun a ha => hfl a (by omega))
        rcases h with h0 | h1 | ⟨hm, h2⟩
        · exact absurd h0 hw
        · right; left
          rw [hend]
          exact h1
        · rcases h2 with he | ⟨hc, hwe⟩
          · right; right
            refine ⟨?_, Or.inl ?_⟩
            · rw [rd32_congr _ s.flash 0 (fun a _ h2 => hfl a (by omega))]
              exact hm
            · intro a h1 h2
              rw [hfl a h2]
              exact he a h1 h2
          · obtain ⟨e1, e2⟩ := chunk_at_end env hwf s data hw g2 hwe hok
            exact header_inv_same s _ e1 e2 (Or.inr (Or.inr ⟨hm, Or.inr ⟨hc, hwe⟩⟩))
      · rw [deploy_write_chunk_rejected env s data hw hrej]
        left; rfl
    | none =>
      by_cases he : s.write_offset = endp s
      · obtain ⟨f1, f2⟩ := finalize_accept_flash env s hw he
        rcases h with h0 | h1 | ⟨hm, h2⟩
        · exact absurd h0 hw
        · unfold HEADER_SIZE at g1 h1
          omega
        · have h3 : erased s.flash 8 128 ∨ committed_tail s := by
            rcases h2 with h2 | h2
            · exact Or.inl h2
            · exact Or.inr h2.1
          obtain ⟨t1, t2⟩ := finalize_tail s _ f1 h3
          have hw4 : rd32 (devsmgr_deploy_write env s none).2.flash 4 = rd32 s.flash 4 :=
            rd32_congr _ _ 4 (fun a _ h2 => t2 a (by omega))
          have himg : image (devsmgr_deploy_write env s none).2 0 (rd32 s.flash 4)
              = image s 0 (rd32 s.flash 4) :=
            image_congr s _ 0 _ (fun a ha => t2 a (Or.inr ha))
          right; right
          refine ⟨?_, Or.inr ⟨?_, ?_⟩⟩
          · rw [rd32_congr _ s.flash 0 (fun a _ h2 => t2 a (by omega))]
            exact hm
          · intro a h1 h2
            rw [hw4, himg]
            exact t1 a h1 h2
          · unfold endp
            rw [hw4, f2]
            exact he
      · rw [deploy_write_finalize_reject env s hw he]
        exact h

/-- In every reachable state the session invariant and the header invariant hold. -/
theorem reachable_header_inv (env : Env) (hwf : env.wf) (s : State) (h : Reachable env s) :
    session_inv env s ∧ header_inv s := by
  apply inv_reachable env (fun s => session_inv env s ∧ header_inv s) _ _ _ _ _ _ _ s h
  · intro flash now
    exact ⟨Or.inl rfl, Or.inl rfl⟩
  · intro s t hs
    exact ⟨session_inv_same_store env s _ ⟨rfl, rfl, rfl⟩ hs.1,
      header_inv_same s _ rfl rfl hs.2⟩
  · intro s r code pc hs
    exact ⟨session_inv_same_store env s _ (process_store env s r code pc) hs.1,
      header_inv_same_store s _ (process_store env s r code pc) hs.2⟩
  · intro s hs
    exact ⟨session_inv_same_store env s _ (restart_store s) hs.1,
      header_inv_same_store s _ (restart_store s) hs.2⟩
  · intro s sz hs
    exact ⟨session_inv_deploy_start env hwf s sz hs.1, header_inv_deploy_start env hwf s sz hs.2⟩
  · intro s buf hs
    exact ⟨session_inv_deploy_write env hwf s buf hs.1,
      header_inv_deploy_write env hwf s buf hs.1 hs.2⟩
  · intro s cmd hc hs
    have hst : same_store s (devsmgr_handle_packet env s cmd).1 :=
      packet_store env s cmd (fun sz port he => absurd he (hc sz port))
    exact ⟨session_inv_same_store env s _ hst hs.1, header_inv_same_store s _ hst hs.2⟩

/-! ## The finalize of a complete session -/

theorem tail_words (f : Nat → Nat) (h : Nat) (hh : h < U32)
    (ht : ∀ a, 8 ≤ a → a < 128 → f a = (finalize_bytes h).getD (a - 8) 255) :
    rd32 f 8 = DEVSMGR_PROG_MAGIC1 ∧ rd32 f 12 = h := by
  constructor
  · apply rd32_of_bytes _ _ _ (by unfold DEVSMGR_PROG_MAGIC1 U32; omega)
    · rw [ht 8 (by omega) (by omega), finalize_getD _ _ (by omega)]; simp
    · rw [ht 9 (by omega) (by omega), finalize_getD _ _ (by omega)]; simp
    · rw [ht 10 (by omega) (by omega), finalize_getD _ _ (by omega)]; simp
    · rw [ht 11 (by omega) (by omega), finalize_getD _ _ (by omega)]; simp
  · apply rd32_of_bytes _ _ _ hh
    · rw [ht 12 (by omega) (by omega), finalize_getD _ _ (by omega)]; simp
    · rw [ht 13 (by omega) (by omega), finalize_getD _ _ (by omega)]; simp
    · rw [ht 14 (by omega) (by omega), finalize_getD _ _ (by omega)]; simp
    · rw [ht 15 (by omega) (by omega), finalize_getD _ _ (by omega)]; simp

theorem finalize_accept_events (env : Env) (s : State) (hw : s.write_offset ≠ 0)
    (h : s.write_offset = endp s) :
    (devsmgr_deploy_write env s none).2.events =
      s.events ++ [Event.status_code_changed (current_status (devsmgr_deploy_write env s none).2),
        Event.change] := by
  rw [deploy_write_finalize_accept env s hw h]
  show (s.events ++ [Event.status_code_changed _]) ++ [Event.change] = _
  rw [List.append_assoc]
  rfl

theorem current_status_stored (s : State) (hc : s.ctx = none) (hd : Header)
    (hv : devs_header s = some hd) :
    current_status s = if hd.size ≠ 0 then Status.SLEEPING else Status.WAITING_FOR_INPUT := by
  unfold current_status
  rw [hc, hv]
  simp

/-- The finalize of a session whose write_offset equals the declared end, with magic0 in place
and the header tail erased or already committed. -/
theorem finalize_commit (env : Env) (s : State) (hw : s.write_offset ≠ 0)
    (he : s.write_offset = endp s) (hm : rd32 s.flash 0 = DEVSMGR_PROG_MAGIC0)
    (ht : erased s.flash 8 128 ∨ committed_tail s) :
    rd32 (devsmgr_deploy_write env s none).2.flash 8 = DEVSMGR_PROG_MAGIC1 ∧
    rd32 (devsmgr_deploy_write env s none).2.flash 12
      = jd_hash_fnv1a (image s 0 (rd32 s.flash 4)) ∧
    (∀ a, a < 8 ∨ 128 ≤ a → (devsmgr_deploy_write env s none).2.flash a = s.flash a) ∧
    devs_header (devsmgr_deploy_write env s none).2 =
      some { magic0 := DEVSMGR_PROG_MAGIC0, size := rd32 s.flash 4,
             magic1 := DEVSMGR_PROG_MAGIC1,
             hash := jd_hash_fnv1a (image s 0 (rd32 s.flash 4)) } := by
  obtain ⟨f1, _⟩ := finalize_accept_flash env s hw he
  obtain ⟨t1, t2⟩ := finalize_tail s _ f1 ht
  obtain ⟨w8, w12⟩ := tail_words _ _ (jd_hash_fnv1a_lt _) t1
  have w0 : rd32 (devsmgr_deploy_write env s none).2.flash 0 = DEVSMGR_PROG_MAGIC0 := by
    rw [rd32_congr _ s.flash 0 (fun a _ h2 => t2 a (by omega))]
    exact hm
  have w4 : rd32 (devsmgr_deploy_write env s none).2.flash 4 = rd32 s.flash 4 :=
    rd32_congr _ _ 4 (fun a _ h2 => t2 a (by omega))
  refine ⟨w8, w12, t2, ?_⟩
  rw [devs_header_valid _ ⟨w0, w8⟩]
  unfold program_header
  rw [w0, w4, w8, w12]

/-- C11: in every reachable state whose write_offset equals 128 plus the size declared in the
flash header (such a state has an active session), finalize returns 0 and makes exactly one
flash program call, of the 120 bytes of header offsets 8 to 127, followed by the flush;
afterwards magic1 reads at offset 8 and the FNV-1a hash of the image at offset 12, the bytes
0 to 7 and every byte from offset 128 on are unchanged, the header is valid with the declared
size, no context exists, the events emitted are the status event of the stop (Sleeping, or
WaitingForInput for a declared size of 0) followed by exactly one generic change event, and
next_restart equals now. -/
theorem finalize_commits_header (env : Env) (hwf : env.wf) (s : State)
    (hr : Reachable env s) (hfull : s.write_offset = 128 + rd32 s.flash 4) :
    s.write_offset ≠ 0 ∧
    (devsmgr_deploy_write env s none).1 = 0 ∧
    (devsmgr_deploy_write env s none).2.flash_ops =
      s.flash_ops ++
        [FlashOp.program 8 (finalize_bytes (jd_hash_fnv1a (image s 0 (rd32 s.flash 4))))
          (range_erased s.flash 8 120), FlashOp.sync] ∧
    (finalize_bytes (jd_hash_fnv1a (image s 0 (rd32 s.flash 4)))).length = 120 ∧
    rd32 (devsmgr_deploy_write env s none).2.flash 8 = 0xb27c4b2b ∧
    rd32 (devsmgr_deploy_write env s none).2.flash 12
      = jd_hash_fnv1a (image s 0 (rd32 s.flash 4)) ∧
    (∀ a, a < 8 ∨ 128 ≤ a → (devsmgr_deploy_write env s none).2.flash a = s.flash a) ∧
    image (devsmgr_deploy_write env s none).2 0 (rd32 s.flash 4)
      = image s 0 (rd32 s.flash 4) ∧
    devs_header (devsmgr_deploy_write env s none).2 =
      some { magic0 := 0x8d8abd53, size := rd32 s.flash 4, magic1 := 0xb27c4b2b,
             hash := jd_hash_fnv1a (image s 0 (rd32 s.flash 4)) } ∧
    (devsmgr_deploy_write env s none).2.ctx = none ∧
    (devsmgr_deploy_write env s none).2.events =
      s.events ++
        [Event.status_code_changed
          (if rd32 s.flash 4 ≠ 0 then Status.SLEEPING else Status.WAITING_FOR_INPUT),
         Event.change] ∧
    (devsmgr_deploy_write env s none).2.next_restart = s.now := by
  obtain ⟨hs, hh⟩ := reachable_header_inv env hwf s hr
  have hw : s.write_offset ≠ 0 := by omega
  have hU := hwf.2.2.2
  rcases hs with h0 | ⟨g1, g2, _, _, _⟩
  · exact absurd h0 hw
  have he : s.write_offset = endp s := by
    unfold endp HEADER_SIZE
    rw [Nat.add_comm, ← hfull]
    exact (Nat.mod_eq_of_lt (by omega)).symm
  have hmt : rd32 s.flash 0 = DEVSMGR_PROG_MAGIC0 ∧ (erased s.flash 8 128 ∨ committed_tail s) := by
    rcases hh with h0 | h1 | ⟨hm, h2⟩
    · exact absurd h0 hw
    · unfold HEADER_SIZE at g1 h1
      omega
    · rcases h2 with h2 | h2
      · exact ⟨hm, Or.inl h2⟩
      · exact ⟨hm, Or.inr h2.1⟩
  obtain ⟨a1, a2, a3, a4⟩ := finalize_accept_fields env s hw he
  obtain ⟨b1, b2, b3, b4⟩ := finalize_commit env s hw he hmt.1 hmt.2
  refine ⟨hw, a1, a4, finalize_bytes_length _, b1, b2, b3,
    image_congr s _ 0 _ (fun a ha => b3 a (Or.inr ha)), b4, a2, ?_, a3⟩
  rw [finalize_accept_events env s hw he, current_status_stored _ a2 _ b4]

set_option maxRecDepth 100000 in
/-- An instance of C11: deploy_start(64) and one 64-byte chunk, then finalize: it returns 0,
magic1 reads at offset 8, no context exists and the restart deadline is now. -/
theorem finalize_commits_header_witness :
    full_session.write_offset = 128 + rd32 full_session.flash 4 ∧
    (devsmgr_deploy_write demo_env full_session none).1 = 0 ∧
    rd32 (devsmgr_deploy_write demo_env full_session none).2.flash 8 = 0xb27c4b2b ∧
    devs_header (devsmgr_deploy_write demo_env full_session none).2 =
      some { magic0 := 0x8d8abd53, size := rd32 full_session.flash 4, magic1 := 0xb27c4b2b,
             hash := jd_hash_fnv1a (image full_session 0 (rd32 full_session.flash 4)) } ∧
    (devsmgr_deploy_write demo_env full_session none).2.next_restart = full_session.now :=
  have h := finalize_commits_header demo_env demo_env_wf full_session
    ⟨fun _ => 0, 0, [Op.deploy_start 64, Op.deploy_write (some pattern64)], rfl⟩ (by decide)
  ⟨by decide, h.2.1, h.2.2.2.2.1, h.2.2.2.2.2.2.2.2.1, h.2.2.2.2.2.2.2.2.2.2.2⟩

/-! ## Clearing the store -/

/-- After an accepted deploy_start(0) the finalize returns exactly when no earlier session
left a write_offset: with write_offset = 0 it returns -1 before any read, and with a stale
nonzero write_offset the hash read runs to offset 128 + 0xFFFFFFFF, outside every region. -/
theorem deploy_start_zero_finalize_call (env : Env) (hwf : env.wf) (s : State)
    (hok : (devsmgr_deploy_start env s 0).1 = 0) :
    (s.write_offset = 0 →
      deploy_write_call env (devsmgr_deploy_start env s 0).2 none
        = some (-1, (devsmgr_deploy_start env s 0).2)) ∧
    (s.write_offset ≠ 0 →
      deploy_write_call env (devsmgr_deploy_start env s 0).2 none = none) := by
  have h4 := (deploy_start_zero_endp env hwf.2.1 s hok).1
  have hw := deploy_start_zero_write_offset env s hok
  have hmax := hwf.2.2.2
  constructor
  · intro h0
    unfold deploy_write_call
    rw [if_pos (by rw [hw]; exact h0)]
  · intro hne
    unfold deploy_write_call
    rw [if_neg (by rw [hw]; exact hne)]
    simp only []
    rw [if_neg]
    unfold finalize_read_end
    simp only [program_header]
    rw [h4]
    unfold HEADER_SIZE U32 at *
    omega

set_option maxRecDepth 1000000 in
/-- C12 fails on the code: over a stored valid program with a running context, which the
finished session left with write_offset 192, deploy_start(0) is accepted, erases the first
page and returns before write_offset is set, so write_offset is still 192; the size field
now reads 0xFFFFFFFF, and the finalize that follows has the hash read the flash up to offset
128 + 0xFFFFFFFF, far beyond the 4096 bytes of the region, before it compares anything: the
call has no result.  From the state after boot, where no session has left a write_offset,
the same two calls do return, the finalize with -1, and leave the header absent and the
status WaitingForInput; and deploy_start(64), unlike deploy_start(0), sets write_offset. -/
theorem clear_then_finalize_overreads :
    (devs_header stored_state).isSome = true ∧ stored_state.ctx.isSome = true ∧
    stored_state.write_offset = 192 ∧
    (devsmgr_deploy_start demo_env stored_state 0).1 = 0 ∧
    (devsmgr_deploy_start demo_env stored_state 0).2.write_offset = 192 ∧
    (program_header (devsmgr_deploy_start demo_env stored_state 0).2).size = 4294967295 ∧
    finalize_read_end (devsmgr_deploy_start demo_env stored_state 0).2 = 4294967423 ∧
    demo_env.max_program_size = 4096 ∧
    deploy_write_call demo_env (devsmgr_deploy_start demo_env stored_state 0).2 none = none ∧
    (devsmgr_deploy_start demo_env stored_state 64).2.write_offset = 128 ∧
    (devsmgr_deploy_start demo_env boot_state 0).2.write_offset = 0 ∧
    (deploy_write_call demo_env (devsmgr_deploy_start demo_env boot_state 0).2 none).map
      (fun r => (r.1, devs_header r.2, current_status r.2))
      = some (-1, none, Status.WAITING_FOR_INPUT) := by
  refine ⟨by decide, by decide, by decide, by decide, by decide, by decide, by decide,
    by decide, ?_, by decide, by decide, by decide⟩
  unfold deploy_write_call
  rw [if_neg (by decide)]
  simp only []
  rw [if_neg (by decide)]

/-! ## Readers of the header -/

/-- C21: every reader goes through devs_header.  When it returns NULL (in particular for a
partial header: magic0 in place, magic1 still erased) the program-size query answers 0, the
program-hash query answers 0, and devsmgr_get_hash returns -1 and leaves 32 zero bytes.  When
it returns a header they answer the size field (the word at offset 4), the hash field (the
word at offset 12), and devsmgr_get_hash returns 0 with the SHA-256 of the size bytes of the
image from image offset 0.  The three packets answer with exactly these values and leave the
state as it is. -/
theorem readers_see_no_partial_header (env : Env) (s : State) :
    (devs_header s = none →
      program_size_query s = 0 ∧ program_hash_query s = 0 ∧
      devsmgr_get_hash env s = (-1, List.replicate 32 0)) ∧
    (rd32 s.flash 0 = 0x8d8abd53 ∧ erased s.flash 8 12 → devs_header s = none) ∧
    (∀ hd, devs_header s = some hd →
      hd.size = rd32 s.flash 4 ∧ hd.hash = rd32 s.flash 12 ∧
      program_size_query s = hd.size ∧ program_hash_query s = hd.hash ∧
      devsmgr_get_hash env s = (0, env.sha256 (image s 0 hd.size)) ∧
      (image s 0 hd.size).length = hd.size ∧
      ∀ i, i < hd.size → (image s 0 hd.size).getD i 0 = s.flash (128 + i)) ∧
    (List.replicate 32 0).length = 32 ∧
    devsmgr_handle_packet env s Cmd.get_program_size
      = (s, some (Response.u32 (program_size_query s))) ∧
    devsmgr_handle_packet env s Cmd.get_program_hash
      = (s, some (Response.u32 (program_hash_query s))) ∧
    devsmgr_handle_packet env s Cmd.get_program_sha256
      = (s, some (Response.bytes (devsmgr_get_hash env s).2)) := by
  refine ⟨?_, ?_, ?_, rfl, rfl, rfl, rfl⟩
  · intro h
    unfold program_size_query program_hash_query devsmgr_get_hash
    rw [h]
    exact ⟨rfl, rfl, rfl⟩
  · intro h
    apply devs_header_none_of_magic1
    rw [rd32_erased _ _ h.2]
    decide
  · intro hd h
    have hp : hd = program_header s := by
      unfold devs_header at h
      simp only [] at h
      split_ifs at h
      simp only [Option.some.injEq] at h
      exact h.symm
    unfold program_size_query program_hash_query devsmgr_get_hash
    rw [h]
    refine ⟨by rw [hp]; rfl, by rw [hp]; rfl, rfl, rfl, rfl, by simp [image], ?_⟩
    intro i hi
    simp [image, List.getD_eq_getElem?_getD, hi, HEADER_SIZE]

/-! ## The return codes of the bulk entry point -/

theorem write_results_append (env : Env) (a b : List (Option (List Nat))) :
    ∀ s, write_results env s (a ++ b) =
      write_results env s a ++ write_results env (write_run env s a) b := by
  induction a with
  | nil =>
    intro s
    rw [List.nil_append, write_results_nil, write_run_nil, List.nil_append]
  | cons x xs ih =>
    intro s
    rw [List.cons_append, write_results_cons, write_results_cons, write_run_cons, ih,
      List.cons_append]

theorem deploy_chunks_zero (img : List Nat) (soff : Nat) : deploy_chunks img 0 soff = [] := by
  simp only [deploy_chunks]

theorem deploy_chunks_succ (img : List Nat) (fuel soff : Nat) :
    deploy_chunks img (fuel + 1) soff =
      if soff < img.length then
        (img.drop soff).take (deploy_chunk_size img.length soff)
          :: deploy_chunks img fuel (soff + deploy_chunk_size img.length soff)
      else [] := by
  simp only [deploy_chunks]

/-- The loop of devsmgr_deploy ends with 0 after writing every chunk with success, or with -3
at the first chunk that devsmgr_deploy_write rejects. -/
theorem deploy_loop_cases (env : Env) (img : List Nat) :
    ∀ (fuel : Nat) (s : State) (soff : Nat) (r : Int × State),
      deploy_loop env fuel s img soff = some r →
      (r.1 = 0 ∧
        (∀ x ∈ write_results env s ((deploy_chunks img fuel soff).map some), x = 0) ∧
        r.2 = write_run env s ((deploy_chunks img fuel soff).map some)) ∨
      (r.1 = -3 ∧ ∃ pre c, pre ++ [c] <+: deploy_chunks img fuel soff ∧
        (∀ x ∈ write_results env s (pre.map some), x = 0) ∧
        (devsmgr_deploy_write env (write_run env s (pre.map some)) (some c)).1 ≠ 0 ∧
        r.2 = (devsmgr_deploy_write env (write_run env s (pre.map some)) (some c)).2) := by
  intro fuel
  induction fuel with
  | zero =>
    intro s soff r h
    unfold deploy_loop at h
    split_ifs at h
    simp only [Option.some.injEq] at h
    left
    rw [deploy_chunks_zero, List.map_nil, write_results_nil, write_run_nil, ← h]
    exact ⟨rfl, fun x hx => absurd hx (List.not_mem_nil x), rfl⟩
  | succ n ih =>
    intro s soff r h
    unfold deploy_loop at h
    rw [deploy_chunks_succ]
    by_cases hlt : soff < img.length
    · rw [if_pos hlt] at h ⊢
      generalize (img.drop soff).take (deploy_chunk_size img.length soff) = ch at h ⊢
      simp only [] at h
      by_cases hc : (devsmgr_deploy_write env s (some ch)).1 ≠ 0
      · rw [if_pos hc] at h
        simp only [Option.some.injEq] at h
        right
        refine ⟨by rw [← h], [], ch, ?_, ?_, ?_, ?_⟩
        · exact ⟨_, rfl⟩
        · intro x hx
          rw [List.map_nil, write_results_nil] at hx
          cases hx
        · rw [List.map_nil, write_run_nil]
          exact hc
        · rw [List.map_nil, write_run_nil, ← h]
      · rw [if_neg hc] at h
        have h0 : (devsmgr_deploy_write env s (some ch)).1 = 0 := not_not.1 hc
        rcases ih _ _ r h with ⟨a1, a2, a3⟩ | ⟨a1, pre, c, b1, b2, b3, b4⟩
        · left
          refine ⟨a1, ?_, ?_⟩
          · intro x hx
            rw [List.map_cons, write_results_cons, List.mem_cons] at hx
            rcases hx with hx | hx
            · rw [hx, h0]
            · exact a2 x hx
          · rw [List.map_cons, write_run_cons]
            exact a3
        · right
          refine ⟨a1, ch :: pre, c, ?_, ?_, ?_, ?_⟩
          · obtain ⟨t, ht⟩ := b1
            exact ⟨t, by rw [← ht]; rfl⟩
          · intro x hx
            rw [List.map_cons, write_results_cons, List.mem_cons] at hx
            rcases hx with hx | hx
            · rw [hx, h0]
            · exact b2 x hx
          · rw [List.map_cons, write_run_cons]
            exact b3
          · rw [List.map_cons, write_run_cons]
            exact b4
    · rw [if_neg hlt] at h ⊢
      simp only [Option.some.injEq] at h
      left
      rw [List.map_nil, write_results_nil, write_run_nil, ← h]
      exact ⟨rfl, fun x hx => absurd hx (List.not_mem_nil x), rfl⟩

/-- A chunk rejected after a prefix of accepted ones shows in the results of the whole
sequence. -/
theorem rejected_in_results (env : Env) (s : State) (cs pre : List (List Nat)) (c : List Nat)
    (hp : pre ++ [c] <+: cs)
    (hr : (devsmgr_deploy_write env (write_run env s (pre.map some)) (some c)).1 ≠ 0) :
    ¬ ∀ x ∈ write_results env s (cs.map some), x = 0 := by
  intro hall
  obtain ⟨t, ht⟩ := hp
  apply hr
  apply hall
  rw [← ht, List.map_append, List.map_append, List.append_assoc, write_results_append,
    List.map_cons, List.map_nil, List.singleton_append, write_results_cons]
  exact List.mem_append_right _ (List.mem_cons_self _ _)

/-- The chunks of the loop are the image, cut in order. -/
theorem deploy_chunks_flatten (img : List Nat) :
    ∀ (fuel soff : Nat), img.length - soff ≤ fuel →
      (deploy_chunks img fuel soff).flatten = img.drop soff := by
  intro fuel
  induction fuel with
  | zero =>
    intro soff h
    rw [deploy_chunks_zero, List.flatten_nil, List.drop_of_length_le (by omega)]
  | succ n ih =>
    intro soff h
    rw [deploy_chunks_succ]
    by_cases hlt : soff < img.length
    · have hpos : 0 < deploy_chunk_size img.length soff := by
        unfold deploy_chunk_size
        split_ifs <;> omega
      rw [if_pos hlt, List.flatten_cons, ih _ (by omega), ← List.drop_drop,
        List.take_append_drop]
    · rw [if_neg hlt, List.flatten_nil, List.drop_of_length_le (by omega)]

theorem deploy_finish_cases (env : Env) (s : State) :
    ((devsmgr_deploy_write env s none).1 ≠ 0 ∧
      deploy_finish env s = (-4, (devsmgr_deploy_write env s none).2)) ∨
    ((devsmgr_deploy_write env s none).1 = 0 ∧
      devs_header (devsmgr_deploy_write env s none).2 = none ∧
      deploy_finish env s = (-5, (devsmgr_deploy_write env s none).2)) ∨
    ((devsmgr_deploy_write env s none).1 = 0 ∧
      ∃ hd, devs_header (devsmgr_deploy_write env s none).2 = some hd ∧
        deploy_finish env s =
          (env.devs_verify (image (devsmgr_deploy_write env s none).2 0 hd.size),
            (devsmgr_deploy_write env s none).2)) := by
  unfold deploy_finish
  generalize devsmgr_deploy_write env s none = dw
  obtain ⟨dc, ds⟩ := dw
  simp only []
  by_cases c1 : dc ≠ 0
  · left
    rw [if_pos c1]
    exact ⟨c1, rfl⟩
  · right
    rw [if_neg c1]
    cases hh : devs_header ds with
    | none => left; exact ⟨not_not.1 c1, rfl, rfl⟩
    | some hd => right; exact ⟨not_not.1 c1, hd, rfl, rfl⟩

theorem deploy_cases (env : Env) (s : State) (img : List Nat) (r : Int × State)
    (hr : devsmgr_deploy env s img = some r) :
    ((devsmgr_deploy_start env s img.length).1 ≠ 0 ∧
      r = (-1, (devsmgr_deploy_start env s img.length).2)) ∨
    ((devsmgr_deploy_start env s img.length).1 = 0 ∧ img.length = 0 ∧
      r = (-2, (devsmgr_deploy_start env s img.length).2)) ∨
    ((devsmgr_deploy_start env s img.length).1 = 0 ∧ img.length ≠ 0 ∧
      ∃ lr, deploy_loop env img.length (devsmgr_deploy_start env s img.length).2 img 0
          = some lr ∧
        ((lr.1 ≠ 0 ∧ r = (-3, lr.2)) ∨ (lr.1 = 0 ∧ r = deploy_finish env lr.2))) := by
  unfold devsmgr_deploy at hr
  generalize devsmgr_deploy_start env s img.length = ds at hr ⊢
  obtain ⟨c0, s0⟩ := ds
  simp only [] at hr ⊢
  by_cases c1 : c0 ≠ 0
  · rw [if_pos c1] at hr
    simp only [Option.some.injEq] at hr
    left
    exact ⟨c1, hr.symm⟩
  · rw [if_neg c1] at hr
    right
    by_cases c2 : img.length = 0
    · rw [if_pos c2] at hr
      simp only [Option.some.injEq] at hr
      left
      exact ⟨not_not.1 c1, c2, hr.symm⟩
    · rw [if_neg c2] at hr
      right
      refine ⟨not_not.1 c1, c2, ?_⟩
      cases hl : deploy_loop env img.length s0 img 0 with
      | none => rw [hl] at hr; cases hr
      | some lr =>
        rw [hl] at hr
        obtain ⟨lc, ls⟩ := lr
        simp only [] at hr
        refine ⟨(lc, ls), rfl, ?_⟩
        by_cases c3 : lc ≠ 0
        · rw [if_pos c3] at hr
          simp only [Option.some.injEq] at hr
          left
          exact ⟨c3, hr.symm⟩
        · rw [if_neg c3] at hr
          simp only [Option.some.injEq] at hr
          right
          exact ⟨not_not.1 c3, hr.symm⟩

/-- C22: devsmgr_deploy always returns, and its code names the first stage that fails.  It is
-1 when deploy_start rejects the size (the state is then untouched); -2 when the size is
accepted and is zero (the first page has then been erased); -3 when, after a prefix of
accepted chunks, devsmgr_deploy_write rejects a chunk; -4 when every chunk is accepted and
finalize is rejected; -5 when finalize succeeds and devs_header finds no valid header; and
otherwise the result of devs_verify on the stored image.  The chunks are the image cut in
order.  When devs_verify never returns -1 or -2, the code is -1 exactly when deploy_start
rejects and -2 exactly when the accepted size is zero.  The five codes are pairwise
distinct. -/
theorem deploy_reports_failing_stage (env : Env) (s : State) (img : List Nat) :
    ∃ r, devsmgr_deploy env s img = some r ∧
      ((devsmgr_deploy_start env s img.length).1 ≠ 0 → r = (-1, s)) ∧
      ((devsmgr_deploy_start env s img.length).1 = 0 → img.length = 0 →
        r = (-2, (devsmgr_deploy_start env s img.length).2) ∧
        r.2.flash = erase_page env.flash_page_size s.flash 0) ∧
      ((devsmgr_deploy_start env s img.length).1 = 0 → img.length ≠ 0 →
        (∃ pre c, pre ++ [c] <+: deploy_chunks img img.length 0 ∧
          (∀ x ∈ write_results env (devsmgr_deploy_start env s img.length).2 (pre.map some),
            x = 0) ∧
          (devsmgr_deploy_write env
            (write_run env (devsmgr_deploy_start env s img.length).2 (pre.map some))
            (some c)).1 ≠ 0) →
        r.1 = -3) ∧
      ((devsmgr_deploy_start env s img.length).1 = 0 → img.length ≠ 0 →
        (∀ x ∈ write_results env (devsmgr_deploy_start env s img.length).2
            ((deploy_chunks img img.length 0).map some), x = 0) →
        ((devsmgr_deploy_write env
            (write_run env (devsmgr_deploy_start env s img.length).2
              ((deploy_chunks img img.length 0).map some)) none).1 ≠ 0 → r.1 = -4) ∧
        ((devsmgr_deploy_write env
            (write_run env (devsmgr_deploy_start env s img.length).2
              ((deploy_chunks img img.length 0).map some)) none).1 = 0 →
          devs_header (devsmgr_deploy_write env
            (write_run env (devsmgr_deploy_start env s img.length).2
              ((deploy_chunks img img.length 0).map some)) none).2 = none → r.1 = -5) ∧
        ((devsmgr_deploy_write env
            (write_run env (devsmgr_deploy_start env s img.length).2
              ((deploy_chunks img img.length 0).map some)) none).1 = 0 →
          ∀ hd, devs_header (devsmgr_deploy_write env
              (write_run env (devsmgr_deploy_start env s img.length).2
                ((deploy_chunks img img.length 0).map some)) none).2 = some hd →
            r.1 = env.devs_verify (image (devsmgr_deploy_write env
              (write_run env (devsmgr_deploy_start env s img.length).2
                ((deploy_chunks img img.length 0).map some)) none).2 0 hd.size))) ∧
      (deploy_chunks img img.length 0).flatten = img ∧
      ((∀ im, env.devs_verify im ≠ -1 ∧ env.devs_verify im ≠ -2) →
        (r.1 = -1 ↔ (devsmgr_deploy_start env s img.length).1 ≠ 0) ∧
        (r.1 = -2 ↔ ((devsmgr_deploy_start env s img.length).1 = 0 ∧ img.length = 0))) ∧
      List.Pairwise (fun a b => a ≠ b) [(-1 : Int), -2, -3, -4, -5] := by
  obtain ⟨r, hr⟩ := devsmgr_deploy_total env s img
  have hrej : (devsmgr_deploy_start env s img.length).1 ≠ 0 →
      (devsmgr_deploy_start env s img.length).2 = s :=
    deploy_start_reject_state env s img.length
  have hzero : (devsmgr_deploy_start env s img.length).1 = 0 → img.length = 0 →
      (devsmgr_deploy_start env s img.length).2.flash
        = erase_page env.flash_page_size s.flash 0 := by
    intro h1 h2
    rw [h2] at h1 ⊢
    exact deploy_start_flash_zero env s h1
  have hcases := deploy_cases env s img r hr
  generalize devsmgr_deploy_start env s img.length = ds at hrej hzero hcases ⊢
  have hloop := deploy_loop_cases env img img.length ds.2 0
  generalize hcs : deploy_chunks img img.length 0 = cs at hloop ⊢
  have hfl : cs.flatten = img := by
    rw [← hcs, deploy_chunks_flatten img img.length 0 (by omega), List.drop_zero]
  have hfin := deploy_finish_cases env (write_run env ds.2 (cs.map some))
  generalize devsmgr_deploy_write env (write_run env ds.2 (cs.map some)) none = fin at hfin ⊢
  refine ⟨r, hr, ?_, ?_, ?_, ?_, hfl, ?_, by decide⟩
  · intro h
    rcases hcases with ⟨_, e⟩ | ⟨a, _⟩ | ⟨a, _⟩
    · rw [e, hrej h]
    · exact absurd a h
    · exact absurd a h
  · intro h hz
    rcases hcases with ⟨a, _⟩ | ⟨_, _, e⟩ | ⟨_, a, _⟩
    · exact absurd h a
    · rw [e]
      exact ⟨rfl, hzero h hz⟩
    · exact absurd hz a
  · intro h hz ⟨pre, c, hp, hacc, hrj⟩
    rcases hcases with ⟨a, _⟩ | ⟨_, a, _⟩ | ⟨_, _, lr, hl, hlr⟩
    · exact absurd h a
    · exact absurd a hz
    · rcases hlr with ⟨_, e⟩ | ⟨a, _⟩
      · rw [e]
      · rcases hloop lr hl with ⟨_, b, _⟩ | ⟨b, _⟩
        · exact absurd b (rejected_in_results env ds.2 cs pre c hp hrj)
        · rw [a] at b
          exact absurd b (by decide)
  · intro h hz hall
    have hr2 : r = deploy_finish env (write_run env ds.2 (cs.map some)) := by
      rcases hcases with ⟨a, _⟩ | ⟨_, a, _⟩ | ⟨_, _, lr, hl, hlr⟩
      · exact absurd h a
      · exact absurd a hz
      · rcases hloop lr hl with ⟨b1, _, b3⟩ | ⟨_, pre, c, hp, _, hrj, _⟩
        · rcases hlr with ⟨a, _⟩ | ⟨_, e⟩
          · exact absurd b1 a
          · rw [e, b3]
        · exact absurd hall (rejected_in_results env ds.2 cs pre c hp hrj)
    rw [hr2]
    refine ⟨?_, ?_, ?_⟩
    · intro hf
      rcases hfin with ⟨_, e⟩ | ⟨a, _⟩ | ⟨a, _⟩
      · rw [e]
      · exact absurd a hf
      · exact absurd a hf
    · intro hf hn
      rcases hfin with ⟨a, _⟩ | ⟨_, _, e⟩ | ⟨_, hd, a, _⟩
      · exact absurd hf a
      · rw [e]
      · rw [hn] at a
        cases a
    · intro hf hd hh
      rcases hfin with ⟨a, _⟩ | ⟨_, a, _⟩ | ⟨_, hd2, a, e⟩
      · exact absurd hf a
      · rw [hh] at a
        cases a
      · rw [hh] at a
        simp only [Option.some.injEq] at a
        rw [e, a]
  · intro hv
    have hcode : ∀ t, (deploy_finish env t).1 ≠ -1 ∧ (deploy_finish env t).1 ≠ -2 := by
      intro t
      rcases deploy_finish_cases env t with ⟨_, e⟩ | ⟨_, _, e⟩ | ⟨_, hd, _, e⟩
      · rw [e]
        exact ⟨by simp, by simp⟩
      · rw [e]
        exact ⟨by simp, by simp⟩
      · rw [e]
        exact hv _
    rcases hcases with ⟨a, e⟩ | ⟨a, b, e⟩ | ⟨a, b, lr, hl, hlr⟩
    · rw [e]
      exact ⟨⟨fun _ => a, fun _ => rfl⟩, ⟨fun h => absurd h (by simp), fun h => absurd h.1 a⟩⟩
    · rw [e]
      exact ⟨⟨fun h => absurd h (by simp), fun h => absurd a h⟩, ⟨fun _ => ⟨a, b⟩, fun _ => rfl⟩⟩
    · have hne : r.1 ≠ -1 ∧ r.1 ≠ -2 := by
        rcases hlr with ⟨_, e⟩ | ⟨_, e⟩
        · rw [e]
          exact ⟨by simp, by simp⟩
        · rw [e]
          exact hcode _
      exact ⟨⟨fun h => absurd h hne.1, fun h => absurd a h⟩,
        ⟨fun h => absurd h hne.2, fun h => absurd h.2 b⟩⟩

/-! ## The chunks of the readback -/

set_option maxRecDepth 1000000 in
/-- C23 fails on the code: with the 256-byte test image stored (valid header, size 256) and
the readback cursor at 236, inside the image, the next poll hands the pipe a chunk of 236
bytes from image offset 236, not the min(236, 256 - 236) = 20 bytes that remain; the chunk
ends at image offset 472, and after the pipe accepts it the cursor is 472, past the image
size. -/
theorem readback_chunk_past_image :
    program_size_query mid_readback = 256 ∧
    mid_readback.read_program_ptr = 236 ∧
    demo_env.payload_size = 236 ∧
    (process_readback demo_env mid_readback JD_PIPE_OK).pipe_log =
      mid_readback.pipe_log ++ [PipeOp.write (image mid_readback 236 236) JD_PIPE_OK] ∧
    (image mid_readback 236 236).length = 236 ∧
    min 236 (256 - 236) = 20 ∧
    (process_readback demo_env mid_readback JD_PIPE_OK).read_program_ptr = 472 := by
  decide

/-! ## One poll of the readback session -/

theorem try_run_readback (env : Env) (s : State) :
    (try_run env s).read_program_ptr = s.read_program_ptr ∧
    (try_run env s).pipe_log = s.pipe_log := by
  rw [try_run_eq]
  unfold run_img
  split_ifs <;> exact ⟨rfl, rfl⟩

/-- The restart timer and the fault check of a poll leave the readback session alone. -/
theorem process_rest_readback (env : Env) (s : State) (r : Int) (code pc : Nat) :
    (devsmgr_process env s r code pc).read_program_ptr
      = (process_readback env s r).read_program_ptr ∧
    (devsmgr_process env s r code pc).pipe_log = (process_readback env s r).pipe_log := by
  unfold devsmgr_process
  generalize process_readback env s r = m
  have h1 : (process_autostart env m).read_program_ptr = m.read_program_ptr ∧
      (process_autostart env m).pipe_log = m.pipe_log := by
    unfold process_autostart
    simp only []
    split_ifs
    · exact try_run_readback env _
    · exact ⟨rfl, rfl⟩
    · exact ⟨rfl, rfl⟩
  rw [← h1.1, ← h1.2]
  generalize process_autostart env m = k
  by_cases hn : k.ctx.isNone = true
  · unfold process_fault
    rw [if_pos hn]
    exact ⟨rfl, rfl⟩
  · by_cases hc : code = 0
    · subst hc
      rw [process_fault_zero]
      exact ⟨rfl, rfl⟩
    · have hsome : k.ctx.isSome = true := by
        cases hm : k.ctx with
        | none => rw [hm] at hn; simp at hn
        | some c => rfl
      rw [process_fault_nonzero env k code pc hsome hc]
      exact ⟨rfl, rfl⟩

theorem process_readback_idle (env : Env) (s : State) (r : Int)
    (h : s.read_program_ptr < 0) : process_readback env s r = s := by
  unfold process_readback
  rw [if_neg (by omega)]

theorem process_readback_done (env : Env) (s : State) (r : Int)
    (h0 : 0 ≤ s.read_program_ptr)
    (h : (match devs_header s with
          | some hd => toInt32 hd.size
          | none => 0) ≤ s.read_program_ptr) :
    process_readback env s r =
      { s with pipe_log := s.pipe_log ++ [PipeOp.close], read_program_ptr := -1 } := by
  unfold process_readback
  rw [if_pos h0]
  simp only []
  rw [if_pos h]

theorem process_readback_write (env : Env) (s : State) (r : Int) (hd : Header)
    (h0 : 0 ≤ s.read_program_ptr) (hh : devs_header s = some hd)
    (h : s.read_program_ptr < toInt32 hd.size) :
    (r = JD_PIPE_OK →
      (process_readback env s r).read_program_ptr = s.read_program_ptr +
        (if toInt32 hd.size > (env.payload_size : Int) then (env.payload_size : Int)
          else toInt32 hd.size) ∧
      (process_readback env s r).pipe_log = s.pipe_log ++
        [PipeOp.write (image s s.read_program_ptr.toNat
          (if toInt32 hd.size > (env.payload_size : Int) then (env.payload_size : Int)
            else toInt32 hd.size).toNat) r]) ∧
    (r = JD_PIPE_TRY_AGAIN →
      (process_readback env s r).read_program_ptr = s.read_program_ptr ∧
      (process_readback env s r).pipe_log = s.pipe_log ++
        [PipeOp.write (image s s.read_program_ptr.toNat
          (if toInt32 hd.size > (env.payload_size : Int) then (env.payload_size : Int)
            else toInt32 hd.size).toNat) r]) ∧
    (r ≠ JD_PIPE_OK → r ≠ JD_PIPE_TRY_AGAIN →
      (process_readback env s r).read_program_ptr = -1 ∧
      (process_readback env s r).pipe_log = s.pipe_log ++
        [PipeOp.write (image s s.read_program_ptr.toNat
          (if toInt32 hd.size > (env.payload_size : Int) then (env.payload_size : Int)
            else toInt32 hd.size).toNat) r, PipeOp.close]) := by
  unfold process_readback
  rw [if_pos h0, hh]
  simp only []
  rw [if_neg (by omega)]
  refine ⟨?_, ?_, ?_⟩
  · intro hr
    rw [if_pos hr]
    exact ⟨rfl, rfl⟩
  · intro hr
    have hne : r ≠ JD_PIPE_OK := by rw [hr]; decide
    rw [if_neg hne, if_pos hr]
    exact ⟨rfl, rfl⟩
  · intro h1 h2
    rw [if_neg h1, if_neg h2]
    refine ⟨rfl, ?_⟩
    simp

/-- C24: one poll and the readback session.  An idle session (cursor below 0) is not touched:
cursor and pipe stay as they are.  In an active session, when the header is absent (size
taken as 0) or the cursor has reached the size (read as an int), the pipe is closed without
a write and the cursor becomes -1.  Otherwise one chunk is written, of min(size, payload)
bytes from the cursor; on JD_PIPE_OK the cursor advances by that length, on
JD_PIPE_TRY_AGAIN it stays and the session stays active, and on any other result the cursor
becomes -1 and the pipe is closed after the write.  A size below 2^31 reads as itself. -/
theorem readback_poll_step (env : Env) (s : State) (r : Int) (code pc : Nat) :
    (s.read_program_ptr < 0 →
      (devsmgr_process env s r code pc).read_program_ptr = s.read_program_ptr ∧
      (devsmgr_process env s r code pc).pipe_log = s.pipe_log) ∧
    (0 ≤ s.read_program_ptr → devs_header s = none →
      (devsmgr_process env s r code pc).read_program_ptr = -1 ∧
      (devsmgr_process env s r code pc).pipe_log = s.pipe_log ++ [PipeOp.close]) ∧
    (∀ hd, 0 ≤ s.read_program_ptr → devs_header s = some hd →
      toInt32 hd.size ≤ s.read_program_ptr →
      (devsmgr_process env s r code pc).read_program_ptr = -1 ∧
      (devsmgr_process env s r code pc).pipe_log = s.pipe_log ++ [PipeOp.close]) ∧
    (∀ hd, 0 ≤ s.read_program_ptr → devs_header s = some hd →
      s.read_program_ptr < toInt32 hd.size →
      (r = JD_PIPE_OK →
        (devsmgr_process env s r code pc).read_program_ptr = s.read_program_ptr +
          (if toInt32 hd.size > (env.payload_size : Int) then (env.payload_size : Int)
            else toInt32 hd.size) ∧
        (devsmgr_process env s r code pc).pipe_log = s.pipe_log ++
          [PipeOp.write (image s s.read_program_ptr.toNat
            (if toInt32 hd.size > (env.payload_size : Int) then (env.payload_size : Int)
              else toInt32 hd.size).toNat) r]) ∧
      (r = JD_PIPE_TRY_AGAIN →
        (devsmgr_process env s r code pc).read_program_ptr = s.read_program_ptr ∧
        (devsmgr_process env s r code pc).pipe_log = s.pipe_log ++
          [PipeOp.write (image s s.read_program_ptr.toNat
            (if toInt32 hd.size > (env.payload_size : Int) then (env.payload_size : Int)
              else toInt32 hd.size).toNat) r]) ∧
      (r ≠ JD_PIPE_OK → r ≠ JD_PIPE_TRY_AGAIN →
        (devsmgr_process env s r code pc).read_program_ptr = -1 ∧
        (devsmgr_process env s r code pc).pipe_log = s.pipe_log ++
          [PipeOp.write (image s s.read_program_ptr.toNat
            (if toInt32 hd.size > (env.payload_size : Int) then (env.payload_size : Int)
              else toInt32 hd.size).toNat) r, PipeOp.close])) ∧
    (∀ hd : Header, hd.size < 2147483648 → toInt32 hd.size = (hd.size : Int)) := by
  obtain ⟨p1, p2⟩ := process_rest_readback env s r code pc
  rw [p1, p2]
  refine ⟨?_, ?_, ?_, ?_, ?_⟩
  · intro h
    rw [process_readback_idle env s r h]
    exact ⟨rfl, rfl⟩
  · intro h0 hh
    rw [process_readback_done env s r h0 (by rw [hh]; exact h0)]
    exact ⟨rfl, rfl⟩
  · intro hd h0 hh hle
    rw [process_readback_done env s r h0 (by rw [hh]; exact hle)]
    exact ⟨rfl, rfl⟩
  · intro hd h0 hh hlt
    exact process_readback_write env s r hd h0 hh hlt
  · intro hd h
    unfold toInt32 U32
    rw [Nat.mod_eq_of_lt (by omega), if_pos h]

/-! ## The erase ahead of a chunk -/

/-- C25: for every accepted chunk of n bytes at write_offset w (nonzero, w + n within 32
bits) on flash with a page size P that is a power of two: the flash calls of the write are
one erase followed by the program call when w / P differs from (w + n) / P, and the program
call alone otherwise, so at most one page is erased.  The erased page starts at
(w + n) / P * P: it contains the offset w + n, it starts strictly above w, every byte
outside it and outside the chunk keeps its value, and so does every byte below w, the header
included. -/
theorem chunk_erases_next_page (env : Env) (hpg : env.page_ok) (s : State) (data : List Nat)
    (hw : s.write_offset ≠ 0) (hok : (devsmgr_deploy_write env s (some data)).1 = 0)
    (hnw : s.write_offset + data.length < U32) :
    (s.write_offset / env.flash_page_size
        ≠ (s.write_offset + data.length) / env.flash_page_size →
      (∃ e, (devsmgr_deploy_write env s (some data)).2.flash_ops = s.flash_ops ++
        [FlashOp.erase ((s.write_offset + data.length) / env.flash_page_size
            * env.flash_page_size),
          FlashOp.program s.write_offset data e]) ∧
      (s.write_offset + data.length) / env.flash_page_size * env.flash_page_size
        ≤ s.write_offset + data.length ∧
      s.write_offset + data.length
        < (s.write_offset + data.length) / env.flash_page_size * env.flash_page_size
          + env.flash_page_size ∧
      s.write_offset
        < (s.write_offset + data.length) / env.flash_page_size * env.flash_page_size ∧
      (s.write_offset + data.length) / env.flash_page_size
        = s.write_offset / env.flash_page_size + 1 ∧
      ∀ a, ¬ ((s.write_offset + data.length) / env.flash_page_size * env.flash_page_size ≤ a
            ∧ a < (s.write_offset + data.length) / env.flash_page_size * env.flash_page_size
                + env.flash_page_size) →
        ¬ (s.write_offset ≤ a ∧ a < s.write_offset + data.length) →
        (devsmgr_deploy_write env s (some data)).2.flash a = s.flash a) ∧
    (s.write_offset / env.flash_page_size
        = (s.write_offset + data.length) / env.flash_page_size →
      (∃ e, (devsmgr_deploy_write env s (some data)).2.flash_ops = s.flash_ops ++
        [FlashOp.program s.write_offset data e]) ∧
      ∀ a, ¬ (s.write_offset ≤ a ∧ a < s.write_offset + data.length) →
        (devsmgr_deploy_write env s (some data)).2.flash a = s.flash a) ∧
    (∀ a, a < s.write_offset →
      (devsmgr_deploy_write env s (some data)).2.flash a = s.flash a) := by
  have hP := page_ok_pos env hpg
  obtain ⟨_, f2, f3⟩ := chunk_accept_fields env hpg s data hw hok hnw
  have hn := (chunk_accept_cond env s data hw hok).2.2
  refine ⟨?_, ?_, fun a ha => chunk_accept_below env hpg s data hw hok hnw a ha⟩
  · intro hne
    rw [if_pos hne] at f2
    rw [if_pos hne, if_pos hne] at f3
    refine ⟨⟨_, by rw [f3, List.append_assoc]; rfl⟩, page_start_le _ _, page_end_gt _ _ hP,
      page_next_start_gt _ _ _ hP hne, page_next _ _ _ hP hn hne, ?_⟩
    intro a h1 h2
    rw [f2, program_bytes_out _ _ _ _ (by omega), erase_page_out _ _ _ _ (by omega)]
  · intro heq
    rw [if_neg (not_not.2 heq)] at f2
    rw [if_neg (not_not.2 heq), if_neg (not_not.2 heq)] at f3
    refine ⟨⟨_, by rw [f3, List.append_nil]⟩, ?_⟩
    intro a h2
    rw [f2, program_bytes_out _ _ _ _ (by omega)]

set_option maxRecDepth 1000000 in
/-- An instance of C25: in the session for 2048 bytes on 1 KiB pages, a chunk of 64 bytes at
write_offset 128 stays in page 0 and erases nothing; after six chunks of 128 bytes the chunk
at write_offset 896 reaches offset 1024 and erases the page that starts there, before it is
programmed. -/
theorem chunk_erases_next_page_witness :
    (session2048.write_offset = 128 ∧
      (devsmgr_deploy_write demo_env session2048 (some pattern64)).1 = 0) ∧
    (∃ e, (devsmgr_deploy_write demo_env session2048 (some pattern64)).2.flash_ops =
      session2048.flash_ops ++ [FlashOp.program session2048.write_offset pattern64 e]) ∧
    (page_edge_session.write_offset = 896 ∧
      (devsmgr_deploy_write demo_env page_edge_session (some zero_chunk128)).1 = 0 ∧
      (page_edge_session.write_offset + zero_chunk128.length) / demo_env.flash_page_size
        * demo_env.flash_page_size = 1024) ∧
    (∃ e, (devsmgr_deploy_write demo_env page_edge_session (some zero_chunk128)).2.flash_ops =
      page_edge_session.flash_ops ++
        [FlashOp.erase ((page_edge_session.write_offset + zero_chunk128.length)
            / demo_env.flash_page_size * demo_env.flash_page_size),
          FlashOp.program page_edge_session.write_offset zero_chunk128 e]) :=
  have h := chunk_erases_next_page demo_env (wf_page_ok demo_env demo_env_wf) session2048
    pattern64 (by decide) (by decide) (by decide)
  have h2 := chunk_erases_next_page demo_env (wf_page_ok demo_env demo_env_wf)
    page_edge_session zero_chunk128 (by decide) (by decide) (by decide)
  ⟨⟨by decide, by decide⟩, (h.2.1 (by decide)).1, ⟨by decide, by decide, by decide⟩,
    (h2.1 (by decide)).1⟩

/-! ## What deploy_start erases -/

set_option maxRecDepth 1000000 in
/-- C26 fails on the code: over a stored program that spans two 256-byte pages (valid header,
size 256), an accepted deploy_start(0) leaves the byte at offset 256, inside the 4 KiB
region, at its old value 129, so the store is not empty and not every byte of the region
reads as erased; an accepted deploy_start(64) leaves the same byte, which is not one of the
8 header bytes. -/
theorem deploy_start_leaves_later_pages :
    program_size_query two_page_store = 256 ∧
    (devsmgr_deploy_start page256_env two_page_store 0).1 = 0 ∧
    (devsmgr_deploy_start page256_env two_page_store 0).2.flash 256 = 129 ∧
    ¬ (∀ a, a < page256_env.max_program_size →
        (devsmgr_deploy_start page256_env two_page_store 0).2.flash a = 255) ∧
    (devsmgr_deploy_start page256_env two_page_store 64).1 = 0 ∧
    ¬ (∀ a, 8 ≤ a → a < page256_env.max_program_size →
        (devsmgr_deploy_start page256_env two_page_store 64).2.flash a = 255) :=
  ⟨by decide, by decide, by decide,
   fun h => absurd (h 256 (by decide)) (by decide),
   by decide,
   fun h => absurd (h 256 (by decide) (by decide)) (by decide)⟩

/-- C26 as the code has it: an accepted deploy_start erases the first flash page of the
program region and no other.  Afterwards every byte of the first page reads as erased,
except the 8 bytes of magic0 and size when size > 0, which hold these two words; every byte
from the second page on keeps its value; the flash calls made are the erase of the page at
offset 0 and, when size > 0, the program call of the 8 header bytes. -/
theorem deploy_start_erases_first_page (env : Env) (s : State) (sz : Nat)
    (hP : 8 ≤ env.flash_page_size) (hok : (devsmgr_deploy_start env s sz).1 = 0) :
    (∀ a, a < env.flash_page_size → (sz = 0 ∨ 8 ≤ a) →
      (devsmgr_deploy_start env s sz).2.flash a = 255) ∧
    (∀ a, env.flash_page_size ≤ a →
      (devsmgr_deploy_start env s sz).2.flash a = s.flash a) ∧
    (sz ≠ 0 →
      rd32 (devsmgr_deploy_start env s sz).2.flash 0 = 0x8d8abd53 ∧
      rd32 (devsmgr_deploy_start env s sz).2.flash 4 = sz ∧
      (devsmgr_deploy_start env s sz).2.flash_ops =
        s.flash_ops ++ [FlashOp.erase 0,
          FlashOp.program 0 (le32 DEVSMGR_PROG_MAGIC0 ++ le32 sz)
            (range_erased (erase_page env.flash_page_size s.flash 0) 0 8)]) ∧
    (sz = 0 → (devsmgr_deploy_start env s sz).2.flash_ops = s.flash_ops ++ [FlashOp.erase 0]) := by
  have hlt := deploy_start_accept_lt env s sz hok
  by_cases hz : sz = 0
  · subst hz
    have hf := deploy_start_flash_zero env s hok
    refine ⟨?_, ?_, fun h => absurd rfl h, ?_⟩
    · intro a ha _
      rw [hf]
      exact erase_page_in _ _ _ _ (by omega) (by omega)
    · intro a ha
      rw [hf]
      exact erase_page_out _ _ _ _ (by omega)
    · intro _
      rw [deploy_start_accept_state env s 0 ((deploy_start_ok_iff env s 0).1 hok), if_pos rfl]
      rfl
  · have hf := deploy_start_flash_nonzero env s sz hok hz
    have h8 := hdr8_flash env.flash_page_size s.flash sz hP hlt
    refine ⟨?_, ?_, ?_, fun h => absurd h hz⟩
    · intro a ha h
      rcases h with h | h
      · exact absurd h hz
      · rw [hf, h8.2.2 a h]
        exact erase_page_in _ _ _ _ (by omega) (by omega)
    · intro a ha
      rw [hf, h8.2.2 a (by omega)]
      exact erase_page_out _ _ _ _ (by omega)
    · intro _
      rw [hf]
      exact ⟨h8.1, h8.2.1, deploy_start_flash_ops_nonzero env s sz hok hz⟩

set_option maxRecDepth 1000000 in
/-- An instance of C26 as the code has it: deploy_start(64) over the two-page store erases the
first 256-byte page and leaves the second half of the old image, from offset 256 on, in
flash. -/
theorem deploy_start_erases_first_page_witness :
    (8 ≤ page256_env.flash_page_size ∧
      (devsmgr_deploy_start page256_env two_page_store 64).1 = 0) ∧
    (devsmgr_deploy_start page256_env two_page_store 64).2.flash 200 = 255 ∧
    (devsmgr_deploy_start page256_env two_page_store 64).2.flash 256
      = two_page_store.flash 256 ∧
    two_page_store.flash 256 = 129 :=
  have h := deploy_start_erases_first_page page256_env two_page_store 64 (by decide)
    (by decide)
  ⟨⟨by decide, by decide⟩, h.1 200 (by decide) (Or.inr (by decide)),
    h.2.1 256 (by decide), by decide⟩

/-! ## Status events -/

set_option maxRecDepth 100000 in
/-- C27 fails on the code: two restart requests in a row after boot, with nothing stored and
no context, emit two status-changed events that carry the same status, WaitingForInput; the
second stop, of a manager that is already stopped, emits an event although the status did
not change. -/
theorem status_event_repeats :
    (run demo_env boot_state [Op.restart]).ctx = none ∧
    current_status (run demo_env boot_state [Op.restart]) = Status.WAITING_FOR_INPUT ∧
    (run demo_env boot_state [Op.restart]).events =
      [Event.status_code_changed Status.WAITING_FOR_INPUT] ∧
    (run demo_env boot_state [Op.restart, Op.restart]).events =
      [Event.status_code_changed Status.WAITING_FOR_INPUT,
       Event.status_code_changed Status.WAITING_FOR_INPUT] := by
  decide

theorem current_status_send_status (s : State) :
    current_status (send_status s) = current_status s := rfl

/-- C27 as the code has it: send_status compares nothing.  Every call appends exactly one
status-changed event, which carries the current status, and sets the running flag from it;
so stop_program and try_run each publish exactly one status event, the status of the state
they leave, also when it equals the status published before: stopping a manager that has no
context publishes the status it already had. -/
theorem status_event_on_every_publish (env : Env) (s : State) :
    (send_status s).events = s.events ++ [Event.status_code_changed (current_status s)] ∧
    current_status (send_status s) = current_status s ∧
    (send_status s).running = (if current_status s = Status.READY then 1 else 0) ∧
    (stop_program s).events =
      s.events ++ [Event.status_code_changed (current_status (stop_program s))] ∧
    (try_run env s).events =
      s.events ++ [Event.status_code_changed (current_status (try_run env s))] ∧
    (s.ctx = none →
      current_status (stop_program s) = current_status s ∧
      (stop_program s).events = s.events ++ [Event.status_code_changed (current_status s)]) := by
  refine ⟨rfl, rfl, rfl, rfl, ?_, ?_⟩
  · rw [try_run_eq]
    split_ifs
    · rw [send_status_events, current_status_send_status, (run_img_frame env s _ _).1]
    · rw [send_status_events, current_status_send_status, (run_img_frame env s _ _).1]
  · intro h
    have hs : ({ s with ctx := none } : State) = s := by
      cases s
      simp only [State.mk.injEq] at h ⊢
      simp_all
    unfold stop_program
    rw [hs]
    exact ⟨rfl, rfl⟩

set_option maxRecDepth 1000000 in
/-- C28 fails on the code: over a stored valid program with a running context,
deploy_start(0) is accepted; the last status-changed event it leaves is the one of its
stop_program, sent before the erase, and carries Sleeping, while current_status of the
resulting state is WaitingForInput: the function returns before the send_status that the
path for a nonzero size ends with.  deploy_start(64) from the same state publishes
WaitingForInput last. -/
theorem clear_publishes_stale_status :
    (devs_header stored_state).isSome = true ∧ stored_state.ctx.isSome = true ∧
    (devsmgr_deploy_start demo_env stored_state 0).1 = 0 ∧
    (devsmgr_deploy_start demo_env stored_state 0).2.events =
      stored_state.events ++ [Event.status_code_changed Status.SLEEPING] ∧
    (devsmgr_deploy_start demo_env stored_state 0).2.events.getLast? =
      some (Event.status_code_changed Status.SLEEPING) ∧
    current_status (devsmgr_deploy_start demo_env stored_state 0).2 =
      Status.WAITING_FOR_INPUT ∧
    (devsmgr_deploy_start demo_env stored_state 64).2.events =
      stored_state.events ++ [Event.status_code_changed Status.SLEEPING,
        Event.status_code_changed Status.WAITING_FOR_INPUT] ∧
    current_status (devsmgr_deploy_start demo_env stored_state 64).2 =
      Status.WAITING_FOR_INPUT := by
  decide

/-! ## When a poll starts the program -/

theorem process_autostart_ctx (env : Env) (s : State) :
    ((jd_should_sample s.now s.next_restart (SECONDS 8)).1 = true ∧ s.autostart ≠ 0
        ∧ s.ctx = none →
      process_autostart env s =
        try_run env { s with next_restart := (jd_should_sample s.now s.next_restart
          (SECONDS 8)).2 }) ∧
    (¬ ((jd_should_sample s.now s.next_restart (SECONDS 8)).1 = true ∧ s.autostart ≠ 0
        ∧ s.ctx = none) →
      (process_autostart env s).ctx = s.ctx) ∧
    (process_autostart env s).autostart = s.autostart := by
  unfold process_autostart
  generalize jd_should_sample s.now s.next_restart (SECONDS 8) = js
  obtain ⟨b, d⟩ := js
  simp only []
  refine ⟨?_, ?_, ?_⟩
  · intro ⟨h1, h2, h3⟩
    rw [if_pos h1, if_pos ⟨h2, by rw [h3]; rfl⟩]
  · intro h
    by_cases h1 : b = true
    · rw [if_pos h1]
      by_cases h2 : s.autostart ≠ 0 ∧ s.ctx.isNone = true
      · exfalso
        apply h
        refine ⟨h1, h2.1, ?_⟩
        cases hc : s.ctx with
        | none => rfl
        | some c => rw [hc] at h2; simp at h2
      · rw [if_neg h2]
    · rw [if_neg h1]
  · by_cases h1 : b = true
    · rw [if_pos h1]
      split_ifs
      · rw [try_run_eq]
        unfold run_img
        split_ifs <;> rfl
      · rfl
    · rw [if_neg h1]

theorem process_fault_ctx (env : Env) (s : State) (code pc : Nat) :
    (code = 0 → process_fault env s code pc = s) ∧
    (s.ctx = none → process_fault env s code pc = s) ∧
    (code ≠ 0 → (process_fault env s code pc).ctx = none) ∧
    (process_fault env s code pc).autostart = s.autostart := by
  refine ⟨?_, ?_, ?_, ?_⟩
  · intro h
    rw [h, process_fault_zero]
  · intro h
    unfold process_fault
    rw [if_pos (by rw [h]; rfl)]
  · intro hc
    cases hs : s.ctx with
    | none =>
      unfold process_fault
      rw [if_pos (by rw [hs]; rfl)]
      exact hs
    | some c =>
      rw [process_fault_nonzero env s code pc (by rw [hs]; rfl) hc]
      rfl
  · cases hs : s.ctx with
    | none =>
      unfold process_fault
      rw [if_pos (by rw [hs]; rfl)]
    | some c =>
      by_cases hc : code = 0
      · rw [hc, process_fault_zero]
      · rw [process_fault_nonzero env s code pc (by rw [hs]; rfl) hc]
        rfl

/-- A poll with autostart zero and no context leaves both as they are. -/
theorem process_no_autostart (env : Env) (s : State) (r : Int) (code pc : Nat)
    (ha : s.autostart = 0) (hc : s.ctx = none) :
    (devsmgr_process env s r code pc).autostart = 0 ∧
    (devsmgr_process env s r code pc).ctx = none := by
  obtain ⟨a1, _, _, _, _, a6⟩ := process_readback_frame env s r
  unfold devsmgr_process
  generalize process_readback env s r = m at a1 a6 ⊢
  obtain ⟨_, b2, b3⟩ := process_autostart_ctx env m
  have hctx : (process_autostart env m).ctx = none := by
    rw [b2 (fun h => h.2.1 (by rw [a6, ha])), a1, hc]
  obtain ⟨_, c2, _, c4⟩ := process_fault_ctx env (process_autostart env m) code pc
  rw [c2 hctx]
  exact ⟨by rw [b3, a6, ha], hctx⟩

/-- C29: a poll leaves a context where there was none only if the restart timer fired in
that poll (the deadline next_restart was not in the future), autostart is nonzero and no
context existed, and in that case what it did is try_run.  While a context exists a poll
never replaces it: the context is kept when the engine reports code 0 and destroyed when it
reports a fault.  With autostart zero and no context, no sequence of polls and ticks creates
a context. -/
theorem poll_starts_only_on_timer (env : Env) (s : State) (r : Int) (code pc : Nat) :
    (s.ctx = none → (devsmgr_process env s r code pc).ctx ≠ none →
      in_future s.now s.next_restart = false ∧ s.autostart ≠ 0 ∧
      (devsmgr_process env s r code pc).ctx =
        (try_run env { process_readback env s r with
          next_restart := (s.now + SECONDS 8) % U32 }).ctx) ∧
    (∀ c, s.ctx = some c →
      (code = 0 → (devsmgr_process env s r code pc).ctx = some c) ∧
      (code ≠ 0 → (devsmgr_process env s r code pc).ctx = none)) ∧
    (s.autostart = 0 → s.ctx = none →
      ∀ ops : List Op, (∀ op ∈ ops, op.is_poll = true) →
        (run env s ops).ctx = none ∧ (run env s ops).autostart = 0) := by
  refine ⟨?_, ?_, ?_⟩
  · intro hc hne
    obtain ⟨a1, _, a3, a4, _, a6⟩ := process_readback_frame env s r
    unfold devsmgr_process at hne ⊢
    generalize process_readback env s r = m at a1 a3 a4 a6 hne ⊢
    obtain ⟨b1, b2, _⟩ := process_autostart_ctx env m
    by_cases hf : (jd_should_sample m.now m.next_restart (SECONDS 8)).1 = true
        ∧ m.autostart ≠ 0 ∧ m.ctx = none
    · have hfut : in_future s.now s.next_restart = false := by
        have h1 := hf.1
        unfold jd_should_sample at h1
        rw [a3, a4] at h1
        cases hif : in_future s.now s.next_restart with
        | false => rfl
        | true => rw [hif] at h1; simp at h1
      have hd : (jd_should_sample m.now m.next_restart (SECONDS 8)).2
          = (s.now + SECONDS 8) % U32 := by
        unfold jd_should_sample
        rw [a3, a4, hfut]
        rfl
      refine ⟨hfut, by rw [← a6]; exact hf.2.1, ?_⟩
      rw [b1 hf, hd]
      by_cases hcode : code = 0
      · rw [(process_fault_ctx env _ code pc).1 hcode]
      · exfalso
        exact hne ((process_fault_ctx env _ code pc).2.2.1 hcode)
    · exfalso
      apply hne
      have hctx : (process_autostart env m).ctx = none := by
        rw [b2 hf, a1, hc]
      rw [(process_fault_ctx env _ code pc).2.1 hctx]
      exact hctx
  · intro c hc
    obtain ⟨a1, _⟩ := process_readback_frame env s r
    unfold devsmgr_process
    generalize process_readback env s r = m at a1 ⊢
    have hctx : (process_autostart env m).ctx = some c := by
      rw [(process_autostart_ctx env m).2.1 (fun h => by rw [a1, hc] at h; cases h.2.2), a1, hc]
    constructor
    · intro h0
      rw [(process_fault_ctx env _ code pc).1 h0]
      exact hctx
    · intro h0
      exact (process_fault_ctx env _ code pc).2.2.1 h0
  · intro ha hc ops
    induction ops generalizing s with
    | nil =>
      intro _
      rw [run_nil]
      exact ⟨hc, ha⟩
    | cons op ops ih =>
      intro hall
      rw [run_cons]
      have hop := hall op (List.mem_cons_self _ _)
      have hrest : ∀ o ∈ ops, o.is_poll = true :=
        fun o ho => hall o (List.mem_cons_of_mem _ ho)
      cases op with
      | tick t =>
        rw [step_tick]
        exact ih _ ha hc hrest
      | process r2 code2 pc2 =>
        rw [step_process]
        obtain ⟨h1, h2⟩ := process_no_autostart env s r2 code2 pc2 ha hc
        exact ih _ h1 h2 hrest
      | restart => cases hop
      | deploy_start sz => cases hop
      | deploy_write buf => cases hop
      | deploy img => cases hop
      | packet cmd => cases hop

/-! ## Where a chunk is programmed -/

/-- Over a store cleared by deploy_start(0), every chunk is rejected, also when an earlier
session left write_offset behind. -/
theorem chunk_after_clear_rejected (env : Env) (hwf : env.wf) (s : State)
    (hs : session_inv env s) (hok : (devsmgr_deploy_start env s 0).1 = 0)
    (data : List Nat) :
    (devsmgr_deploy_write env (devsmgr_deploy_start env s 0).2 (some data)).1 = -1 := by
  have hP : 128 ≤ env.flash_page_size := hwf.2.1
  have hU := hwf.2.2.2
  have hwo := deploy_start_zero_write_offset env s hok
  obtain ⟨_, hend⟩ := deploy_start_zero_endp env hP s hok
  by_cases hw : s.write_offset = 0
  · rw [deploy_write_idle env _ _ (by rw [hwo]; exact hw)]
  · rcases hs with h0 | ⟨g1, g2, _, _, _⟩
    · exact absurd h0 hw
    rw [deploy_write_chunk_reject env _ data (by rw [hwo]; exact hw)]
    by_cases hn : data.length ≥ env.flash_page_size
    · exact Or.inr (Or.inr hn)
    · right; left
      have he : ((program_header (devsmgr_deploy_start env s 0).2).size + HEADER_SIZE) % U32
          = 127 := hend
      rw [he, hwo, Nat.mod_eq_of_lt (show s.write_offset + data.length < U32 by omega)]
      unfold HEADER_SIZE at g1
      omega

/-- C30: in every reachable state (flash pages a power of two of at least 128 bytes, region
of at least 128 bytes that with one more page fits 32 bits) write_offset is 0 or a multiple
of 32 with 128 <= write_offset < max_program_size.  Every accepted chunk is programmed by one
call at write_offset, and its bytes lie from offset 128 on and below 128 + the declared
size, which is below max_program_size; no byte below offset 128 changes.  The page the write
may erase starts inside the region, and ends inside it when the region is a whole number of
pages.  After a deploy_start(0), which keeps the old write_offset, every chunk is
rejected. -/
theorem chunk_stays_in_image (env : Env) (hwf : env.wf) (s : State) (hr : Reachable env s) :
    (s.write_offset = 0 ∨
      (128 ≤ s.write_offset ∧ s.write_offset < env.max_program_size
        ∧ s.write_offset % 32 = 0)) ∧
    (∀ data, (devsmgr_deploy_write env s (some data)).1 = 0 →
      128 ≤ s.write_offset ∧
      s.write_offset + data.length ≤ 128 + rd32 s.flash 4 ∧
      128 + rd32 s.flash 4 < env.max_program_size ∧
      (∃ e, (devsmgr_deploy_write env s (some data)).2.flash_ops = s.flash_ops ++
        (if s.write_offset / env.flash_page_size
            ≠ (s.write_offset + data.length) / env.flash_page_size then
          [FlashOp.erase ((s.write_offset + data.length) / env.flash_page_size
            * env.flash_page_size)]
        else []) ++ [FlashOp.program s.write_offset data e]) ∧
      (∀ a, a < 128 → (devsmgr_deploy_write env s (some data)).2.flash a = s.flash a) ∧
      (∀ a, 128 + rd32 s.flash 4 ≤ a → a < (s.write_offset + data.length)
          / env.flash_page_size * env.flash_page_size →
        (devsmgr_deploy_write env s (some data)).2.flash a = s.flash a) ∧
      (s.write_offset + data.length) / env.flash_page_size * env.flash_page_size
        < env.max_program_size ∧
      (env.flash_page_size ∣ env.max_program_size →
        (s.write_offset + data.length) / env.flash_page_size * env.flash_page_size
          + env.flash_page_size ≤ env.max_program_size)) ∧
    (∀ data, (devsmgr_deploy_start env s 0).1 = 0 →
      (devsmgr_deploy_write env (devsmgr_deploy_start env s 0).2 (some data)).1 = -1) := by
  have hs := reachable_session_inv env hwf s hr
  have hU := hwf.2.2.2
  have hpg := wf_page_ok env hwf
  have hP := wf_page_pos env hwf
  refine ⟨?_, ?_, fun data hok => chunk_after_clear_rejected env hwf s hs hok data⟩
  · rcases hs with h0 | ⟨g1, g2, g3, _, _⟩
    · exact Or.inl h0
    · exact Or.inr ⟨g1, g2, g3⟩
  · intro data hok
    have hw : s.write_offset ≠ 0 := by
      intro h0
      rw [deploy_write_idle env s _ h0] at hok
      simp at hok
    rcases hs with h0 | ⟨g1, g2, g3, g4, g5⟩
    · exact absurd h0 hw
    obtain ⟨c1, c2, c3⟩ := chunk_accept_cond env s data hw hok
    have hnw : s.write_offset + data.length < U32 := by omega
    rw [Nat.mod_eq_of_lt hnw] at c2
    have hsz := rd32_lt s.flash 4
    have hend : endp s = 128 + rd32 s.flash 4 := by
      unfold endp HEADER_SIZE U32 at *
      omega
    obtain ⟨_, f2, f3⟩ := chunk_accept_fields env hpg s data hw hok hnw
    have hstart : (s.write_offset + data.length) / env.flash_page_size * env.flash_page_size
        ≤ s.write_offset + data.length := page_start_le _ _
    unfold HEADER_SIZE at g1
    refine ⟨g1, by omega, by omega, ⟨_, f3⟩,
      fun a ha => chunk_header_flash env hwf s data
        (Or.inr ⟨g1, g2, g3, g4, g5⟩) a ha, ?_, by omega, ?_⟩
    · intro a h1 h2
      rw [f2, program_bytes_out _ _ _ _ (by omega)]
      split_ifs
      · exact erase_page_out _ _ _ _ (by omega)
      · rfl
    · intro ⟨k, hk⟩
      have hlt : (s.write_offset + data.length) / env.flash_page_size * env.flash_page_size
          < env.flash_page_size * k := by omega
      rw [Nat.mul_comm _ env.flash_page_size] at hlt ⊢
      have hq := Nat.lt_of_mul_lt_mul_left hlt
      have := Nat.mul_le_mul_left env.flash_page_size (Nat.succ_le_of_lt hq)
      rw [hk]
      rw [Nat.mul_succ] at this
      exact this

set_option maxRecDepth 1000000 in
/-- An instance of C30: in the open session for 2048 bytes a chunk of 64 bytes is programmed
at offsets 128 to 191; over the store cleared by deploy_start(0) with the write_offset 128 of
the earlier session, the same chunk is rejected. -/
theorem chunk_stays_in_image_witness :
    demo_env.wf ∧
    (devsmgr_deploy_write demo_env session2048 (some pattern64)).1 = 0 ∧
    (128 ≤ session2048.write_offset ∧
      session2048.write_offset + pattern64.length ≤ 128 + rd32 session2048.flash 4 ∧
      128 + rd32 session2048.flash 4 < demo_env.max_program_size) ∧
    stale_session.write_offset = 128 ∧
    (devsmgr_deploy_write demo_env stale_session (some pattern64)).1 = -1 :=
  have h := chunk_stays_in_image demo_env demo_env_wf session2048
    ⟨fun _ => 0, 0, [Op.deploy_start 2048], rfl⟩
  have h2 := chunk_stays_in_image demo_env demo_env_wf
    (devsmgr_deploy_start demo_env boot_state 64).2
    ⟨fun _ => 0, 0, [Op.deploy_start 64], rfl⟩
  ⟨demo_env_wf, by decide,
    ⟨(h.2.1 pattern64 (by decide)).1, (h.2.1 pattern64 (by decide)).2.1,
      (h.2.1 pattern64 (by decide)).2.2.1⟩,
    by decide, h2.2.2 pattern64 (by decide)⟩

/-! ## A rejected deploy_start -/

/-- C31: a devsmgr_deploy_start that is rejected (which happens exactly when the size is at
least max_program_size - 128, in 32 bits, or not a multiple of 32) returns -1 and leaves the
whole state as it is: flash, context, write_offset, next_restart, running flag, events and
flash calls.  The deploy packet with such a size is ignored: same state, no response. -/
theorem rejected_start_changes_nothing (env : Env) (s : State) (sz : Nat)
    (hrej : (devsmgr_deploy_start env s sz).1 ≠ 0) :
    (sz ≥ (U32 + env.max_program_size - 128) % U32 ∨ sz % 32 ≠ 0) ∧
    devsmgr_deploy_start env s sz = (-1, s) ∧
    (devsmgr_deploy_start env s sz).2.flash = s.flash ∧
    (devsmgr_deploy_start env s sz).2.ctx = s.ctx ∧
    (devsmgr_deploy_start env s sz).2.write_offset = s.write_offset ∧
    (devsmgr_deploy_start env s sz).2.next_restart = s.next_restart ∧
    (devsmgr_deploy_start env s sz).2.running = s.running ∧
    (devsmgr_deploy_start env s sz).2.events = s.events ∧
    (devsmgr_deploy_start env s sz).2.flash_ops = s.flash_ops ∧
    (∀ port, devsmgr_handle_packet env s (Cmd.deploy_bytecode sz port) = (s, none)) ∧
    (∀ buf, devsmgr_deploy_write env (devsmgr_deploy_start env s sz).2 buf
      = devsmgr_deploy_write env s buf) := by
  have hst := deploy_start_reject_state env s sz hrej
  have hc : (devsmgr_deploy_start env s sz).1 = -1 := by
    rcases deploy_start_result env s sz with h | h
    · exact absurd h hrej
    · exact h
  have hsz : sz ≥ (U32 + env.max_program_size - 128) % U32 ∨ sz % 32 ≠ 0 := by
    by_contra hn
    apply hrej
    rw [deploy_start_ok_iff, land_align]
    exact hn
  have hpair : devsmgr_deploy_start env s sz = (-1, s) := Prod.ext hc hst
  refine ⟨hsz, hpair, ?_⟩
  rw [hst]
  refine ⟨rfl, rfl, rfl, rfl, rfl, rfl, rfl, ?_, fun _ => rfl⟩
  intro port
  rw [handle_packet_deploy]
  unfold deploy_bytecode
  rw [hpair]
  rfl

set_option maxRecDepth 100000 in
/-- An instance of C31: with a program stored and running, deploy_start(40) is rejected (40
is not a multiple of 32) and the context is kept; in the open session for 256 bytes with 64
bytes written, deploy_start(8192) is rejected (the region has 4096 bytes) and the session
stays at write_offset 192. -/
theorem rejected_start_changes_nothing_witness :
    (devsmgr_deploy_start demo_env stored_state 40).1 ≠ 0 ∧
    stored_state.ctx.isSome = true ∧
    (devsmgr_deploy_start demo_env stored_state 40).2.ctx = stored_state.ctx ∧
    (devsmgr_deploy_start demo_env short_session 8192).1 ≠ 0 ∧
    short_session.write_offset = 192 ∧
    (devsmgr_deploy_start demo_env short_session 8192).2.write_offset
      = short_session.write_offset :=
  have h1 := rejected_start_changes_nothing demo_env stored_state 40 (by decide)
  have h2 := rejected_start_changes_nothing demo_env short_session 8192 (by decide)
  ⟨by decide, by decide, h1.2.2.2.1, by decide, by decide, h2.2.2.2.2.1⟩

/-! ## Finalize and write_offset -/

theorem finalize_write_offset (env : Env) (s : State) :
    (devsmgr_deploy_write env s none).2.write_offset = s.write_offset := by
  by_cases hw : s.write_offset = 0
  · rw [deploy_write_idle env s none hw]
  · by_cases he : s.write_offset = endp s
    · exact (finalize_accept_flash env s hw he).2
    · rw [deploy_write_finalize_reject env s hw he]

theorem finalize_failed_state (env : Env) (s : State)
    (h : (devsmgr_deploy_write env s none).1 ≠ 0) :
    devsmgr_deploy_write env s none = (-1, s) := by
  by_cases hw : s.write_offset = 0
  · exact deploy_write_idle env s none hw
  · by_cases he : s.write_offset = endp s
    · exact absurd (finalize_accept_fields env s hw he).1 h
    · exact deploy_write_finalize_reject env s hw he

theorem finalize_ok_cond (env : Env) (s : State)
    (h : (devsmgr_deploy_write env s none).1 = 0) :
    s.write_offset ≠ 0 ∧ s.write_offset = endp s := by
  by_cases hw : s.write_offset = 0
  · rw [deploy_write_idle env s none hw] at h
    simp at h
  · by_cases he : s.write_offset = endp s
    · exact ⟨hw, he⟩
    · rw [deploy_write_finalize_reject env s hw he] at h
      simp at h

/-- Programming the same bytes a second time changes nothing. -/
theorem program_bytes_twice (f : Nat → Nat) (off : Nat) (data : List Nat) :
    program_bytes (program_bytes f off data) off data = program_bytes f off data := by
  funext a
  unfold program_bytes
  by_cases h : off ≤ a ∧ a < off + data.length
  · rw [if_pos h, if_pos h, Nat.land_assoc, Nat.and_self]
  · rw [if_neg h, if_neg h]

/-- C32: finalize never changes write_offset, in any state.  A finalize that fails leaves
the whole state as it is; in particular, in a session that has written only the first k
bytes of the image, finalize fails, and writing the remaining bytes (in chunks that are
multiples of 32 below the page size) and finalizing again commits the program.  In a
reachable state, after a finalize that succeeds write_offset is still 128 + the declared
size, every further chunk of nonzero length is rejected, and a finalize repeated at once
succeeds again and leaves every flash byte as it is. -/
theorem finalize_keeps_write_offset (env : Env) (hwf : env.wf) (s : State)
    (hr : Reachable env s) :
    (∀ t : State, (devsmgr_deploy_write env t none).2.write_offset = t.write_offset) ∧
    ((devsmgr_deploy_write env s none).1 ≠ 0 → devsmgr_deploy_write env s none = (-1, s)) ∧
    (∀ base img k, sess env base img k s → is_bytes img → img.length + 128 < U32 →
      k < img.length →
      devsmgr_deploy_write env s none = (-1, s) ∧
      ∀ cs : List (List Nat), img.drop k = cs.flatten →
        (∀ c ∈ cs, c.length % 32 = 0 ∧ c.length < env.flash_page_size) →
        (∀ r ∈ write_results env (devsmgr_deploy_write env s none).2 (cs.map some), r = 0) ∧
        (devsmgr_deploy_write env
          (write_run env (devsmgr_deploy_write env s none).2 (cs.map some)) none).1 = 0 ∧
        devs_header (devsmgr_deploy_write env
          (write_run env (devsmgr_deploy_write env s none).2 (cs.map some)) none).2 =
          some { magic0 := DEVSMGR_PROG_MAGIC0, size := img.length,
                 magic1 := DEVSMGR_PROG_MAGIC1, hash := jd_hash_fnv1a img } ∧
        image (devsmgr_deploy_write env
          (write_run env (devsmgr_deploy_write env s none).2 (cs.map some)) none).2
          0 img.length = img) ∧
    ((devsmgr_deploy_write env s none).1 = 0 →
      (devsmgr_deploy_write env s none).2.write_offset = 128 + rd32 s.flash 4 ∧
      rd32 (devsmgr_deploy_write env s none).2.flash 4 = rd32 s.flash 4 ∧
      (∀ data : List Nat, data.length ≠ 0 →
        (devsmgr_deploy_write env (devsmgr_deploy_write env s none).2 (some data)).1 = -1) ∧
      (devsmgr_deploy_write env (devsmgr_deploy_write env s none).2 none).1 = 0 ∧
      (devsmgr_deploy_write env (devsmgr_deploy_write env s none).2 none).2.flash
        = (devsmgr_deploy_write env s none).2.flash) := by
  refine ⟨finalize_write_offset env, finalize_failed_state env s, ?_, ?_⟩
  · intro base img k hs hb hlen hk
    have hfail : devsmgr_deploy_write env s none = (-1, s) := by
      obtain ⟨hwo, _, hsz, _⟩ := hs
      apply deploy_write_finalize_reject env s (by omega)
      show s.write_offset ≠ (rd32 s.flash 4 + HEADER_SIZE) % U32
      rw [hsz, hwo]
      unfold HEADER_SIZE
      rw [Nat.mod_eq_of_lt hlen]
      omega
    refine ⟨hfail, ?_⟩
    intro cs hd hc
    rw [hfail]
    dsimp only
    obtain ⟨l1, l2⟩ := chunks_run_sess env (wf_page_ok env hwf) base img hb hlen cs k s hs
      (by omega) hd hc
    obtain ⟨g1, g2, g3, _⟩ := sess_finalize env base img hlen _ l1
    exact ⟨l2, g1, g2, g3⟩
  · intro hok
    obtain ⟨hw, he⟩ := finalize_ok_cond env s hok
    have hU := hwf.2.2.2
    rcases reachable_session_inv env hwf s hr with h0 | ⟨g1, g2, _, _, _⟩
    · exact absurd h0 hw
    have hsz := rd32_lt s.flash 4
    have hend : endp s = 128 + rd32 s.flash 4 := by
      have h1 : endp s = s.write_offset := he.symm
      unfold endp HEADER_SIZE U32 at *
      omega
    obtain ⟨f1, f2⟩ := finalize_accept_flash env s hw he
    have hout : ∀ a, a < 8 ∨ 128 ≤ a →
        (devsmgr_deploy_write env s none).2.flash a = s.flash a := by
      intro a ha
      rw [f1]
      exact program_bytes_out _ _ _ _ (by rw [finalize_bytes_length]; omega)
    have hw4 : rd32 (devsmgr_deploy_write env s none).2.flash 4 = rd32 s.flash 4 :=
      rd32_congr _ _ 4 (fun a _ h2 => hout a (by omega))
    have hend2 : endp (devsmgr_deploy_write env s none).2 = endp s := by
      unfold endp
      rw [hw4]
    have hw2 : (devsmgr_deploy_write env s none).2.write_offset ≠ 0 := by rw [f2]; exact hw
    have he2 : (devsmgr_deploy_write env s none).2.write_offset
        = endp (devsmgr_deploy_write env s none).2 := by rw [f2, hend2]; exact he
    refine ⟨by rw [f2, he, hend], hw4, ?_, (finalize_accept_fields env _ hw2 he2).1, ?_⟩
    · intro data hn
      rw [deploy_write_chunk_reject env _ data hw2]
      by_cases hp : data.length ≥ env.flash_page_size
      · exact Or.inr (Or.inr hp)
      · right; left
        have he3 : ((program_header (devsmgr_deploy_write env s none).2).size + HEADER_SIZE)
            % U32 = endp s := hend2
        rw [he3, f2, Nat.mod_eq_of_lt (show s.write_offset + data.length < U32 by omega), ← he]
        omega
    · have himg : image (devsmgr_deploy_write env s none).2 0 (rd32 s.flash 4)
          = image s 0 (rd32 s.flash 4) :=
        image_congr s _ 0 _ (fun a ha => hout a (Or.inr ha))
      rw [(finalize_accept_flash env _ hw2 he2).1, hw4, himg]
      rw [f1]
      exact program_bytes_twice _ _ _

set_option maxRecDepth 1000000 in
/-- An instance of C32: with 64 of 256 declared bytes written, finalize fails and
write_offset stays 192; with all 64 declared bytes written, finalize succeeds, write_offset
stays 192, the chunk pattern64 is then rejected and a second finalize succeeds. -/
theorem finalize_keeps_write_offset_witness :
    demo_env.wf ∧
    (short_session.write_offset = 192 ∧
      (devsmgr_deploy_write demo_env short_session none).1 ≠ 0) ∧
    (devsmgr_deploy_write demo_env short_session none).2.write_offset
      = short_session.write_offset ∧
    (full_session.write_offset = 192 ∧ (devsmgr_deploy_write demo_env full_session none).1 = 0) ∧
    (devsmgr_deploy_write demo_env full_session none).2.write_offset
      = 128 + rd32 full_session.flash 4 ∧
    (devsmgr_deploy_write demo_env (devsmgr_deploy_write demo_env full_session none).2
      (some pattern64)).1 = -1 ∧
    (devsmgr_deploy_write demo_env (devsmgr_deploy_write demo_env full_session none).2
      none).1 = 0 :=
  have h1 := finalize_keeps_write_offset demo_env demo_env_wf short_session
    ⟨fun _ => 0, 0, [Op.deploy_start 256, Op.deploy_write (some pattern64)], rfl⟩
  have h2 := finalize_keeps_write_offset demo_env demo_env_wf full_session
    ⟨fun _ => 0, 0, [Op.deploy_start 64, Op.deploy_write (some pattern64)], rfl⟩
  ⟨demo_env_wf, ⟨by decide, by decide⟩, h1.1 short_session, ⟨by decide, by decide⟩,
    (h2.2.2.2 (by decide)).1, (h2.2.2.2 (by decide)).2.2.1 pattern64 (by decide),
    (h2.2.2.2 (by decide)).2.2.2.1⟩

/-! ## The generated tables -/

theorem builtin_objects_complete (o : DEVS_BUILTIN_OBJECT) : o ∈ builtin_objects := by
  cases o <;> decide

set_option maxRecDepth 100000 in
theorem entries_consistent (o : DEVS_BUILTIN_OBJECT) :
    ∀ e ∈ (devs_builtin_protos o).entries, entry_consistent e = true := by
  cases o <;> decide

set_option maxRecDepth 100000 in
theorem devs_builtin_functions_length : devs_builtin_functions.length = 136 := by
  decide

/-- What entry_consistent checks, for an entry that holds a function index. -/
theorem entry_consistent_spec (e : devs_builtin_proto_entry_t) (idx : Nat)
    (h : entry_consistent e = true) (hv : e.value = EntryValue.function idx) :
    50000 ≤ idx ∧ idx < 50000 + 136 ∧
    ∃ row, devs_builtin_functions[idx - 50000]? = some row ∧
      (e.key ≠ DEVS_BUILTIN_STRING.CONSTRUCTOR → e.key ≠ DEVS_BUILTIN_STRING.__FUNC__ →
        row.name = e.key) := by
  unfold entry_consistent at h
  rw [hv] at h
  simp only [] at h
  unfold builtin_function_row DEVS_FIRST_BUILTIN_FUNCTION at h
  by_cases hb : 50000 ≤ idx
  · rw [if_pos hb] at h
    cases hrow : devs_builtin_functions[idx - 50000]? with
    | none =>
      rw [hrow] at h
      cases h
    | some row =>
      rw [hrow] at h
      simp only [] at h
      have hlt : idx - 50000 < devs_builtin_functions.length := by
        by_contra hn
        rw [List.getElem?_eq_none (by omega)] at hrow
        cases hrow
      rw [devs_builtin_functions_length] at hlt
      refine ⟨hb, by omega, row, rfl, ?_⟩
      intro h1 h2
      simp only [Bool.or_eq_true, beq_iff_eq] at h
      rcases h with (h | h) | h
      · exact absurd h h1
      · exact absurd h h2
      · exact h
  · rw [if_neg hb] at h
    cases h

set_option maxRecDepth 1000000 in
theorem all_rows_referenced :
    ∀ i, i < 136 → 50000 + i ∈ referenced_function_indices := by
  decide

theorem referenced_spec (idx : Nat) (h : idx ∈ referenced_function_indices) :
    ∃ o e, e ∈ (devs_builtin_protos o).entries ∧ e.value = EntryValue.function idx := by
  unfold referenced_function_indices at h
  rw [List.mem_flatMap] at h
  obtain ⟨o, _, ho⟩ := h
  rw [List.mem_filterMap] at ho
  obtain ⟨e, he, hidx⟩ := ho
  refine ⟨o, e, he, ?_⟩
  unfold entry_function_index at hidx
  cases hv : e.value with
  | function i =>
    rw [hv] at hidx
    simp only [Option.some.injEq] at hidx
    rw [hidx]
  | object p =>
    rw [hv] at hidx
    cases hidx

set_option maxRecDepth 100000 in
/-- C33 fails on the code: in devs_builtin_protos the element of SyntaxError.prototype has a
NULL parent, while the elements of TypeError.prototype and RangeError.prototype, built the
same way (one CONSTRUCTOR entry that selects a constructor row), have Error.prototype as
parent.  The rest holds: DsRegister.prototype, DsCommand.prototype and DsEvent.prototype have
DsPacketInfo.prototype as parent, and no element used as a parent has a parent. -/
theorem syntaxerror_prototype_lacks_parent :
    (devs_builtin_protos DEVS_BUILTIN_OBJECT.SYNTAXERROR_PROTOTYPE).parent = none ∧
    (devs_builtin_protos DEVS_BUILTIN_OBJECT.TYPEERROR_PROTOTYPE).parent
      = some DEVS_BUILTIN_OBJECT.ERROR_PROTOTYPE ∧
    (devs_builtin_protos DEVS_BUILTIN_OBJECT.RANGEERROR_PROTOTYPE).parent
      = some DEVS_BUILTIN_OBJECT.ERROR_PROTOTYPE ∧
    (devs_builtin_protos DEVS_BUILTIN_OBJECT.SYNTAXERROR_PROTOTYPE).entries
      = [⟨DEVS_BUILTIN_STRING.CONSTRUCTOR, EntryValue.function 50037⟩] ∧
    (devs_builtin_protos DEVS_BUILTIN_OBJECT.TYPEERROR_PROTOTYPE).entries
      = [⟨DEVS_BUILTIN_STRING.CONSTRUCTOR, EntryValue.function 50036⟩] ∧
    (builtin_function_row 50037).map (fun r => (r.name, r.flags))
      = some (DEVS_BUILTIN_STRING.SYNTAXERROR, CTOR) ∧
    (builtin_function_row 50036).map (fun r => (r.name, r.flags))
      = some (DEVS_BUILTIN_STRING.TYPEERROR, CTOR) ∧
    (devs_builtin_protos DEVS_BUILTIN_OBJECT.DSREGISTER_PROTOTYPE).parent
      = some DEVS_BUILTIN_OBJECT.DSPACKETINFO_PROTOTYPE ∧
    (devs_builtin_protos DEVS_BUILTIN_OBJECT.DSCOMMAND_PROTOTYPE).parent
      = some DEVS_BUILTIN_OBJECT.DSPACKETINFO_PROTOTYPE ∧
    (devs_builtin_protos DEVS_BUILTIN_OBJECT.DSEVENT_PROTOTYPE).parent
      = some DEVS_BUILTIN_OBJECT.DSPACKETINFO_PROTOTYPE ∧
    (∀ o ∈ builtin_objects, ∀ p ∈ (devs_builtin_protos o).parent,
      (devs_builtin_protos p).parent = none) := by
  decide

set_option maxRecDepth 100000 in
/-- C34: devs_num_builtin_functions is the number of rows of devs_builtin_functions, 136.
Every function index stored in an entry table of devs_builtin_protos lies from 50000
(DEVS_FIRST_BUILTIN_FUNCTION) to below 50000 + 136, so the row at index - 50000 exists, and
unless the key of the entry is CONSTRUCTOR or __FUNC__ that row carries the key as its name.
Every one of the 136 rows is selected by an entry of some table.  Every row flagged as a
property has 0 arguments, and no row has more than 11. -/
theorem generated_tables_consistent :
    devs_num_builtin_functions = devs_builtin_functions.length ∧
    devs_builtin_functions.length = 136 ∧
    DEVS_FIRST_BUILTIN_FUNCTION = 50000 ∧
    (∀ (o : DEVS_BUILTIN_OBJECT) (e : devs_builtin_proto_entry_t) (idx : Nat),
      e ∈ (devs_builtin_protos o).entries → e.value = EntryValue.function idx →
      50000 ≤ idx ∧ idx < 50000 + 136 ∧
      ∃ row, devs_builtin_functions[idx - 50000]? = some row ∧
        (e.key ≠ DEVS_BUILTIN_STRING.CONSTRUCTOR → e.key ≠ DEVS_BUILTIN_STRING.__FUNC__ →
          row.name = e.key)) ∧
    (∀ i, i < 136 → ∃ (o : DEVS_BUILTIN_OBJECT) (e : devs_builtin_proto_entry_t),
      e ∈ (devs_builtin_protos o).entries ∧ e.value = EntryValue.function (50000 + i)) ∧
    (∀ row ∈ devs_builtin_functions,
      (DEVS_BUILTIN_FLAG.IS_PROPERTY ∈ row.flags → row.num_args = 0) ∧ row.num_args ≤ 11) := by
  refine ⟨by decide, by decide, rfl, ?_, ?_, by decide⟩
  · intro o e idx he hv
    exact entry_consistent_spec e idx (entries_consistent o e he) hv
  · intro i hi
    exact referenced_spec _ (all_rows_referenced i hi)

end Devsmgr
